import Mathlib

/-!
# Task-tracker front end: API client and session layer

A shallow embedding of the two HTTP client modules of the repository,

* `src/services/api.js` (the browser client built on `fetch` and `localStorage`),
* `react-native-api-service.js` (the mobile client built on `axios` and `AsyncStorage`),

together with the fragment of JavaScript semantics their code relies on
(truthiness, `||`, `ToString`, property lookup, `Object.values`, `Array.prototype.flat`,
`Array.prototype.join`, `URLSearchParams`, `JSON.stringify`).

Asynchronous functions are modelled sequentially: a function that reads or writes
storage takes the storage before the call and returns the storage after it, and a
function that may throw returns an `Except`.  Storage operations themselves are taken
to succeed.  The server and the network are an environment: a function from the
request that was sent to the outcome the transport reports.
-/

namespace TaskTracker

/-! ## JavaScript values -/

/-- JavaScript values as they occur in parsed JSON bodies, filter objects and results.
`num` carries an integer-valued number of magnitude below `2^53` (numbers with a
fractional part and larger numbers, which are not all doubles and which print in
another form, are outside the model); `obj` lists the own enumerable properties in
enumeration order, and these are data: parsed JSON and the object literals of the code
hold no function; `native` is a built-in function object such as
`Object.prototype.toString`, the result of a lookup that reaches `Object.prototype`. -/
inductive JSVal where
  | undefined : JSVal
  | null : JSVal
  | bool (b : Bool) : JSVal
  | num (n : Int) : JSVal
  | str (s : String) : JSVal
  | arr (xs : List JSVal) : JSVal
  | obj (props : List (String × JSVal)) : JSVal
  | native (name : String) : JSVal

namespace JSVal

/-- ToBoolean. -/
def truthy : JSVal → Bool
  | undefined => false
  | null => false
  | bool b => b
  | num n => n != 0
  | str s => s != ""
  | arr _ => true
  | obj _ => true
  | native _ => true

/-- The operator `a || b`. -/
def or (a b : JSVal) : JSVal := if a.truthy then a else b

/-- The operator `a && b`. -/
def and (a b : JSVal) : JSVal := if a.truthy then b else a

end JSVal

/-- Joins the pieces with a separator, as `Array.prototype.join` does once every
element has been converted to a string. -/
def joinWith (sep : String) : List String → String
  | [] => ""
  | [s] => s
  | s :: t :: rest => s ++ sep ++ joinWith sep (t :: rest)

/-- Decimal text of an integer-valued number, as `Number.prototype.toString` gives it
for the integers of magnitude below `2^53` (from `10^21` on JavaScript prints an
exponent, and between the two bounds the shortest digits that give the double back). -/
def numToString (n : Int) : String :=
  match n with
  | Int.ofNat k => Nat.repr k
  | Int.negSucc k => "-" ++ Nat.repr (k + 1)

namespace JSVal

mutual
/-- The text ToString gives when the conversion completes; `toStringRaises` tells when
it does not. -/
def toJSString : JSVal → String
  | undefined => "undefined"
  | null => "null"
  | bool true => "true"
  | bool false => "false"
  | num n => numToString n
  | str s => s
  | arr xs => joinWith "," (elemStrings xs)
  | obj _ => "[object Object]"
  | native name => "function " ++ name ++ "() \x7b [native code] \x7d"
/-- The element strings `Array.prototype.join` concatenates: `undefined` and `null`
give the empty string, every other element its ToString. -/
def elemStrings : List JSVal → List String
  | [] => []
  | undefined :: rest => "" :: elemStrings rest
  | null :: rest => "" :: elemStrings rest
  | v :: rest => toJSString v :: elemStrings rest
end

/-- The text `Array.prototype.join(sep)` gives when the conversion of every element
completes; `joinRaises` tells when it does not. -/
def join (sep : String) (xs : List JSVal) : String := joinWith sep (elemStrings xs)

/-- `Array.prototype.flat()` with the default depth 1. -/
def flat : List JSVal → List JSVal
  | [] => []
  | arr ys :: rest => ys ++ flat rest
  | v :: rest => v :: flat rest

/-- `Object.values(v)` for a value that is neither `undefined` nor `null`: the own
enumerable property values in enumeration order.  A string is seen as its characters
(exact for characters of the Basic Multilingual Plane), numbers, booleans and built-in
functions have none. -/
def objectValues : JSVal → List JSVal
  | obj props => props.map Prod.snd
  | arr xs => xs
  | str s => s.data.map (fun c => str (String.singleton c))
  | _ => []

end JSVal

/-- What a property lookup that misses the own properties of an ordinary object finds on
`Object.prototype`: the built-in methods, the prototype itself for `__proto__`, and
`undefined` for every other key. -/
def objectPrototypeGet (key : String) : JSVal :=
  if key = "constructor" then .native "Object"
  else if key = "__proto__" then .obj []
  else if key ∈ ["toString", "toLocaleString", "valueOf", "hasOwnProperty",
      "isPrototypeOf", "propertyIsEnumerable", "__defineGetter__", "__defineSetter__",
      "__lookupGetter__", "__lookupSetter__"] then .native key
  else .undefined

/-- Own property of a property list. -/
def ownProp (props : List (String × JSVal)) (key : String) : Option JSVal :=
  match props with
  | [] => none
  | (k, v) :: rest => if k = key then some v else ownProp rest key

/-- The lookup `o[key]` on an object literal: own properties first, then
`Object.prototype`. -/
def literalGet (props : List (String × JSVal)) (key : String) : JSVal :=
  match ownProp props key with
  | some v => v
  | none => objectPrototypeGet key

/-! ## Exceptions -/

/-- The constructor of a thrown error. -/
inductive ErrKind where
  | error
  | typeError
  | syntaxError
  deriving DecidableEq, Repr

/-- A thrown `Error` object of the browser client. -/
structure JSError where
  kind : ErrKind
  message : String
  deriving DecidableEq, Repr

/-- The `TypeError` of a ToString that obtains no primitive value. -/
def conversionError : JSError := ⟨.typeError, "Cannot convert object to primitive value"⟩

namespace JSVal

mutual
/-- Whether ToString of the value raises a `TypeError`. An object is converted by its
`toString` method and then by `valueOf`: an own property `toString`, which holds data
and not a function, hides `Object.prototype.toString`, and `valueOf` gives the object
back, so no primitive value is obtained. An array is converted by joining its
elements. -/
def toStringRaises : JSVal → Bool
  | arr xs => joinRaises xs
  | obj props => (ownProp props "toString").isSome
  | _ => false
/-- Whether `Array.prototype.join` raises: `undefined` and `null` are not converted,
every other element is. -/
def joinRaises : List JSVal → Bool
  | [] => false
  | undefined :: rest => joinRaises rest
  | null :: rest => joinRaises rest
  | v :: rest => toStringRaises v || joinRaises rest
end

/-- The call `xs.join(sep)`: the joined text, or the `TypeError` of the conversion of an
element. -/
def joinResult (sep : String) (xs : List JSVal) : Except JSError String :=
  if joinRaises xs then .error conversionError else .ok (join sep xs)

end JSVal

/-- The error raised by `throw new Error(v)`: the `Error` whose message is ToString of
the argument, empty when the argument is `undefined`, or the `TypeError` of that
conversion. -/
def newError (v : JSVal) : JSError :=
  match v with
  | .undefined => ⟨.error, ""⟩
  | w => if w.toStringRaises then conversionError else ⟨.error, w.toJSString⟩

/-- The property read `data.key` for one of the fixed keys the clients read from a
response body (`message`, `errors`, `token`, `user`, `data`, `meta`): a `TypeError`
on `undefined` and `null`, the own property of an object, `undefined` otherwise (none
of these keys is defined on a built-in prototype). -/
def getField (data : JSVal) (key : String) : Except JSError JSVal :=
  match data with
  | .undefined => .error ⟨.typeError, "Cannot read properties of undefined (reading '" ++ key ++ "')"⟩
  | .null => .error ⟨.typeError, "Cannot read properties of null (reading '" ++ key ++ "')"⟩
  | .obj props => .ok ((ownProp props key).getD .undefined)
  | _ => .ok .undefined

/-- The optional read `data?.key`. -/
def getFieldOpt (data : JSVal) (key : String) : JSVal :=
  match data with
  | .obj props => (ownProp props key).getD .undefined
  | _ => .undefined

/-! ## Key/value storage (`localStorage`, `AsyncStorage`) -/

/-- The entries of the store. -/
abbrev Storage := List (String × String)

namespace Storage

/-- The call `getItem(key)`: `none` stands for `null`. -/
def getItem (st : Storage) (key : String) : Option String :=
  match st with
  | [] => none
  | (k, v) :: rest => if k = key then some v else getItem rest key

/-- The call `removeItem(key)`. -/
def removeItem (st : Storage) (key : String) : Storage :=
  st.filter (fun e => e.1 != key)

/-- The call `setItem(key, value)`. -/
def setItem (st : Storage) (key : String) (value : String) : Storage :=
  (key, value) :: removeItem st key

/-- The call `multiRemove(keys)`. -/
def multiRemove (st : Storage) (keys : List String) : Storage :=
  keys.foldl removeItem st

end Storage

/-! ## `URLSearchParams` -/

/-- The list of name/value pairs of a `URLSearchParams` object. -/
abbrev URLSearchParams := List (String × String)

/-- The UTF-8 bytes of a character. -/
def utf8Bytes (c : Char) : List Nat :=
  let n := c.toNat
  if n < 0x80 then [n]
  else if n < 0x800 then [0xC0 + n / 64, 0x80 + n % 64]
  else if n < 0x10000 then [0xE0 + n / 4096, 0x80 + n / 64 % 64, 0x80 + n % 64]
  else [0xF0 + n / 262144, 0x80 + n / 4096 % 64, 0x80 + n / 64 % 64, 0x80 + n % 64]

/-- An uppercase hexadecimal digit. -/
def hexDigit (n : Nat) : Char :=
  if n < 10 then Char.ofNat (48 + n) else Char.ofNat (55 + n)

/-- The `application/x-www-form-urlencoded` byte serializer: a space becomes `+`,
ASCII letters and digits and `*`, `-`, `.`, `_` stay, every other byte is
percent-encoded. -/
def encodeByte (b : Nat) : List Char :=
  if b = 0x20 then ['+']
  else if b = 0x2A ∨ b = 0x2D ∨ b = 0x2E ∨ b = 0x5F ∨ (0x30 ≤ b ∧ b ≤ 0x39) ∨
      (0x41 ≤ b ∧ b ≤ 0x5A) ∨ (0x61 ≤ b ∧ b ≤ 0x7A) then [Char.ofNat b]
  else ['%', hexDigit (b / 16), hexDigit (b % 16)]

/-- Form-urlencoding of a string. -/
def urlencode (s : String) : String :=
  String.mk (s.data.flatMap (fun c => (utf8Bytes c).flatMap encodeByte))

namespace URLSearchParams

/-- The call `append(name, value)`: the value is converted with ToString. -/
def append (p : URLSearchParams) (name : String) (value : JSVal) : URLSearchParams :=
  p ++ [(name, value.toJSString)]

/-- The call `toString()`. -/
def serialize (p : URLSearchParams) : String :=
  joinWith "&" (p.map (fun e => urlencode e.1 ++ "=" ++ urlencode e.2))

/-- Whether a parameter of that name is in the list. -/
def has (p : URLSearchParams) (name : String) : Bool :=
  p.any (fun e => e.1 == name)

/-- The values of the parameters of that name (`getAll`). -/
def getAll (p : URLSearchParams) (name : String) : List String :=
  (p.filter (fun e => e.1 == name)).map Prod.snd

end URLSearchParams

/-! ## `JSON.stringify` -/

/-- A lowercase hexadecimal digit. -/
def hexDigitLower (n : Nat) : Char :=
  if n < 10 then Char.ofNat (48 + n) else Char.ofNat (87 + n)

/-- The escape of one character inside a JSON string literal. -/
def jsonEscapeChar (c : Char) : List Char :=
  if c = '"' then ['\\', '"']
  else if c = '\\' then ['\\', '\\']
  else if c.toNat = 8 then ['\\', 'b']
  else if c.toNat = 9 then ['\\', 't']
  else if c.toNat = 10 then ['\\', 'n']
  else if c.toNat = 12 then ['\\', 'f']
  else if c.toNat = 13 then ['\\', 'r']
  else if c.toNat < 32 then
    ['\\', 'u', '0', '0', hexDigitLower (c.toNat / 16), hexDigitLower (c.toNat % 16)]
  else [c]

/-- A JSON string literal. -/
def jsonQuote (s : String) : String :=
  String.mk ('"' :: (s.data.flatMap jsonEscapeChar ++ ['"']))

mutual
/-- The text `JSON.stringify` produces, `none` where it returns `undefined`. -/
def stringifyVal : JSVal → Option String
  | .undefined => none
  | .native _ => none
  | .null => some "null"
  | .bool true => some "true"
  | .bool false => some "false"
  | .num n => some (numToString n)
  | .str s => some (jsonQuote s)
  | .arr xs => some ("[" ++ joinWith "," (stringifyElems xs) ++ "]")
  | .obj props => some ("\x7b" ++ joinWith "," (stringifyProps props) ++ "\x7d")
/-- Array elements: what has no JSON text is written `null`. -/
def stringifyElems : List JSVal → List String
  | [] => []
  | v :: rest => (stringifyVal v).getD "null" :: stringifyElems rest
/-- Object members: a property whose value has no JSON text is left out. -/
def stringifyProps : List (String × JSVal) → List String
  | [] => []
  | (k, v) :: rest =>
    match stringifyVal v with
    | some t => (jsonQuote k ++ ":" ++ t) :: stringifyProps rest
    | none => stringifyProps rest
end

/-- The call `JSON.stringify(v)`. -/
def jsonStringify (v : JSVal) : JSVal :=
  match stringifyVal v with
  | some t => .str t
  | none => .undefined

/-! ## The filter blocks of `tasksAPI.getTasks`

The two clients build the query with the same statements; the blocks are shared here. -/

/-- The `filters` argument of `tasksAPI.getTasks`: the fields the two clients read, each
`undefined` when the object does not have it (the mobile client reads neither
`due_from` nor `due_to`). -/
structure TaskFilters where
  status : JSVal
  priority : JSVal
  search : JSVal
  due_from : JSVal
  due_to : JSVal
  page : JSVal
  per_page : JSVal

/-- The default `filters = {}`. -/
def TaskFilters.empty : TaskFilters :=
  ⟨.undefined, .undefined, .undefined, .undefined, .undefined, .undefined, .undefined⟩

/-- The object literal `statusMap`. -/
def statusMap : List (String × JSVal) :=
  [("completed", .str "done"), ("pending", .str "open")]

/-- The comparison `v !== 'all'`. -/
def notAll : JSVal → Bool
  | .str s => s != "all"
  | _ => true

/-- The status block of `getTasks`. -/
def appendStatus (queryParams : URLSearchParams) (status : JSVal) : URLSearchParams :=
  if status.truthy && notAll status then
    let mapped := literalGet statusMap status.toJSString
    if mapped.truthy then queryParams.append "status" mapped else queryParams
  else queryParams

/-- A block `if (value) queryParams.append(name, value)`. -/
def appendIfTruthy (queryParams : URLSearchParams) (name : String) (value : JSVal) :
    URLSearchParams :=
  if value.truthy then queryParams.append name value else queryParams

/-- The priority block of `getTasks`. -/
def appendPriority (queryParams : URLSearchParams) (priority : JSVal) : URLSearchParams :=
  if priority.truthy && notAll priority then queryParams.append "priority" priority
  else queryParams

/-! ## The browser client, `src/services/api.js` -/

namespace Web

/-- The request handed to `fetch`. -/
structure FetchRequest where
  url : String
  method : Option String
  headers : List (String × String)
  body : Option String
  deriving DecidableEq, Repr

/-- A response of `fetch`: status line and what `response.json()` settles to (the
parsed body, or the error it rejects with when the body is not JSON). -/
structure HttpResponse where
  status : Nat
  statusText : String
  json : Except JSError JSVal

/-- The flag `response.ok`. -/
def HttpResponse.ok (r : HttpResponse) : Bool := 200 ≤ r.status && r.status ≤ 299

/-- What `fetch` settles to. -/
inductive FetchOutcome where
  | rejected (e : JSError)
  | responded (r : HttpResponse)

/-- The environment of the client: the build-time variable `VITE_API_BASE_URL` and the
network. -/
structure Env where
  viteApiBaseUrl : JSVal
  fetch : FetchRequest → FetchOutcome

/-- The constant `API_BASE_URL`. -/
def API_BASE_URL (env : Env) : String :=
  (env.viteApiBaseUrl.or (.str "http://localhost:8000/api")).toJSString

/-- The `options` argument of `apiCall`, with the fields its callers pass. The body is
always a string here, never a `FormData`. -/
structure CallOptions where
  method : Option String
  body : Option String
  headers : List (String × String)

/-- The default `options = {}`. -/
def CallOptions.empty : CallOptions := ⟨none, none, []⟩

/-- One step of an object spread: an existing key keeps its place and takes the new
value, a new key goes to the end. -/
def assignHeader (hs : List (String × String)) (kv : String × String) :
    List (String × String) :=
  if hs.any (fun h => h.1 == kv.1) then hs.map (fun h => if h.1 == kv.1 then (h.1, kv.2) else h)
  else hs ++ [kv]

/-- The `headers` object built by `apiCall`. -/
def buildHeaders (token : Option String) (options : CallOptions) : List (String × String) :=
  let base : List (String × String) := [("Content-Type", "application/json")]
  let withAuth :=
    match token with
    | some t => if t != "" then assignHeader base ("Authorization", "Bearer " ++ t) else base
    | none => base
  options.headers.foldl assignHeader withAuth

/-- The `catch` clause of `apiCall`. -/
def catchClause (e : JSError) : JSError :=
  if e.kind = .typeError ∧ e.message = "Failed to fetch" then
    ⟨.error, "Network error. Please check if the API server is running."⟩
  else e

/-- The body of the `try` block of `apiCall` once `fetch` has settled. -/
def tryBlock (st : Storage) (out : FetchOutcome) : Storage × Except JSError JSVal :=
  match out with
  | .rejected e => (st, .error e)
  | .responded response =>
    match response.json with
    | .error e => (st, .error e)
    | .ok data =>
      if !response.ok then
        if response.status = 401 then
          ((st.removeItem "auth_token").removeItem "user",
            .error (newError (.str "Unauthorized. Please login again.")))
        else
          match (if response.status = 422 then getField data "errors" else .ok (.bool false)) with
          | .error e => (st, .error e)
          | .ok errors =>
            if errors.truthy then
              match JSVal.joinResult ", " (JSVal.flat (JSVal.objectValues errors)) with
              | .error e => (st, .error e)
              | .ok errorMessages =>
                match getField data "message" with
                | .error e => (st, .error e)
                | .ok message =>
                  (st, .error (newError (((JSVal.str errorMessages).or message).or
                    (.str "Validation error"))))
            else
              match getField data "message" with
              | .error e => (st, .error e)
              | .ok message =>
                (st, .error (newError (message.or (.str ("Error: " ++ response.statusText)))))
      else (st, .ok data)

/-- The arguments of the `fetch` call of `apiCall`: the URL and the `config` object. -/
def buildRequest (env : Env) (st : Storage) (endpoint : String) (options : CallOptions) :
    FetchRequest :=
  let token := st.getItem "auth_token"
  ⟨API_BASE_URL env ++ endpoint, options.method, buildHeaders token options, options.body⟩

/-- The function `apiCall(endpoint, options)`: storage before, storage after and
either the parsed body or the error thrown. -/
def apiCall (env : Env) (st : Storage) (endpoint : String) (options : CallOptions) :
    Storage × Except JSError JSVal :=
  match tryBlock st (env.fetch (buildRequest env st endpoint options)) with
  | (st1, .error e) => (st1, .error (catchClause e))
  | (st1, .ok data) => (st1, .ok data)

/-- The `if (data.token) { ... }` block shared by `register` and `login`: both writes
happen when the token is truthy, whatever `data.user` is. -/
def storeSession (st : Storage) (data : JSVal) : Storage × Except JSError JSVal :=
  match getField data "token" with
  | .error e => (st, .error e)
  | .ok token =>
    if token.truthy then
      let st1 := st.setItem "auth_token" token.toJSString
      match getField data "user" with
      | .error e => (st1, .error e)
      | .ok user => (st1.setItem "user" (jsonStringify user).toJSString, .ok data)
    else (st, .ok data)

namespace authAPI

/-- The object `register` passes to `JSON.stringify`. -/
def registerPayload (name email password passwordConfirmation : JSVal) : JSVal :=
  .obj [("name", name), ("email", email), ("password", password),
    ("password_confirmation", passwordConfirmation.or password)]

/-- The `options` argument of the `apiCall` of `register`. -/
def registerOptions (name email password passwordConfirmation : JSVal) : CallOptions :=
  ⟨some "POST",
    some (jsonStringify (registerPayload name email password passwordConfirmation)).toJSString, []⟩

/-- The function `authAPI.register(name, email, password, passwordConfirmation)`. -/
def register (env : Env) (st : Storage) (name email password passwordConfirmation : JSVal) :
    Storage × Except JSError JSVal :=
  match apiCall env st "/register" (registerOptions name email password passwordConfirmation) with
  | (st1, .error e) => (st1, .error e)
  | (st1, .ok data) => storeSession st1 data

/-- The object `login` passes to `JSON.stringify`. -/
def loginPayload (email password : JSVal) : JSVal :=
  .obj [("email", email), ("password", password)]

/-- The `options` argument of the `apiCall` of `login`. -/
def loginOptions (email password : JSVal) : CallOptions :=
  ⟨some "POST", some (jsonStringify (loginPayload email password)).toJSString, []⟩

/-- The function `authAPI.login(email, password)`. -/
def login (env : Env) (st : Storage) (email password : JSVal) :
    Storage × Except JSError JSVal :=
  match apiCall env st "/login" (loginOptions email password) with
  | (st1, .error e) => (st1, .error e)
  | (st1, .ok data) => storeSession st1 data

/-- The function `authAPI.logout()`: the error of the call is logged and dropped, the
`finally` block removes both entries. -/
def logout (env : Env) (st : Storage) : Storage × Except JSError Unit :=
  match apiCall env st "/logout" ⟨some "POST", none, []⟩ with
  | (st1, _) => ((st1.removeItem "auth_token").removeItem "user", .ok ())

end authAPI

namespace tasksAPI

/-- The `queryParams` object `getTasks` has built when it serializes it. -/
def getTasksParams (filters : TaskFilters) : URLSearchParams :=
  let q0 : URLSearchParams := []
  let q1 := appendStatus q0 filters.status
  let q2 := appendPriority q1 filters.priority
  let q3 := appendIfTruthy q2 "search" filters.search
  let q4 := appendIfTruthy q3 "due_from" filters.due_from
  let q5 := appendIfTruthy q4 "due_to" filters.due_to
  let q6 := appendIfTruthy q5 "page" filters.page
  appendIfTruthy q6 "per_page" filters.per_page

/-- The endpoint `getTasks` passes to `apiCall`. -/
def getTasksPath (filters : TaskFilters) : String :=
  let queryString := (getTasksParams filters).serialize
  "/tasks" ++ (if queryString != "" then "?" ++ queryString else "")

/-- The function `tasksAPI.getTasks(filters)`. -/
def getTasks (env : Env) (st : Storage) (filters : TaskFilters) :
    Storage × Except JSError JSVal :=
  apiCall env st (getTasksPath filters) CallOptions.empty

/-- The `options` argument of the `apiCall` of `createTask`; `JSON.stringify` gives no
body for a value without JSON text. -/
def createTaskOptions (taskData : JSVal) : CallOptions :=
  ⟨some "POST", stringifyVal taskData, []⟩

/-- The function `tasksAPI.createTask(taskData)`. -/
def createTask (env : Env) (st : Storage) (taskData : JSVal) :
    Storage × Except JSError JSVal :=
  apiCall env st "/tasks" (createTaskOptions taskData)

/-- The `options` argument of the `apiCall` of `updateTask`. -/
def updateTaskOptions (taskData : JSVal) : CallOptions :=
  ⟨some "PUT", stringifyVal taskData, []⟩

/-- The function `tasksAPI.updateTask(id, taskData)`. -/
def updateTask (env : Env) (st : Storage) (id taskData : JSVal) :
    Storage × Except JSError JSVal :=
  apiCall env st ("/tasks/" ++ id.toJSString) (updateTaskOptions taskData)

/-- The function `tasksAPI.deleteTask(id)`. -/
def deleteTask (env : Env) (st : Storage) (id : JSVal) : Storage × Except JSError JSVal :=
  apiCall env st ("/tasks/" ++ id.toJSString) ⟨some "DELETE", none, []⟩

end tasksAPI

end Web

/-! ## The mobile client, `react-native-api-service.js` -/

/-- White space and line terminators, the characters `String.prototype.trim` strips. -/
def isJSWhiteSpace (c : Char) : Bool :=
  let n := c.toNat
  n = 0x9 || n = 0xA || n = 0xB || n = 0xC || n = 0xD || n = 0x20 || n = 0xA0 ||
  n = 0x1680 || (0x2000 ≤ n && n ≤ 0x200A) || n = 0x2028 || n = 0x2029 || n = 0x202F ||
  n = 0x205F || n = 0x3000 || n = 0xFEFF

/-- The method `String.prototype.trim`. -/
def jsTrim (s : String) : String :=
  String.mk ((s.data.dropWhile isJSWhiteSpace).reverse.dropWhile isJSWhiteSpace).reverse

namespace RN

/-- The `response` of axios: status and parsed body. -/
structure AxiosResponse where
  status : Nat
  data : JSVal

/-- An error object as the `catch` clauses see it: `error.response` (absent when no
response arrived), whether `error.request` is set, and `error.message`. -/
structure ErrorObject where
  response : Option AxiosResponse
  request : Bool
  message : JSVal

/-- The error object of a `TypeError` raised by a property read. -/
def ErrorObject.ofJSError (e : JSError) : ErrorObject := ⟨none, false, .str e.message⟩

/-- What the transport of axios settles to. -/
inductive AxiosOutcome where
  | resolved (r : AxiosResponse)
  | rejected (e : ErrorObject)

/-- The request configuration handed to the transport. -/
structure RequestConfig where
  method : String
  url : String
  data : JSVal
  headers : List (String × String)

/-- The environment of the client: the network behind axios. -/
structure Env where
  adapter : RequestConfig → AxiosOutcome

/-- The constant `API_BASE_URL`. -/
def API_BASE_URL : String := "http://localhost:8000/api"

/-- The request interceptor: adds the bearer header when a token is stored. -/
def requestInterceptor (st : Storage) (config : RequestConfig) : RequestConfig :=
  match st.getItem "auth_token" with
  | some token =>
    if token != "" then
      ⟨config.method, config.url, config.data,
        Web.assignHeader config.headers ("Authorization", "Bearer " ++ token)⟩
    else config
  | none => config

/-- The rejection handler of the response interceptor: a 401 clears the session, the
error is passed on. -/
def responseErrorInterceptor (st : Storage) (error : ErrorObject) : Storage :=
  match error.response with
  | some r => if r.status = 401 then st.multiRemove ["auth_token", "user"] else st
  | none => st

/-- The configuration the transport receives: the defaults of `axios.create` with the
method, URL and payload of the call, passed through the request interceptor. -/
def buildConfig (st : Storage) (method url : String) (data : JSVal) : RequestConfig :=
  requestInterceptor st
    ⟨method, API_BASE_URL ++ url, data,
      [("Content-Type", "application/json"), ("Accept", "application/json")]⟩

/-- A request through `apiClient`: both interceptors around the transport. -/
def apiClientRequest (env : Env) (st : Storage) (method url : String) (data : JSVal) :
    Storage × Except ErrorObject AxiosResponse :=
  match env.adapter (buildConfig st method url data) with
  | .resolved r => (st, .ok r)
  | .rejected e => (responseErrorInterceptor st e, .error e)

/-- The result objects of the service: `{success, data, meta, error}`, a field the
object does not have being `undefined`. -/
structure Result where
  success : Bool
  data : JSVal
  meta : JSVal
  error : JSVal

/-- The object `{ success: false, error: errorMessage }`. -/
def Result.failure (errorMessage : JSVal) : Result := ⟨false, .undefined, .undefined, errorMessage⟩

/-- The message `handleError` chooses, or the `TypeError` that a property read or the
`join` of the validation messages raises. -/
def errorMessageOf (error : ErrorObject) (defaultMessage : JSVal) : Except JSError JSVal :=
  match error.response with
  | some response =>
    let status := response.status
    let data := response.data
    if status = 401 then
      (getField data "message").map (fun m => m.or (.str "Unauthorized. Please login again."))
    else if status = 422 then
      match getField data "errors" with
      | .error e => .error e
      | .ok errors =>
        if errors.truthy then
          let errorMessages := JSVal.flat (JSVal.objectValues errors)
          (JSVal.joinResult ", " errorMessages).map .str
        else (getField data "message").map (fun m => m.or (.str "Validation error"))
    else if status = 403 then
      (getField data "message").map (fun m => m.or (.str "Forbidden. You do not have permission."))
    else if status = 404 then
      (getField data "message").map (fun m => m.or (.str "Resource not found"))
    else if status = 429 then .ok (.str "Too many requests. Please try again later.")
    else (getField data "message").map (fun m => m.or (.str ("Error: " ++ Nat.repr status)))
  | none =>
    if error.request then .ok (.str "Network error. Please check your connection.")
    else .ok (error.message.or defaultMessage)

/-- The function `handleError(error, defaultMessage)`. -/
def handleError (error : ErrorObject) (defaultMessage : JSVal) : Except ErrorObject Result :=
  match errorMessageOf error defaultMessage with
  | .ok errorMessage => .ok (Result.failure errorMessage)
  | .error e => .error (ErrorObject.ofJSError e)

/-- The block of `login` and `register` that stores token and user when the body has
both. A value that is not a string is stored as its ToString. -/
def storeSession (st : Storage) (data : JSVal) : Storage :=
  if ((getFieldOpt data "token").and (getFieldOpt data "user")).truthy then
    (st.setItem "auth_token" (getFieldOpt data "token").toJSString).setItem "user"
      (jsonStringify (getFieldOpt data "user")).toJSString
  else st

namespace authAPI

/-- The payload of the `post` of `login`. -/
def loginData (email : String) (password : JSVal) : JSVal :=
  .obj [("email", .str (jsTrim email)), ("password", password)]

/-- The function `authAPI.login(email, password)`. -/
def login (env : Env) (st : Storage) (email : String) (password : JSVal) :
    Storage × Except ErrorObject Result :=
  match apiClientRequest env st "post" "/login" (loginData email password) with
  | (st1, .ok response) =>
    (storeSession st1 response.data, .ok ⟨true, response.data, .undefined, .undefined⟩)
  | (st1, .error error) => (st1, handleError error (.str "Login failed"))

/-- The payload of the `post` of `register`. -/
def registerData (name email : String) (password passwordConfirmation : JSVal) : JSVal :=
  .obj [("name", .str (jsTrim name)), ("email", .str (jsTrim email)),
    ("password", password), ("password_confirmation", passwordConfirmation.or password)]

/-- The function `authAPI.register(name, email, password, passwordConfirmation)`. -/
def register (env : Env) (st : Storage) (name email : String)
    (password passwordConfirmation : JSVal) : Storage × Except ErrorObject Result :=
  match apiClientRequest env st "post" "/register"
      (registerData name email password passwordConfirmation) with
  | (st1, .ok response) =>
    (storeSession st1 response.data, .ok ⟨true, response.data, .undefined, .undefined⟩)
  | (st1, .error error) => (st1, handleError error (.str "Registration failed"))

/-- The function `authAPI.logout()`. -/
def logout (env : Env) (st : Storage) : Storage × Except ErrorObject Result :=
  match apiClientRequest env st "post" "/logout" .undefined with
  | (st1, .ok _) =>
    (st1.multiRemove ["auth_token", "user"], .ok ⟨true, .undefined, .undefined, .undefined⟩)
  | (st1, .error error) =>
    (st1.multiRemove ["auth_token", "user"], handleError error (.str "Logout failed"))

/-- The function `authAPI.getCurrentUser()`, over the `JSON.parse` of the platform:
`null` when nothing (or the empty text) is stored and when the parse throws. -/
def getCurrentUser (jsonParse : String → Except JSError JSVal) (st : Storage) : JSVal :=
  match st.getItem "user" with
  | some userJson =>
    if userJson != "" then
      match jsonParse userJson with
      | .ok user => user
      | .error _ => .null
    else .null
  | none => .null

/-- The function `authAPI.isAuthenticated()`. -/
def isAuthenticated (st : Storage) : Bool :=
  match st.getItem "auth_token" with
  | some token => token != ""
  | none => false

end authAPI

namespace tasksAPI

/-- The `params` object `getTasks` has built when it serializes it. -/
def getTasksParams (filters : TaskFilters) : URLSearchParams :=
  let p0 : URLSearchParams := []
  let p1 := appendStatus p0 filters.status
  let p2 := appendPriority p1 filters.priority
  let p3 := appendIfTruthy p2 "search" filters.search
  let p4 := appendIfTruthy p3 "page" filters.page
  appendIfTruthy p4 "per_page" filters.per_page

/-- The URL `getTasks` passes to `apiClient.get`. -/
def getTasksPath (filters : TaskFilters) : String :=
  let queryString := (getTasksParams filters).serialize
  "/tasks" ++ (if queryString != "" then "?" ++ queryString else "")

/-- The function `tasksAPI.getTasks(filters)`. -/
def getTasks (env : Env) (st : Storage) (filters : TaskFilters) :
    Storage × Except ErrorObject Result :=
  match apiClientRequest env st "get" (getTasksPath filters) .undefined with
  | (st1, .ok response) =>
    match getField response.data "data", getField response.data "meta" with
    | .ok d, .ok m => (st1, .ok ⟨true, d.or (.arr []), m.or (.obj []), .undefined⟩)
    | .error e, _ => (st1, handleError (ErrorObject.ofJSError e) (.str "Failed to load tasks"))
    | _, .error e => (st1, handleError (ErrorObject.ofJSError e) (.str "Failed to load tasks"))
  | (st1, .error error) => (st1, handleError error (.str "Failed to load tasks"))

/-- The function `tasksAPI.createTask(taskData)`. -/
def createTask (env : Env) (st : Storage) (taskData : JSVal) :
    Storage × Except ErrorObject Result :=
  match apiClientRequest env st "post" "/tasks" taskData with
  | (st1, .ok response) =>
    match getField response.data "data" with
    | .ok d => (st1, .ok ⟨true, d, .undefined, .undefined⟩)
    | .error e => (st1, handleError (ErrorObject.ofJSError e) (.str "Failed to create task"))
  | (st1, .error error) => (st1, handleError error (.str "Failed to create task"))

/-- The function `tasksAPI.updateTask(id, taskData)`. -/
def updateTask (env : Env) (st : Storage) (id taskData : JSVal) :
    Storage × Except ErrorObject Result :=
  match apiClientRequest env st "put" ("/tasks/" ++ id.toJSString) taskData with
  | (st1, .ok response) =>
    match getField response.data "data" with
    | .ok d => (st1, .ok ⟨true, d, .undefined, .undefined⟩)
    | .error e => (st1, handleError (ErrorObject.ofJSError e) (.str "Failed to update task"))
  | (st1, .error error) => (st1, handleError error (.str "Failed to update task"))

/-- The function `tasksAPI.deleteTask(id)`. -/
def deleteTask (env : Env) (st : Storage) (id : JSVal) :
    Storage × Except ErrorObject Result :=
  match apiClientRequest env st "delete" ("/tasks/" ++ id.toJSString) .undefined with
  | (st1, .ok _) => (st1, .ok ⟨true, .undefined, .undefined, .undefined⟩)
  | (st1, .error error) => (st1, handleError error (.str "Failed to delete task"))

end tasksAPI

end RN

/-! ## The login of `react-native-login-example.js` -/

namespace RNExample

/-- The message the `catch` clause of `loginUser` chooses, or the `TypeError` that a
property read or the `join` of the validation messages raises. -/
def errorMessageOf (error : RN.ErrorObject) : Except JSError JSVal :=
  match error.response with
  | some response =>
    let status := response.status
    let data := response.data
    if status = 401 then
      (getField data "message").map (fun m => m.or (.str "Invalid email or password"))
    else if status = 422 then
      match getField data "errors" with
      | .error e => .error e
      | .ok errors =>
        if errors.truthy then
          (JSVal.joinResult "\n" (JSVal.flat (JSVal.objectValues errors))).map .str
        else (getField data "message").map (fun m => m.or (.str "Validation error"))
    else if status = 429 then .ok (.str "Too many requests. Please try again later.")
    else (getField data "message").map (fun m => m.or (.str ("Error: " ++ Nat.repr status)))
  | none =>
    if error.request then .ok (.str "Network error. Please check your connection.")
    else .ok (error.message.or (.str "An unexpected error occurred"))

/-- The `catch` clause of `loginUser`. -/
def catchClause (error : RN.ErrorObject) : Except RN.ErrorObject RN.Result :=
  match errorMessageOf error with
  | .ok errorMessage => .ok (RN.Result.failure errorMessage)
  | .error e => .error (RN.ErrorObject.ofJSError e)

/-- The test `response.data && response.data.token && response.data.user`. -/
def hasExpectedStructure (data : JSVal) : Bool :=
  ((data.and (getFieldOpt data "token")).and (getFieldOpt data "user")).truthy

/-- The function `loginUser(email, password)`. The `apiClient` of this file has the
interceptors of the service file, so the request goes through the same
`apiClientRequest`. -/
def loginUser (env : RN.Env) (st : Storage) (email : String) (password : JSVal) :
    Storage × Except RN.ErrorObject RN.Result :=
  match RN.apiClientRequest env st "post" "/login" (RN.authAPI.loginData email password) with
  | (st1, .ok response) =>
    if hasExpectedStructure response.data then
      ((st1.setItem "auth_token" (getFieldOpt response.data "token").toJSString).setItem "user"
          (jsonStringify (getFieldOpt response.data "user")).toJSString,
        .ok ⟨true, response.data, .undefined, .undefined⟩)
    else
      (st1, catchClause ⟨none, false, .str "Invalid response format from server"⟩)
  | (st1, .error error) => (st1, catchClause error)

end RNExample

/-! ## The login of `react-native-simple-login.js` -/

namespace RNSimple

/-- The message the `catch` clause of `login` chooses, or the `TypeError` that a
property read or the `join` of the validation messages raises. -/
def errorMessageOf (error : RN.ErrorObject) : Except JSError JSVal :=
  match error.response with
  | some response =>
    let status := response.status
    let data := response.data
    if status = 401 then
      (getField data "message").map (fun m => m.or (.str "Invalid email or password"))
    else if status = 422 then
      match getField data "errors" with
      | .error e => .error e
      | .ok errors =>
        if errors.truthy then
          (JSVal.joinResult ", " (JSVal.flat (JSVal.objectValues errors))).map .str
        else (getField data "message").map (fun m => m.or (.str "Validation error"))
    else (getField data "message").map (fun m => m.or (.str ("Error: " ++ Nat.repr status)))
  | none =>
    if error.request then
      .ok (.str "Network error. Please check your connection and API URL.")
    else .ok (error.message.or (.str "An unexpected error occurred"))

/-- The `catch` clause of `login`. -/
def catchClause (error : RN.ErrorObject) : Except RN.ErrorObject RN.Result :=
  match errorMessageOf error with
  | .ok errorMessage => .ok (RN.Result.failure errorMessage)
  | .error e => .error (RN.ErrorObject.ofJSError e)

/-- The configuration of the `axios.post` call of `login`: plain axios, no interceptor,
so no bearer header is added and no 401 handler runs. -/
def loginConfig (email : String) (password : JSVal) : RN.RequestConfig :=
  ⟨"post", RN.API_BASE_URL ++ "/login", RN.authAPI.loginData email password,
    [("Content-Type", "application/json"), ("Accept", "application/json")]⟩

/-- The function `login(email, password)`. -/
def login (env : RN.Env) (st : Storage) (email : String) (password : JSVal) :
    Storage × Except RN.ErrorObject RN.Result :=
  match env.adapter (loginConfig email password) with
  | .resolved response =>
    if RNExample.hasExpectedStructure response.data then
      ((st.setItem "auth_token" (getFieldOpt response.data "token").toJSString).setItem "user"
          (jsonStringify (getFieldOpt response.data "user")).toJSString,
        .ok ⟨true, response.data, .undefined, .undefined⟩)
    else (st, .ok (RN.Result.failure (.str "Invalid response from server")))
  | .rejected error => (st, catchClause error)

end RNSimple

/-! ## The session provider, `src/contexts/AuthContext.jsx` -/

namespace AuthProvider

/-- The mount effect of `AuthProvider`, over the `JSON.parse` of the platform: the
storage after it and the `user` state, which starts as `null`. -/
def useEffect (jsonParse : String → Except JSError JSVal) (st : Storage) : Storage × JSVal :=
  match st.getItem "auth_token", st.getItem "user" with
  | some token, some storedUser =>
    if token != "" && storedUser != "" then
      match jsonParse storedUser with
      | .ok user => (st, user)
      | .error _ => ((st.removeItem "auth_token").removeItem "user", .null)
    else (st, .null)
  | _, _ => (st, .null)

end AuthProvider

/-! ## The task handlers of `src/App.jsx` -/

/-- The operator `a === b` on primitive values. Objects, arrays and functions are
compared by reference in JavaScript; references are not part of the model and two such
values count as different. -/
def strictEq : JSVal → JSVal → Bool
  | .undefined, .undefined => true
  | .null, .null => true
  | .bool a, .bool b => a == b
  | .num a, .num b => a == b
  | .str a, .str b => a == b
  | _, _ => false

/-- The own enumerable properties an object spread copies from a value: those of an
object, the indexed elements of an array, the indexed characters of a string, none for
the other values. -/
def ownEnumerable : JSVal → List (String × JSVal)
  | .obj props => props
  | .arr xs => xs.enum.map (fun e => (Nat.repr e.1, e.2))
  | .str s => s.data.enum.map (fun e => (Nat.repr e.1, .str (String.singleton e.2)))
  | _ => []

/-- One property assignment of an object spread: an existing key keeps its place and
takes the new value, a new key goes to the end. -/
def assignProp (props : List (String × JSVal)) (kv : String × JSVal) :
    List (String × JSVal) :=
  if props.any (fun p => p.1 == kv.1) then
    props.map (fun p => if p.1 == kv.1 then (p.1, kv.2) else p)
  else props ++ [kv]

/-- The properties of the object `{...target, ...source}`, in the order of insertion
(JavaScript lists index-like keys first; no statement here depends on the order). -/
def spread (target : List (String × JSVal)) (source : JSVal) : List (String × JSVal) :=
  (ownEnumerable source).foldl assignProp target

/-- A task of the local list: the properties of a task object. -/
abbrev Task := List (String × JSVal)

/-- The property `task.id`. -/
def taskId (task : Task) : JSVal := (ownProp task "id").getD .undefined

/-- The property `task.status`. -/
def taskStatus (task : Task) : JSVal := (ownProp task "status").getD .undefined

namespace App

/-- The `setTasks` updater of `updateTask` and `toggleStatus`:
`prev.map(task => task.id === id ? { ...task, ...updated } : task)`. -/
def mergeUpdated (id updated : JSVal) (prev : List Task) : List Task :=
  prev.map (fun task => if strictEq (taskId task) id then spread task updated else task)

/-- The function `updateTask(id, updatedTask)`: the storage after the call and either
the new task list or the error that is recorded and thrown again. -/
def updateTask (env : Web.Env) (st : Storage) (tasks : List Task) (id updatedTask : JSVal) :
    Storage × Except JSError (List Task) :=
  match Web.tasksAPI.updateTask env st id updatedTask with
  | (st1, .ok response) =>
    match getField response "data" with
    | .ok data => (st1, .ok (mergeUpdated id (data.or response) tasks))
    | .error e => (st1, .error e)
  | (st1, .error e) => (st1, .error e)

/-- The expression `task.status === 'done' ? 'open' : 'done'` of `toggleStatus`. -/
def newStatus (status : JSVal) : JSVal :=
  if strictEq status (.str "done") then .str "open" else .str "done"

/-- The patch `{ status: newStatus }` that `toggleStatus` passes to
`tasksAPI.updateTask`. -/
def toggleStatusPatch (task : Task) : JSVal :=
  .obj [("status", newStatus (taskStatus task))]

/-- The function `toggleStatus(task)`: the storage after the call, the new task list
and the error message recorded by the `catch` clause, if any. -/
def toggleStatus (env : Web.Env) (st : Storage) (tasks : List Task) (task : Task) :
    Storage × List Task × Option String :=
  match Web.tasksAPI.updateTask env st (taskId task) (toggleStatusPatch task) with
  | (st1, .ok response) =>
    match getField response "data" with
    | .ok data =>
      let updated := data.or (.obj (assignProp task ("status", newStatus (taskStatus task))))
      (st1, mergeUpdated (taskId task) updated tasks, none)
    | .error e => (st1, tasks, some e.message)
  | (st1, .error e) => (st1, tasks, some e.message)

/-- The `result` argument of `handleDragEnd`: the index of the destination, absent
when the item was dropped outside the list, and the index of the source. -/
structure DragResult where
  destination : Option Nat
  source : Nat

/-- The call `items.splice(start, 1)`: the removed elements and the remaining list. -/
def spliceOut (items : List JSVal) (start : Nat) : List JSVal × List JSVal :=
  ((items.drop start).take 1, items.take start ++ items.drop (start + 1))

/-- The call `items.splice(start, 0, item)`. -/
def spliceIn (items : List JSVal) (start : Nat) (item : JSVal) : List JSVal :=
  items.take start ++ item :: items.drop start

/-- The function `handleDragEnd(result)`: the task list after it. The destructuring
`[reorderedItem]` of an empty array gives `undefined`. -/
def handleDragEnd (tasks : List JSVal) (result : DragResult) : List JSVal :=
  match result.destination with
  | none => tasks
  | some destinationIndex =>
    let reorderedItem := (spliceOut tasks result.source).1.head?.getD .undefined
    spliceIn (spliceOut tasks result.source).2 destinationIndex reorderedItem

end App

/-! ## The task form, `src/components/TaskForm.jsx` -/

namespace TaskForm

/-- The state of the form and the `editingTask` property. -/
structure FormState where
  title : String
  description : String
  priority : String
  dueDate : String
  status : String
  editingTask : JSVal

/-- The object `taskData` built by `handleSubmit`. -/
def taskData (f : FormState) : JSVal :=
  .obj ([("title", .str (jsTrim f.title)), ("description", .str (jsTrim f.description)),
      ("priority", .str f.priority)] ++
    (if f.dueDate != "" then [("due_date", JSVal.str f.dueDate)] else []) ++
    (if f.editingTask.truthy then [("status", JSVal.str f.status)] else []))

/-- The function `handleSubmit(e)` over the `onSubmit` property: the arguments of the
calls of `onSubmit` it makes and the state of the form after it (the fields are reset
after a successful submit of a new task). -/
def handleSubmit (onSubmit : JSVal → Except JSError Unit) (f : FormState) :
    List JSVal × FormState :=
  if jsTrim f.title != "" then
    match onSubmit (taskData f) with
    | .ok _ =>
      if !f.editingTask.truthy then
        ([taskData f], ⟨"", "", "medium", "", "open", f.editingTask⟩)
      else ([taskData f], f)
    | .error _ => ([taskData f], f)
  else ([], f)

end TaskForm

/-! ## The registration form, `src/components/Register.jsx` -/

/-- The property `length` of a string: the number of UTF-16 code units. -/
def jsLength (s : String) : Nat :=
  (s.data.map (fun c => if c.toNat < 0x10000 then 1 else 2)).sum

namespace Register

/-- The arguments of a call of `register`. -/
structure RegisterCall where
  name : String
  email : String
  password : String
  passwordConfirmation : String
  deriving DecidableEq, Repr

/-- The function `handleSubmit(e)` over the `register` function of the session
provider: the calls of `register` it makes and the `error` state after it. -/
def handleSubmit (register : RegisterCall → Except JSError Unit)
    (name email password passwordConfirmation : String) : List RegisterCall × String :=
  if password != passwordConfirmation then ([], "Passwords do not match")
  else if jsLength password < 8 then ([], "Password must be at least 8 characters long")
  else
    match register ⟨name, email, password, passwordConfirmation⟩ with
    | .ok _ => ([⟨name, email, password, passwordConfirmation⟩], "")
    | .error err =>
      ([⟨name, email, password, passwordConfirmation⟩],
        if err.message != "" then err.message else "Registration failed. Please try again.")

end Register

/-! ## The dashboard, `src/components/Dashboard.jsx`

`PriorityBar` computes with numbers, which are IEEE 754 doubles. The model rounds exact
rational results to the nearest double, for magnitudes in the normal range (no overflow
to infinity, no subnormal result). -/

/-- Rounding to the nearest integer, ties to the even one. -/
def roundHalfEven (x : ℚ) : ℤ :=
  if x - ⌊x⌋ < 1 / 2 then ⌊x⌋
  else if 1 / 2 < x - ⌊x⌋ then ⌊x⌋ + 1
  else if ⌊x⌋ % 2 = 0 then ⌊x⌋ else ⌊x⌋ + 1

/-- The double nearest to a rational: a significand of 53 bits, ties to even. -/
def nearestDouble (q : ℚ) : ℚ :=
  if 0 < q then roundHalfEven (q / 2 ^ (Int.log 2 q - 52)) * 2 ^ (Int.log 2 q - 52)
  else if q < 0 then
    -(roundHalfEven (-q / 2 ^ (Int.log 2 (-q) - 52)) * 2 ^ (Int.log 2 (-q) - 52))
  else 0

/-- The function `Math.round`: the nearest integer, a tie going up. -/
def mathRound (x : ℚ) : ℤ := ⌊x + 1 / 2⌋

namespace PriorityBar

/-- The constant `percentage` of `PriorityBar`,
`total > 0 ? Math.round((count / total) * 100) : 0`, for integer-valued `count` and
`total`: the division and the multiplication each round to the nearest double. -/
def percentage (count total : ℤ) : ℤ :=
  if 0 < total then mathRound (nearestDouble (nearestDouble ((count : ℚ) / total) * 100)) else 0

end PriorityBar

/-! ## Specification side of the error table

The definitions of this section are not taken from the code: they write down the
decision table of the error normalizer and the joined validation message in the words
of the specification, to compare the code with. -/

/-- An `errors` map from field names to lists of messages, as a parsed JSON object. -/
def errorsObject (m : List (String × List String)) : JSVal :=
  .obj (m.map (fun e => (e.1, .arr (e.2.map .str))))

/-- All messages of an `errors` map, flattened in the order of the map and separated
by a comma and a space. -/
def joinedMessages (m : List (String × List String)) : String :=
  ", ".intercalate (m.flatMap (fun e => e.2))

/-- The decision table of the error normalizer for an outcome with a response, from
the status, the `message` of the body and the `errors` of the body. -/
def tableMessage (status : Nat) (message errors : JSVal) : JSVal :=
  if status = 401 then message.or (.str "Unauthorized. Please login again.")
  else if status = 403 then message.or (.str "Forbidden. You do not have permission.")
  else if status = 404 then message.or (.str "Resource not found")
  else if status = 422 then
    if errors.truthy then .str (JSVal.join ", " (JSVal.flat (JSVal.objectValues errors)))
    else message.or (.str "Validation error")
  else if status = 429 then .str "Too many requests. Please try again later."
  else message.or (.str ("Error: " ++ Nat.repr status))

/-- The decision table for every outcome: with a response the table above, with a
request but no response the network message, with neither the message of the
exception, else the default message. -/
def normalizedMessage (error : RN.ErrorObject) (defaultMessage : JSVal) : JSVal :=
  match error.response with
  | some r => tableMessage r.status (getFieldOpt r.data "message") (getFieldOpt r.data "errors")
  | none =>
    if error.request then .str "Network error. Please check your connection."
    else error.message.or defaultMessage

/-- Whether every element of the list is a string: a list of validation messages that
are texts. -/
def allStrings (xs : List JSVal) : Bool :=
  xs.all (fun v => match v with
    | .str _ => true
    | _ => false)

/-- Whether a `message` is a text or counts as missing: a string, or a falsy value (no
property, `null`, `false`, `0`). -/
def textOrFalsy (message : JSVal) : Bool :=
  match message with
  | .str _ => true
  | w => !w.truthy

/-- The message if it is a string that is not empty, the fallback text otherwise. -/
def messageOr (message : JSVal) (fallback : String) : String :=
  match message with
  | .str s => if s ≠ "" then s else fallback
  | _ => fallback

/-! ## Observations on requests and on the session store -/

/-- The value of the header of that name in a header list, if there is one. -/
def headerValue (headers : List (String × String)) (name : String) : Option String :=
  match headers with
  | [] => none
  | (k, v) :: rest => if k = name then some v else headerValue rest name

/-- The session invariant of the data model: `auth_token` is present in storage if and
only if `user` is. -/
def sessionInvariant (st : Storage) : Prop :=
  (st.getItem "auth_token").isSome = (st.getItem "user").isSome

/-! ## Lemmas on storage and query parameters -/

theorem Storage.removeItem_cons (e : String × String) (rest : Storage) (key : String) :
    Storage.removeItem (e :: rest) key =
      if e.1 = key then Storage.removeItem rest key else e :: Storage.removeItem rest key := by
  by_cases h : e.1 = key <;> simp [Storage.removeItem, List.filter_cons, h]

theorem Storage.getItem_cons (e : String × String) (rest : Storage) (key : String) :
    Storage.getItem (e :: rest) key = if e.1 = key then some e.2 else Storage.getItem rest key := by
  cases e; rfl

theorem Storage.getItem_removeItem_self (st : Storage) (key : String) :
    (st.removeItem key).getItem key = none := by
  induction st with
  | nil => rfl
  | cons e rest ih =>
    rw [Storage.removeItem_cons]
    by_cases h : e.1 = key
    · simpa [h] using ih
    · simpa [h, Storage.getItem_cons] using ih

theorem Storage.getItem_removeItem_of_ne (st : Storage) (key other : String)
    (hne : key ≠ other) : (st.removeItem other).getItem key = st.getItem key := by
  induction st with
  | nil => rfl
  | cons e rest ih =>
    rw [Storage.removeItem_cons, Storage.getItem_cons]
    by_cases h : e.1 = other
    · have hk : e.1 ≠ key := fun hk => hne (hk.symm.trans h)
      rw [if_pos h, if_neg hk]
      exact ih
    · rw [if_neg h, Storage.getItem_cons]
      by_cases hk : e.1 = key
      · rw [if_pos hk, if_pos hk]
      · rw [if_neg hk, if_neg hk]
        exact ih

theorem Storage.session_cleared (st : Storage) :
    ((st.removeItem "auth_token").removeItem "user").getItem "auth_token" = none ∧
    ((st.removeItem "auth_token").removeItem "user").getItem "user" = none := by
  constructor
  · rw [Storage.getItem_removeItem_of_ne _ _ _ (by decide)]
    exact Storage.getItem_removeItem_self st "auth_token"
  · exact Storage.getItem_removeItem_self _ "user"

theorem Storage.multiRemove_session (st : Storage) :
    st.multiRemove ["auth_token", "user"] = (st.removeItem "auth_token").removeItem "user" := rfl

theorem URLSearchParams.has_append (p : URLSearchParams) (name other : String) (value : JSVal) :
    (p.append name value).has other = (p.has other || name == other) := by
  simp [URLSearchParams.has, URLSearchParams.append]

theorem URLSearchParams.has_nil (name : String) :
    URLSearchParams.has [] name = false := rfl

theorem has_appendIfTruthy_of_ne (p : URLSearchParams) (name other : String) (value : JSVal)
    (hne : name ≠ other) : (appendIfTruthy p name value).has other = p.has other := by
  unfold appendIfTruthy
  split
  · simp [URLSearchParams.has_append, hne]
  · rfl

theorem appendIfTruthy_of_falsy (p : URLSearchParams) (name : String) (value : JSVal)
    (h : value.truthy = false) : appendIfTruthy p name value = p := by
  simp [appendIfTruthy, h]

theorem has_appendPriority_of_ne (p : URLSearchParams) (other : String) (value : JSVal)
    (hne : "priority" ≠ other) : (appendPriority p value).has other = p.has other := by
  unfold appendPriority
  split
  · simp [URLSearchParams.has_append, hne]
  · rfl

theorem has_appendStatus_of_ne (p : URLSearchParams) (other : String) (value : JSVal)
    (hne : "status" ≠ other) : (appendStatus p value).has other = p.has other := by
  unfold appendStatus
  split
  · dsimp only
    split
    · simp [URLSearchParams.has_append, hne]
    · rfl
  · rfl

theorem appendStatus_of_all_or_falsy (p : URLSearchParams) (value : JSVal)
    (h : value = .str "all" ∨ value.truthy = false) : appendStatus p value = p := by
  rcases h with h | h
  · subst h; rfl
  · simp [appendStatus, h]

theorem appendPriority_of_all_or_falsy (p : URLSearchParams) (value : JSVal)
    (h : value = .str "all" ∨ value.truthy = false) : appendPriority p value = p := by
  rcases h with h | h
  · subst h; rfl
  · simp [appendPriority, h]

/-! ## The status and filter parameters of `getTasks` -/

/-- The status block on a string that names no property of `Object.prototype`:
`pending` is sent as `open`, `completed` as `done`, nothing is sent otherwise. -/
theorem appendStatus_str_of_not_inherited (p : URLSearchParams) (s : String)
    (hproto : objectPrototypeGet s = .undefined) :
    appendStatus p (.str s) =
      if s = "pending" then p ++ [("status", "open")]
      else if s = "completed" then p ++ [("status", "done")]
      else p := by
  by_cases h1 : s = "pending"
  · subst h1; rfl
  · by_cases h2 : s = "completed"
    · subst h2; rfl
    · have hown : ownProp statusMap s = none := by
        simp [statusMap, ownProp, Ne.symm h1, Ne.symm h2]
      have hget : literalGet statusMap s = .undefined := by
        simp [literalGet, hown, hproto]
      simp only [appendStatus, JSVal.toJSString, hget, JSVal.truthy, if_neg h1, if_neg h2]
      split <;> simp

/-- C1, at the failing input `filters = {status: 'constructor'}`: the lookup
`statusMap['constructor']` finds the inherited `Object` function, which is truthy, so
both clients send a `status` parameter carrying its source text instead of dropping
the value. -/
theorem getTasks_status_constructor_sent :
    Web.tasksAPI.getTasksParams ⟨.str "constructor", .undefined, .undefined, .undefined,
        .undefined, .undefined, .undefined⟩ =
      [("status", "function Object() \x7b [native code] \x7d")] ∧
    RN.tasksAPI.getTasksParams ⟨.str "constructor", .undefined, .undefined, .undefined,
        .undefined, .undefined, .undefined⟩ =
      [("status", "function Object() \x7b [native code] \x7d")] ∧
    Web.tasksAPI.getTasksPath ⟨.str "constructor", .undefined, .undefined, .undefined,
        .undefined, .undefined, .undefined⟩ =
      "/tasks?status=function+Object%28%29+%7B+%5Bnative+code%5D+%7D" := by
  decide

/-- C2: a status that is `'all'` or falsy (absent, `null`, empty) puts no `status`
parameter in the query of either client, likewise for the priority, and a falsy
`search`, `page` or `per_page` puts no parameter of that name; when every field the
client reads is so, the path is exactly `/tasks`. -/
theorem getTasks_omits_all_empty_absent (f : TaskFilters) :
    ((f.status = .str "all" ∨ f.status.truthy = false) →
      (Web.tasksAPI.getTasksParams f).has "status" = false ∧
      (RN.tasksAPI.getTasksParams f).has "status" = false) ∧
    ((f.priority = .str "all" ∨ f.priority.truthy = false) →
      (Web.tasksAPI.getTasksParams f).has "priority" = false ∧
      (RN.tasksAPI.getTasksParams f).has "priority" = false) ∧
    (f.search.truthy = false →
      (Web.tasksAPI.getTasksParams f).has "search" = false ∧
      (RN.tasksAPI.getTasksParams f).has "search" = false) ∧
    (f.page.truthy = false →
      (Web.tasksAPI.getTasksParams f).has "page" = false ∧
      (RN.tasksAPI.getTasksParams f).has "page" = false) ∧
    (f.per_page.truthy = false →
      (Web.tasksAPI.getTasksParams f).has "per_page" = false ∧
      (RN.tasksAPI.getTasksParams f).has "per_page" = false) ∧
    ((f.status = .str "all" ∨ f.status.truthy = false) →
      (f.priority = .str "all" ∨ f.priority.truthy = false) →
      f.search.truthy = false → f.page.truthy = false → f.per_page.truthy = false →
      RN.tasksAPI.getTasksPath f = "/tasks" ∧
      (f.due_from.truthy = false → f.due_to.truthy = false →
        Web.tasksAPI.getTasksPath f = "/tasks")) := by
  refine ⟨fun h => ?_, fun h => ?_, fun h => ?_, fun h => ?_, fun h => ?_,
    fun hs hp hq hpg hpp => ⟨?_, fun hf ht => ?_⟩⟩
  · simp only [Web.tasksAPI.getTasksParams, RN.tasksAPI.getTasksParams,
      appendStatus_of_all_or_falsy _ _ h]
    constructor <;>
      simp only [has_appendIfTruthy_of_ne _ "search" "status" _ (by decide),
        has_appendIfTruthy_of_ne _ "due_from" "status" _ (by decide),
        has_appendIfTruthy_of_ne _ "due_to" "status" _ (by decide),
        has_appendIfTruthy_of_ne _ "page" "status" _ (by decide),
        has_appendIfTruthy_of_ne _ "per_page" "status" _ (by decide),
        has_appendPriority_of_ne _ "status" _ (by decide), URLSearchParams.has_nil]
  · simp only [Web.tasksAPI.getTasksParams, RN.tasksAPI.getTasksParams,
      appendPriority_of_all_or_falsy _ _ h]
    constructor <;>
      simp only [has_appendIfTruthy_of_ne _ "search" "priority" _ (by decide),
        has_appendIfTruthy_of_ne _ "due_from" "priority" _ (by decide),
        has_appendIfTruthy_of_ne _ "due_to" "priority" _ (by decide),
        has_appendIfTruthy_of_ne _ "page" "priority" _ (by decide),
        has_appendIfTruthy_of_ne _ "per_page" "priority" _ (by decide),
        has_appendStatus_of_ne _ "priority" _ (by decide), URLSearchParams.has_nil]
  · simp only [Web.tasksAPI.getTasksParams, RN.tasksAPI.getTasksParams,
      appendIfTruthy_of_falsy _ "search" _ h]
    constructor <;>
      simp only [has_appendIfTruthy_of_ne _ "due_from" "search" _ (by decide),
        has_appendIfTruthy_of_ne _ "due_to" "search" _ (by decide),
        has_appendIfTruthy_of_ne _ "page" "search" _ (by decide),
        has_appendIfTruthy_of_ne _ "per_page" "search" _ (by decide),
        has_appendPriority_of_ne _ "search" _ (by decide),
        has_appendStatus_of_ne _ "search" _ (by decide), URLSearchParams.has_nil]
  · simp only [Web.tasksAPI.getTasksParams, RN.tasksAPI.getTasksParams,
      appendIfTruthy_of_falsy _ "page" _ h]
    constructor <;>
      simp only [has_appendIfTruthy_of_ne _ "due_from" "page" _ (by decide),
        has_appendIfTruthy_of_ne _ "due_to" "page" _ (by decide),
        has_appendIfTruthy_of_ne _ "search" "page" _ (by decide),
        has_appendIfTruthy_of_ne _ "per_page" "page" _ (by decide),
        has_appendPriority_of_ne _ "page" _ (by decide),
        has_appendStatus_of_ne _ "page" _ (by decide), URLSearchParams.has_nil]
  · simp only [Web.tasksAPI.getTasksParams, RN.tasksAPI.getTasksParams,
      appendIfTruthy_of_falsy _ "per_page" _ h]
    constructor <;>
      simp only [has_appendIfTruthy_of_ne _ "due_from" "per_page" _ (by decide),
        has_appendIfTruthy_of_ne _ "due_to" "per_page" _ (by decide),
        has_appendIfTruthy_of_ne _ "search" "per_page" _ (by decide),
        has_appendIfTruthy_of_ne _ "page" "per_page" _ (by decide),
        has_appendPriority_of_ne _ "per_page" _ (by decide),
        has_appendStatus_of_ne _ "per_page" _ (by decide), URLSearchParams.has_nil]
  · simp [RN.tasksAPI.getTasksPath, RN.tasksAPI.getTasksParams,
      appendStatus_of_all_or_falsy _ _ hs, appendPriority_of_all_or_falsy _ _ hp,
      appendIfTruthy_of_falsy _ _ _ hq, appendIfTruthy_of_falsy _ _ _ hpg,
      appendIfTruthy_of_falsy _ _ _ hpp, URLSearchParams.serialize, joinWith]
  · simp [Web.tasksAPI.getTasksPath, Web.tasksAPI.getTasksParams,
      appendStatus_of_all_or_falsy _ _ hs, appendPriority_of_all_or_falsy _ _ hp,
      appendIfTruthy_of_falsy _ _ _ hq, appendIfTruthy_of_falsy _ _ _ hpg,
      appendIfTruthy_of_falsy _ _ _ hpp, appendIfTruthy_of_falsy _ _ _ hf,
      appendIfTruthy_of_falsy _ _ _ ht, URLSearchParams.serialize, joinWith]

/-- C2 at the filter `{status: 'all', priority: 'all', search: ''}`: no parameter is
sent and both paths are `/tasks`. -/
theorem getTasks_omits_all_empty_absent_witness :
    ((Web.tasksAPI.getTasksParams ⟨.str "all", .str "all", .str "", .undefined, .undefined,
        .undefined, .undefined⟩).has "status" = false ∧
      (RN.tasksAPI.getTasksParams ⟨.str "all", .str "all", .str "", .undefined, .undefined,
        .undefined, .undefined⟩).has "status" = false) ∧
    ((Web.tasksAPI.getTasksParams ⟨.str "all", .str "all", .str "", .undefined, .undefined,
        .undefined, .undefined⟩).has "priority" = false ∧
      (RN.tasksAPI.getTasksParams ⟨.str "all", .str "all", .str "", .undefined, .undefined,
        .undefined, .undefined⟩).has "priority" = false) ∧
    ((Web.tasksAPI.getTasksParams ⟨.str "all", .str "all", .str "", .undefined, .undefined,
        .undefined, .undefined⟩).has "search" = false ∧
      (RN.tasksAPI.getTasksParams ⟨.str "all", .str "all", .str "", .undefined, .undefined,
        .undefined, .undefined⟩).has "search" = false) ∧
    ((Web.tasksAPI.getTasksParams ⟨.str "all", .str "all", .str "", .undefined, .undefined,
        .undefined, .undefined⟩).has "page" = false ∧
      (RN.tasksAPI.getTasksParams ⟨.str "all", .str "all", .str "", .undefined, .undefined,
        .undefined, .undefined⟩).has "page" = false) ∧
    ((Web.tasksAPI.getTasksParams ⟨.str "all", .str "all", .str "", .undefined, .undefined,
        .undefined, .undefined⟩).has "per_page" = false ∧
      (RN.tasksAPI.getTasksParams ⟨.str "all", .str "all", .str "", .undefined, .undefined,
        .undefined, .undefined⟩).has "per_page" = false) ∧
    RN.tasksAPI.getTasksPath ⟨.str "all", .str "all", .str "", .undefined, .undefined,
        .undefined, .undefined⟩ = "/tasks" ∧
    Web.tasksAPI.getTasksPath ⟨.str "all", .str "all", .str "", .undefined, .undefined,
        .undefined, .undefined⟩ = "/tasks" :=
  have h := getTasks_omits_all_empty_absent
    ⟨.str "all", .str "all", .str "", .undefined, .undefined, .undefined, .undefined⟩
  ⟨h.1 (Or.inl rfl), h.2.1 (Or.inl rfl), h.2.2.1 rfl, h.2.2.2.1 rfl, h.2.2.2.2.1 rfl,
    (h.2.2.2.2.2 (Or.inl rfl) (Or.inl rfl) rfl rfl rfl).1,
    (h.2.2.2.2.2 (Or.inl rfl) (Or.inl rfl) rfl rfl rfl).2 rfl rfl⟩

/-! ## The session store under 401 responses, login and logout -/

/-- A 401 response whose body parses as JSON clears the session: after `apiCall` both
entries are absent, for every endpoint, options and prior storage. -/
theorem Web.apiCall_401_json_body_clears_session (env : Web.Env) (st : Storage)
    (endpoint : String) (options : Web.CallOptions) (r : Web.HttpResponse) (data : JSVal)
    (hfetch : env.fetch (Web.buildRequest env st endpoint options) = .responded r)
    (hstatus : r.status = 401) (hjson : r.json = .ok data) :
    (Web.apiCall env st endpoint options).1.getItem "auth_token" = none ∧
    (Web.apiCall env st endpoint options).1.getItem "user" = none := by
  have hok : r.ok = false := by simp [Web.HttpResponse.ok, hstatus]
  simp only [Web.apiCall, hfetch, Web.tryBlock, hjson, hok, hstatus]
  exact Storage.session_cleared st

/-- C3, at the failing input: a 401 response with an empty body. `response.json()`
rejects before the status is looked at, so `apiCall` rethrows the `SyntaxError` and the
stored token and user are still there. -/
theorem Web.apiCall_401_empty_body_keeps_session :
    (Web.apiCall
      ⟨.undefined, fun _ => .responded ⟨401, "Unauthorized",
        .error ⟨.syntaxError, "Unexpected end of JSON input"⟩⟩⟩
      [("auth_token", "t0k3n"), ("user", "\x7b\"name\":\"Ann\"\x7d")]
      "/tasks" Web.CallOptions.empty).1.getItem "auth_token" = some "t0k3n" ∧
    (Web.apiCall
      ⟨.undefined, fun _ => .responded ⟨401, "Unauthorized",
        .error ⟨.syntaxError, "Unexpected end of JSON input"⟩⟩⟩
      [("auth_token", "t0k3n"), ("user", "\x7b\"name\":\"Ann\"\x7d")]
      "/tasks" Web.CallOptions.empty).1.getItem "user" = some "\x7b\"name\":\"Ann\"\x7d" ∧
    (Web.apiCall
      ⟨.undefined, fun _ => .responded ⟨401, "Unauthorized",
        .error ⟨.syntaxError, "Unexpected end of JSON input"⟩⟩⟩
      [("auth_token", "t0k3n"), ("user", "\x7b\"name\":\"Ann\"\x7d")]
      "/tasks" Web.CallOptions.empty).2 =
        .error ⟨.syntaxError, "Unexpected end of JSON input"⟩ := by
  refine ⟨by decide, by decide, rfl⟩

/-- The mobile `login` writes nothing when the body of a successful response lacks a
truthy token or a truthy user, and it still returns `success: true` with the body. -/
theorem RN.login_incomplete_body (env : RN.Env) (st : Storage) (email : String)
    (password : JSVal) (r : RN.AxiosResponse)
    (hpost : env.adapter (RN.buildConfig st "post" "/login"
      (RN.authAPI.loginData email password)) = .resolved r)
    (hmissing : (getFieldOpt r.data "token").truthy = false ∨
      (getFieldOpt r.data "user").truthy = false) :
    RN.authAPI.login env st email password =
      (st, .ok ⟨true, r.data, .undefined, .undefined⟩) := by
  have hstore : RN.storeSession st r.data = st := by
    unfold RN.storeSession JSVal.and
    rcases hmissing with h | h
    · simp [h]
    · by_cases ht : (getFieldOpt r.data "token").truthy = true <;> simp [ht, h]
  simp only [RN.authAPI.login, RN.apiClientRequest, hpost, hstore]

/-- C4, at the failing input: a 200 response to `/login` whose body is
`{token: 'abc'}`, without a user. The mobile `login` leaves storage alone but returns
`{success: true, data}`, not a failure result. -/
theorem RN.login_token_without_user_succeeds :
    RN.authAPI.login ⟨fun _ => .resolved ⟨200, .obj [("token", .str "abc")]⟩⟩ []
        "ann@example.com" (.str "secret") =
      ([], .ok ⟨true, .obj [("token", .str "abc")], .undefined, .undefined⟩) := by
  rfl

/-- C5, at the failing input: a 200 response to `/login` whose body is
`{token: 'abc'}`, without a user. The browser `login` tests the token only, so it
writes the token and, for the user, the text of `JSON.stringify(undefined)`. -/
theorem Web.login_token_without_user_writes_storage :
    (Web.authAPI.login
      ⟨.undefined, fun _ => .responded ⟨200, "OK", .ok (.obj [("token", .str "abc")])⟩⟩ []
      (.str "ann@example.com") (.str "secret")).1 =
        [("user", "undefined"), ("auth_token", "abc")] := by
  decide

/-- C6: after `authAPI.logout`, in the browser client and in the mobile client, both
session entries are absent, whatever was stored and whatever the network reports for
`POST /logout`. -/
theorem logout_clears_session (wenv : Web.Env) (renv : RN.Env) (st : Storage) :
    ((Web.authAPI.logout wenv st).1.getItem "auth_token" = none ∧
      (Web.authAPI.logout wenv st).1.getItem "user" = none) ∧
    ((RN.authAPI.logout renv st).1.getItem "auth_token" = none ∧
      (RN.authAPI.logout renv st).1.getItem "user" = none) := by
  constructor
  · simp only [Web.authAPI.logout]
    exact Storage.session_cleared _
  · unfold RN.authAPI.logout
    cases hreq : RN.apiClientRequest renv st "post" "/logout" .undefined with
    | mk st1 res =>
      cases res with
      | ok _ => simpa [Storage.multiRemove_session] using Storage.session_cleared st1
      | error _ => simpa [Storage.multiRemove_session] using Storage.session_cleared st1

/-! ## Error normalization -/

theorem getField_of_present (data : JSVal) (key : String)
    (h : data ≠ .null ∧ data ≠ .undefined) :
    getField data key = .ok (getFieldOpt data key) := by
  cases data <;> simp_all [getField, getFieldOpt]

/-- The decision table of `handleError`, for every outcome whose response body, when
there is a response, is neither `null` nor `undefined` and, at status 422, has
validation messages whose `join` does not raise. -/
theorem RN.handleError_decision_table (error : RN.ErrorObject) (defaultMessage : JSVal)
    (hbody : ∀ r, error.response = some r → r.data ≠ .null ∧ r.data ≠ .undefined)
    (hjoin : ∀ r, error.response = some r → r.status = 422 →
      JSVal.joinRaises (JSVal.flat (JSVal.objectValues (getFieldOpt r.data "errors"))) = false) :
    RN.handleError error defaultMessage =
      .ok (RN.Result.failure (normalizedMessage error defaultMessage)) := by
  obtain ⟨response, request, message⟩ := error
  cases response with
  | none =>
    cases request <;> rfl
  | some r =>
    have hm := getField_of_present r.data "message" (hbody r rfl)
    have he := getField_of_present r.data "errors" (hbody r rfl)
    simp only [RN.handleError, RN.errorMessageOf, normalizedMessage, tableMessage, hm, he,
      Except.map]
    by_cases h401 : r.status = 401
    · simp [h401]
    · by_cases h422 : r.status = 422
      · have hj := hjoin r rfl h422
        by_cases htr : (getFieldOpt r.data "errors").truthy = true <;>
          simp [h422, htr, JSVal.joinResult, hj]
      · by_cases h403 : r.status = 403
        · simp [h403]
        · by_cases h404 : r.status = 404
          · simp [h404]
          · by_cases h429 : r.status = 429
            · simp [h429]
            · simp [h401, h422, h403, h404, h429]

/-- C7, counterexample: `POST /logout` answered with status 500. The mobile `logout`
clears storage and then returns the failure result of `handleError`, with
`success: false`. -/
theorem RN.logout_reports_failure_on_500 :
    RN.authAPI.logout
        ⟨fun _ => .rejected ⟨some ⟨500, .obj []⟩, true, .str "Request failed with status code 500"⟩⟩
        [("auth_token", "t0k3n")] =
      ([], .ok ⟨false, .undefined, .undefined, .str "Error: 500"⟩) := by
  rfl

/-- C7, amended: when `POST /logout` succeeds the mobile `logout` returns
`success: true`; when it fails, with no response or with a response whose body is
neither `null` nor `undefined` and whose validation messages, at status 422, can be
joined to a text, `logout` does not raise and returns the failure result of
`handleError` for the default message `Logout failed`: `success: false` with the
message `handleError` chooses. -/
theorem RN.logout_result (env : RN.Env) (st : Storage) :
    (∀ r, env.adapter (RN.buildConfig st "post" "/logout" .undefined) = .resolved r →
      (RN.authAPI.logout env st).2 = .ok ⟨true, .undefined, .undefined, .undefined⟩) ∧
    (∀ e, env.adapter (RN.buildConfig st "post" "/logout" .undefined) = .rejected e →
      (∀ r, e.response = some r → r.data ≠ .null ∧ r.data ≠ .undefined) →
      (∀ r, e.response = some r → r.status = 422 →
        JSVal.joinRaises (JSVal.flat (JSVal.objectValues (getFieldOpt r.data "errors"))) =
          false) →
      ∃ m, RN.errorMessageOf e (.str "Logout failed") = .ok m ∧
        (RN.authAPI.logout env st).2 = .ok ⟨false, .undefined, .undefined, m⟩) := by
  constructor
  · intro r hr
    simp only [RN.authAPI.logout, RN.apiClientRequest, hr]
  · intro e he hbody hjoin
    have htable := RN.handleError_decision_table e (.str "Logout failed") hbody hjoin
    refine ⟨normalizedMessage e (.str "Logout failed"), ?_, ?_⟩
    · unfold RN.handleError at htable
      cases hmsg : RN.errorMessageOf e (.str "Logout failed") with
      | error err => rw [hmsg] at htable; cases htable
      | ok m =>
        rw [hmsg] at htable
        injection htable with htable
        injection htable with _ _ _ hm
        rw [hm]
    · simp only [RN.authAPI.logout, RN.apiClientRequest, he]
      exact htable

/-- C7, amended, at three outcomes: a 204 response, a network failure, and a 422
response with one validation message. -/
theorem RN.logout_result_witness :
    (RN.authAPI.logout ⟨fun _ => .resolved ⟨204, .str ""⟩⟩ [("auth_token", "t0k3n")]).2 =
      .ok ⟨true, .undefined, .undefined, .undefined⟩ ∧
    (∃ m, RN.errorMessageOf ⟨none, true, .str "Network Error"⟩ (.str "Logout failed") = .ok m ∧
      (RN.authAPI.logout ⟨fun _ => .rejected ⟨none, true, .str "Network Error"⟩⟩
        [("auth_token", "t0k3n")]).2 = .ok ⟨false, .undefined, .undefined, m⟩) ∧
    (∃ m, RN.errorMessageOf
        ⟨some ⟨422, .obj [("errors", .obj [("token", .arr [.str "expired"])])]⟩, true, .undefined⟩
        (.str "Logout failed") = .ok m ∧
      (RN.authAPI.logout
        ⟨fun _ => .rejected
          ⟨some ⟨422, .obj [("errors", .obj [("token", .arr [.str "expired"])])]⟩, true,
            .undefined⟩⟩
        [("auth_token", "t0k3n")]).2 = .ok ⟨false, .undefined, .undefined, m⟩) :=
  ⟨(RN.logout_result ⟨fun _ => .resolved ⟨204, .str ""⟩⟩ [("auth_token", "t0k3n")]).1
      ⟨204, .str ""⟩ rfl,
    (RN.logout_result ⟨fun _ => .rejected ⟨none, true, .str "Network Error"⟩⟩
      [("auth_token", "t0k3n")]).2 ⟨none, true, .str "Network Error"⟩ rfl
      (fun _ h => nomatch h) (fun _ h => nomatch h),
    (RN.logout_result
      ⟨fun _ => .rejected
        ⟨some ⟨422, .obj [("errors", .obj [("token", .arr [.str "expired"])])]⟩, true,
          .undefined⟩⟩
      [("auth_token", "t0k3n")]).2
      ⟨some ⟨422, .obj [("errors", .obj [("token", .arr [.str "expired"])])]⟩, true, .undefined⟩
      rfl
      (fun r h => by cases h; exact ⟨(fun h => nomatch h), (fun h => nomatch h)⟩)
      (fun r h _ => by cases h; rfl)⟩

theorem joinWith_append_head (sep x y : String) (rest : List String) :
    joinWith sep ((x ++ y) :: rest) = x ++ joinWith sep (y :: rest) := by
  cases rest with
  | nil => rfl
  | cons b bs => simp [joinWith, String.append_assoc]

theorem intercalate_go_eq_joinWith (sep : String) (rest : List String) (acc : String) :
    String.intercalate.go acc sep rest = joinWith sep (acc :: rest) := by
  induction rest generalizing acc with
  | nil => rfl
  | cons a as ih =>
    rw [String.intercalate.go, ih, String.append_assoc, joinWith_append_head,
      joinWith_append_head]
    simp [joinWith, String.append_assoc]

theorem joinWith_eq_intercalate (sep : String) (pieces : List String) :
    joinWith sep pieces = sep.intercalate pieces := by
  cases pieces with
  | nil => rfl
  | cons a as => exact (intercalate_go_eq_joinWith sep as a).symm

theorem elemStrings_map_str (msgs : List String) :
    JSVal.elemStrings (msgs.map JSVal.str) = msgs := by
  induction msgs with
  | nil => rfl
  | cons a as ih => simp [JSVal.elemStrings, JSVal.toJSString, ih]

theorem flat_errorsObject_values (m : List (String × List String)) :
    JSVal.flat (JSVal.objectValues (errorsObject m)) =
      (m.flatMap (fun e => e.2)).map JSVal.str := by
  simp only [errorsObject, JSVal.objectValues, List.map_map]
  induction m with
  | nil => rfl
  | cons e rest ih => simp [JSVal.flat, ih]

/-- The messages of an `errors` map, joined the way both clients join them. -/
theorem join_errorsObject (m : List (String × List String)) :
    JSVal.join ", " (JSVal.flat (JSVal.objectValues (errorsObject m))) = joinedMessages m := by
  rw [flat_errorsObject_values, JSVal.join, elemStrings_map_str, joinWith_eq_intercalate]
  rfl

/-- The `join` of a list of strings does not raise. -/
theorem joinRaises_of_allStrings (xs : List JSVal) (h : allStrings xs = true) :
    JSVal.joinRaises xs = false := by
  induction xs with
  | nil => rfl
  | cons v rest ih =>
    cases v <;> simp_all [allStrings, JSVal.joinRaises, JSVal.toStringRaises]

theorem allStrings_map_str (msgs : List String) : allStrings (msgs.map JSVal.str) = true := by
  simp [allStrings]

theorem joinResult_of_not_raises (sep : String) (xs : List JSVal)
    (h : JSVal.joinRaises xs = false) : JSVal.joinResult sep xs = .ok (JSVal.join sep xs) := by
  simp [JSVal.joinResult, h]

/-- The `join` of the messages of an `errors` map completes, with the joined text. -/
theorem joinResult_errorsObject (m : List (String × List String)) :
    JSVal.joinResult ", " (JSVal.flat (JSVal.objectValues (errorsObject m))) =
      .ok (joinedMessages m) := by
  rw [joinResult_of_not_raises, join_errorsObject]
  rw [flat_errorsObject_values]
  exact joinRaises_of_allStrings _ (allStrings_map_str _)

theorem or_str_ne_undefined (a : JSVal) (s : String) : a.or (.str s) ≠ .undefined := by
  unfold JSVal.or
  split
  · intro h
    simp_all [JSVal.truthy]
  · simp

/-- For a message that is a text or falsy, `message || fallback` is the text
`messageOr` describes. -/
theorem or_of_textOrFalsy (message : JSVal) (fallback : String)
    (h : textOrFalsy message = true) :
    message.or (.str fallback) = .str (messageOr message fallback) := by
  cases message with
  | str s =>
    by_cases hs : s = ""
    · simp [JSVal.or, JSVal.truthy, messageOr, hs]
    · simp [JSVal.or, JSVal.truthy, messageOr, hs]
  | undefined => rfl
  | null => rfl
  | bool b => cases b <;> simp_all [textOrFalsy, JSVal.truthy, JSVal.or, messageOr]
  | num n => simp_all [textOrFalsy, JSVal.truthy, JSVal.or, messageOr]
  | arr xs => simp [textOrFalsy, JSVal.truthy] at h
  | obj ps => simp [textOrFalsy, JSVal.truthy] at h
  | native n => simp [textOrFalsy, JSVal.truthy] at h

theorem newError_str (s : String) : newError (.str s) = ⟨.error, s⟩ := rfl

theorem Web.catchClause_error (message : String) :
    Web.catchClause ⟨.error, message⟩ = ⟨.error, message⟩ := by
  simp [Web.catchClause]

/-- What `apiCall` raises for a 422 response whose body has a truthy `errors` with
messages that can be joined and a `message` that is a text or falsy: the joined text if
it is not empty, else the message, else `Validation error`. -/
theorem Web.apiCall_422_errors (env : Web.Env) (st : Storage) (endpoint : String)
    (options : Web.CallOptions) (r : Web.HttpResponse) (props : List (String × JSVal))
    (errors : JSVal)
    (hfetch : env.fetch (Web.buildRequest env st endpoint options) = .responded r)
    (hstatus : r.status = 422) (hjson : r.json = .ok (.obj props))
    (herrors : ownProp props "errors" = some errors) (htruthy : errors.truthy = true)
    (hjoin : JSVal.joinRaises (JSVal.flat (JSVal.objectValues errors)) = false)
    (hmessage : textOrFalsy ((ownProp props "message").getD .undefined) = true) :
    (Web.apiCall env st endpoint options).2 =
      .error ⟨.error,
        if JSVal.join ", " (JSVal.flat (JSVal.objectValues errors)) ≠ "" then
          JSVal.join ", " (JSVal.flat (JSVal.objectValues errors))
        else messageOr ((ownProp props "message").getD .undefined) "Validation error"⟩ := by
  have hok : r.ok = false := by simp [Web.HttpResponse.ok, hstatus]
  have hne : (422 : Nat) ≠ 401 := by decide
  simp only [Web.apiCall, hfetch, Web.tryBlock, hjson, hok, hstatus, getField, herrors,
    Option.getD_some, htruthy, Bool.not_false, if_true, if_neg hne,
    joinResult_of_not_raises _ _ hjoin]
  by_cases hempty : JSVal.join ", " (JSVal.flat (JSVal.objectValues errors)) = ""
  · have h1 : (JSVal.str (JSVal.join ", " (JSVal.flat (JSVal.objectValues errors)))).or
        ((ownProp props "message").getD .undefined) =
        (ownProp props "message").getD .undefined := by
      simp [JSVal.or, JSVal.truthy, hempty]
    rw [h1, or_of_textOrFalsy _ _ hmessage, newError_str, Web.catchClause_error]
    simp [hempty]
  · have h1 : ((JSVal.str (JSVal.join ", " (JSVal.flat (JSVal.objectValues errors)))).or
        ((ownProp props "message").getD .undefined)).or (.str "Validation error") =
        .str (JSVal.join ", " (JSVal.flat (JSVal.objectValues errors))) := by
      simp [JSVal.or, JSVal.truthy, hempty]
    rw [h1, newError_str, Web.catchClause_error]
    simp [hempty]

/-- C8, counterexample: a 422 body whose `errors` map holds no message,
`{message: 'The given data was invalid.', errors: {email: []}}`. The joined text is
empty, and the browser `apiCall` raises the server message instead of it. -/
theorem Web.apiCall_422_empty_errors_uses_message :
    (Web.apiCall
      ⟨.undefined, fun _ => .responded ⟨422, "Unprocessable Content",
        .ok (.obj [("message", .str "The given data was invalid."),
          ("errors", errorsObject [("email", [])])])⟩⟩
      [] "/register" Web.CallOptions.empty).2 =
        .error ⟨.error, "The given data was invalid."⟩ ∧
    joinedMessages [("email", [])] = "" := by
  constructor
  · rfl
  · decide

/-- C8, amended: for a 422 body whose `errors` property is a map from field names to
lists of messages, `handleError` returns the messages of the map joined with a comma
and a space, and the error raised by the browser `apiCall` has that text as its
message when the text is not empty; when it is empty and the `message` of the body is a
text or falsy, the browser message is that `message` if it is not empty, else
`Validation error`. -/
theorem validation_messages_joined (m : List (String × List String))
    (props : List (String × JSVal)) (herrors : ownProp props "errors" = some (errorsObject m)) :
    (∀ (request : Bool) (message defaultMessage : JSVal),
      RN.handleError ⟨some ⟨422, .obj props⟩, request, message⟩ defaultMessage =
        .ok (RN.Result.failure (.str (joinedMessages m)))) ∧
    (∀ (env : Web.Env) (st : Storage) (endpoint : String) (options : Web.CallOptions)
      (r : Web.HttpResponse),
      env.fetch (Web.buildRequest env st endpoint options) = .responded r →
      r.status = 422 → r.json = .ok (.obj props) →
      (joinedMessages m ≠ "" →
        (Web.apiCall env st endpoint options).2 = .error ⟨.error, joinedMessages m⟩) ∧
      (joinedMessages m = "" → textOrFalsy (getFieldOpt (.obj props) "message") = true →
        (Web.apiCall env st endpoint options).2 =
          .error ⟨.error, messageOr (getFieldOpt (.obj props) "message") "Validation error"⟩)) := by
  have hjoin := join_errorsObject m
  have hres := joinResult_errorsObject m
  have htruthy : (errorsObject m).truthy = true := rfl
  constructor
  · intro request message defaultMessage
    simp [RN.handleError, RN.errorMessageOf, getField, herrors, htruthy, hres, Except.map]
  · intro env st endpoint options r hfetch hstatus hjson
    have hok : r.ok = false := by simp [Web.HttpResponse.ok, hstatus]
    have hne : (422 : Nat) ≠ 401 := by decide
    have hcall : (Web.apiCall env st endpoint options).2 =
        .error (Web.catchClause (newError (((JSVal.str (joinedMessages m)).or
          ((ownProp props "message").getD .undefined)).or (.str "Validation error")))) := by
      simp only [Web.apiCall, hfetch, Web.tryBlock, hjson, hok, hstatus, getField, herrors,
        Option.getD_some, htruthy, Bool.not_false, if_true, if_neg hne, hres]
    constructor
    · intro hnonempty
      have h1 : ((JSVal.str (joinedMessages m)).or
          ((ownProp props "message").getD .undefined)).or (.str "Validation error") =
          .str (joinedMessages m) := by
        simp [JSVal.or, JSVal.truthy, hnonempty]
      rw [hcall, h1, newError_str, Web.catchClause_error]
    · intro hempty hmessage
      simp only [getFieldOpt] at hmessage ⊢
      have h1 : (JSVal.str (joinedMessages m)).or ((ownProp props "message").getD .undefined) =
          (ownProp props "message").getD .undefined := by
        simp [JSVal.or, JSVal.truthy, hempty]
      rw [hcall, h1, or_of_textOrFalsy _ _ hmessage, newError_str, Web.catchClause_error]

/-- C8, amended, at the body `{errors: {email: ['taken'], password: ['too short']}}`,
where both clients produce `taken, too short`, and at the body
`{message: 'The given data was invalid.', errors: {email: []}}`, where the browser
client raises the message of the body. -/
theorem validation_messages_joined_witness :
    RN.handleError
        ⟨some ⟨422, .obj [("errors", errorsObject [("email", ["taken"]), ("password", ["too short"])])]⟩,
          true, .str "Request failed with status code 422"⟩ (.str "Registration failed") =
      .ok (RN.Result.failure (.str "taken, too short")) ∧
    (Web.apiCall
      ⟨.undefined, fun _ => .responded ⟨422, "Unprocessable Content",
        .ok (.obj [("errors", errorsObject [("email", ["taken"]), ("password", ["too short"])])])⟩⟩
      [] "/register" Web.CallOptions.empty).2 = .error ⟨.error, "taken, too short"⟩ ∧
    (Web.apiCall
      ⟨.undefined, fun _ => .responded ⟨422, "Unprocessable Content",
        .ok (.obj [("message", .str "The given data was invalid."),
          ("errors", errorsObject [("email", [])])])⟩⟩
      [] "/register" Web.CallOptions.empty).2 =
        .error ⟨.error, "The given data was invalid."⟩ :=
  ⟨(validation_messages_joined [("email", ["taken"]), ("password", ["too short"])]
      [("errors", errorsObject [("email", ["taken"]), ("password", ["too short"])])] rfl).1
      true (.str "Request failed with status code 422") (.str "Registration failed"),
    ((validation_messages_joined [("email", ["taken"]), ("password", ["too short"])]
      [("errors", errorsObject [("email", ["taken"]), ("password", ["too short"])])] rfl).2
      ⟨.undefined, fun _ => .responded ⟨422, "Unprocessable Content",
        .ok (.obj [("errors", errorsObject [("email", ["taken"]), ("password", ["too short"])])])⟩⟩
      [] "/register" Web.CallOptions.empty _ rfl rfl rfl).1 (by decide),
    ((validation_messages_joined [("email", [])]
      [("message", .str "The given data was invalid."),
        ("errors", errorsObject [("email", [])])] rfl).2
      ⟨.undefined, fun _ => .responded ⟨422, "Unprocessable Content",
        .ok (.obj [("message", .str "The given data was invalid."),
          ("errors", errorsObject [("email", [])])])⟩⟩
      [] "/register" Web.CallOptions.empty _ rfl rfl rfl).2 (by decide) rfl⟩

/-- C9, at the failing input: an error response with status 500 whose body is `null`.
`handleError` reads `data.message` on `null`, so it raises a `TypeError` instead of
returning `{success: false, error}` with the message `Error: 500`. -/
theorem RN.handleError_null_body_raises :
    RN.handleError ⟨some ⟨500, .null⟩, true, .str "Request failed with status code 500"⟩
        (.str "Failed to load tasks") =
      .error (RN.ErrorObject.ofJSError
        ⟨.typeError, "Cannot read properties of null (reading 'message')"⟩) := by
  rfl

/-- C10, counterexample: a 401 response whose body is `{message: 'Token has expired'}`.
The error raised by the browser `apiCall` carries the fixed text, not the message of
the server. -/
theorem Web.apiCall_401_ignores_server_message :
    (Web.apiCall
      ⟨.undefined, fun _ => .responded ⟨401, "Unauthorized",
        .ok (.obj [("message", .str "Token has expired")])⟩⟩
      [("auth_token", "t0k3n")] "/tasks" Web.CallOptions.empty).2 =
        .error ⟨.error, "Unauthorized. Please login again."⟩ ∧
    (Web.apiCall
      ⟨.undefined, fun _ => .responded ⟨401, "Unauthorized",
        .ok (.obj [("message", .str "Token has expired")])⟩⟩
      [("auth_token", "t0k3n")] "/tasks" Web.CallOptions.empty).2 ≠
        .error ⟨.error, "Token has expired"⟩ := by
  have h : (Web.apiCall
      ⟨.undefined, fun _ => .responded ⟨401, "Unauthorized",
        .ok (.obj [("message", .str "Token has expired")])⟩⟩
      [("auth_token", "t0k3n")] "/tasks" Web.CallOptions.empty).2 =
        .error ⟨.error, "Unauthorized. Please login again."⟩ := rfl
  refine ⟨h, ?_⟩
  rw [h]
  intro hcontra
  injection hcontra with hcontra
  injection hcontra with _ hmsg
  exact absurd hmsg (by decide)

/-- C10, amended: for every 401 response whose body parses as JSON, the error raised by
the browser `apiCall` has the fixed message `Unauthorized. Please login again.`,
whether or not the body carries a message. -/
theorem Web.apiCall_401_fixed_message (env : Web.Env) (st : Storage) (endpoint : String)
    (options : Web.CallOptions) (r : Web.HttpResponse) (data : JSVal)
    (hfetch : env.fetch (Web.buildRequest env st endpoint options) = .responded r)
    (hstatus : r.status = 401) (hjson : r.json = .ok data) :
    (Web.apiCall env st endpoint options).2 =
      .error ⟨.error, "Unauthorized. Please login again."⟩ := by
  have hok : r.ok = false := by simp [Web.HttpResponse.ok, hstatus]
  simp only [Web.apiCall, hfetch, Web.tryBlock, hjson, hok, hstatus]
  rfl

/-- C10, amended, at a 401 response with the body `{message: 'Token has expired'}`. -/
theorem Web.apiCall_401_fixed_message_witness :
    (Web.apiCall
      ⟨.undefined, fun _ => .responded ⟨401, "Unauthorized",
        .ok (.obj [("message", .str "Token has expired")])⟩⟩
      [("auth_token", "t0k3n")] "/login" Web.CallOptions.empty).2 =
        .error ⟨.error, "Unauthorized. Please login again."⟩ :=
  Web.apiCall_401_fixed_message
    ⟨.undefined, fun _ => .responded ⟨401, "Unauthorized",
      .ok (.obj [("message", .str "Token has expired")])⟩⟩
    [("auth_token", "t0k3n")] "/login" Web.CallOptions.empty _ _ rfl rfl rfl

/-! ## The two error normalizers compared -/

theorem textOrFalsy_of_falsy (message : JSVal) (h : message.truthy = false) :
    textOrFalsy message = true := by
  cases message <;> simp_all [textOrFalsy]

theorem messageOr_of_falsy (message : JSVal) (fallback : String) (h : message.truthy = false) :
    messageOr message fallback = fallback := by
  cases message <;> simp_all [messageOr, JSVal.truthy]

theorem objectValues_of_falsy (v : JSVal) (h : v.truthy = false) : JSVal.objectValues v = [] := by
  cases v <;> simp_all [JSVal.objectValues, JSVal.truthy]

/-- What `apiCall` raises for a response that is not OK, not a 401 and not a 422 with
truthy `errors`, when the body is a JSON object whose `message` is a text or falsy: the
`message` if it is not empty, else `Error: ` followed by the status text. -/
theorem Web.apiCall_plain_error (env : Web.Env) (st : Storage) (endpoint : String)
    (options : Web.CallOptions) (r : Web.HttpResponse) (props : List (String × JSVal))
    (hfetch : env.fetch (Web.buildRequest env st endpoint options) = .responded r)
    (hjson : r.json = .ok (.obj props)) (hok : r.ok = false) (h401 : r.status ≠ 401)
    (herrors : r.status = 422 → ((ownProp props "errors").getD .undefined).truthy = false)
    (hmessage : textOrFalsy ((ownProp props "message").getD .undefined) = true) :
    (Web.apiCall env st endpoint options).2 =
      .error ⟨.error, messageOr ((ownProp props "message").getD .undefined)
        ("Error: " ++ r.statusText)⟩ := by
  by_cases h422 : r.status = 422
  · have he := herrors h422
    simp only [Web.apiCall, hfetch, Web.tryBlock, hjson, hok, getField, h422, he,
      Bool.not_false, if_true, if_false, if_neg (show (422 : Nat) ≠ 401 by decide),
      or_of_textOrFalsy _ _ hmessage, newError_str]
    simp [Web.catchClause_error]
  · simp only [Web.apiCall, hfetch, Web.tryBlock, hjson, hok, getField, if_neg h422, if_neg h401,
      Bool.not_false, if_true, JSVal.truthy,
      or_of_textOrFalsy _ _ hmessage, newError_str]
    simp [Web.catchClause_error]

/-- C11, counterexample: for a 429 response with the body `{message: 'Slow down'}` the
browser `apiCall` raises the server message while `handleError` gives the fixed
too-many-requests text, and for a 500 response with the body `{}` the browser raises
`Error: ` with the status text while `handleError` gives `Error: 500`. -/
theorem error_messages_differ_429_and_no_message :
    ((Web.apiCall
        ⟨.undefined, fun _ => .responded ⟨429, "Too Many Requests",
          .ok (.obj [("message", .str "Slow down")])⟩⟩
        [] "/tasks" Web.CallOptions.empty).2 = .error ⟨.error, "Slow down"⟩ ∧
      RN.handleError ⟨some ⟨429, .obj [("message", .str "Slow down")]⟩, true,
          .str "Request failed with status code 429"⟩ (.str "Failed to load tasks") =
        .ok (RN.Result.failure (.str "Too many requests. Please try again later."))) ∧
    ((Web.apiCall
        ⟨.undefined, fun _ => .responded ⟨500, "Internal Server Error", .ok (.obj [])⟩⟩
        [] "/tasks" Web.CallOptions.empty).2 = .error ⟨.error, "Error: Internal Server Error"⟩ ∧
      RN.handleError ⟨some ⟨500, .obj []⟩, true,
          .str "Request failed with status code 500"⟩ (.str "Failed to load tasks") =
        .ok (RN.Result.failure (.str "Error: 500"))) := by
  refine ⟨⟨rfl, rfl⟩, ⟨rfl, rfl⟩⟩

/-- C11, amended: for a response that is not OK, whose status is none of 401, 403, 404
and whose body is a JSON object, (1) with a status other than 422 and 429 and a
`message` that is a non-empty text, the browser `apiCall` raises that text and
`handleError` returns it; (2) for 429 `handleError` returns the fixed too-many-requests
text whatever the body, while `apiCall`, for a `message` that is a text or falsy, raises
the message if it is not empty, else `Error: ` with the status text; (3) with a status
other than 422 and 429 and no truthy `message`, `handleError` returns `Error: ` with the
numeric status and `apiCall` raises `Error: ` with the status text; (4) for 422 with no
truthy `errors` and a `message` that is a non-empty text both give that text; (5) for
422 with truthy `errors` whose messages are texts and whose joined text is not empty
both give the joined text. -/
theorem error_messages_compared (env : Web.Env) (st : Storage) (endpoint : String)
    (options : Web.CallOptions) (r : Web.HttpResponse) (props : List (String × JSVal))
    (request : Bool) (errorMessage defaultMessage : JSVal)
    (hfetch : env.fetch (Web.buildRequest env st endpoint options) = .responded r)
    (hjson : r.json = .ok (.obj props)) (hok : r.ok = false)
    (h401 : r.status ≠ 401) (h403 : r.status ≠ 403) (h404 : r.status ≠ 404) :
    (r.status ≠ 422 → r.status ≠ 429 →
      ∀ s : String, getFieldOpt (.obj props) "message" = .str s → s ≠ "" →
      (Web.apiCall env st endpoint options).2 = .error ⟨.error, s⟩ ∧
      RN.handleError ⟨some ⟨r.status, .obj props⟩, request, errorMessage⟩ defaultMessage =
        .ok (RN.Result.failure (.str s))) ∧
    (r.status = 429 →
      RN.handleError ⟨some ⟨r.status, .obj props⟩, request, errorMessage⟩ defaultMessage =
        .ok (RN.Result.failure (.str "Too many requests. Please try again later.")) ∧
      (textOrFalsy (getFieldOpt (.obj props) "message") = true →
        (Web.apiCall env st endpoint options).2 =
          .error ⟨.error, messageOr (getFieldOpt (.obj props) "message")
            ("Error: " ++ r.statusText)⟩)) ∧
    (r.status ≠ 422 → r.status ≠ 429 → (getFieldOpt (.obj props) "message").truthy = false →
      (Web.apiCall env st endpoint options).2 = .error ⟨.error, "Error: " ++ r.statusText⟩ ∧
      RN.handleError ⟨some ⟨r.status, .obj props⟩, request, errorMessage⟩ defaultMessage =
        .ok (RN.Result.failure (.str ("Error: " ++ Nat.repr r.status)))) ∧
    (r.status = 422 → (getFieldOpt (.obj props) "errors").truthy = false →
      ∀ s : String, getFieldOpt (.obj props) "message" = .str s → s ≠ "" →
      (Web.apiCall env st endpoint options).2 = .error ⟨.error, s⟩ ∧
      RN.handleError ⟨some ⟨r.status, .obj props⟩, request, errorMessage⟩ defaultMessage =
        .ok (RN.Result.failure (.str s))) ∧
    (r.status = 422 → (getFieldOpt (.obj props) "errors").truthy = true →
      allStrings (JSVal.flat (JSVal.objectValues (getFieldOpt (.obj props) "errors"))) = true →
      JSVal.join ", " (JSVal.flat (JSVal.objectValues (getFieldOpt (.obj props) "errors"))) ≠ "" →
      (Web.apiCall env st endpoint options).2 =
        .error ⟨.error,
          JSVal.join ", " (JSVal.flat (JSVal.objectValues (getFieldOpt (.obj props) "errors")))⟩ ∧
      RN.handleError ⟨some ⟨r.status, .obj props⟩, request, errorMessage⟩ defaultMessage =
        .ok (RN.Result.failure (.str
          (JSVal.join ", " (JSVal.flat (JSVal.objectValues (getFieldOpt (.obj props) "errors"))))))) := by
  have hrn : (r.status = 422 → JSVal.joinRaises (JSVal.flat (JSVal.objectValues
        ((ownProp props "errors").getD .undefined))) = false) →
      RN.handleError ⟨some ⟨r.status, .obj props⟩, request, errorMessage⟩ defaultMessage =
        .ok (RN.Result.failure (tableMessage r.status ((ownProp props "message").getD .undefined)
          ((ownProp props "errors").getD .undefined))) := by
    intro hj
    exact RN.handleError_decision_table _ _ (by intro r' h; cases h; simp)
      (by intro r' h h'; cases h; exact hj h')
  have hweb := Web.apiCall_plain_error env st endpoint options r props hfetch hjson hok h401
  simp only [getFieldOpt] at *
  refine ⟨fun h422 h429 s hs hne => ?_, fun h429 => ⟨?_, fun htext => ?_⟩,
    fun h422 h429 hm => ?_, fun h422 he s hs hne => ?_, fun h422 he hall hj => ?_⟩
  · rw [hweb (fun h => absurd h h422) (by rw [hs]; rfl), hrn (fun h => absurd h h422)]
    simp [tableMessage, h401, h403, h404, h422, h429, JSVal.or, JSVal.truthy, hs, hne, messageOr]
  · rw [hrn (fun h => absurd (h429.symm.trans h) (by decide))]
    simp [tableMessage, h429]
  · rw [hweb (fun h => absurd (h429.symm.trans h) (by decide)) htext]
  · rw [hweb (fun h => absurd h h422) (textOrFalsy_of_falsy _ hm), hrn (fun h => absurd h h422),
      messageOr_of_falsy _ _ hm]
    simp [tableMessage, h401, h403, h404, h422, h429, JSVal.or, hm]
  · have hst : (JSVal.str s).truthy = true := by simp [JSVal.truthy, hne]
    rw [hweb (fun _ => he) (by rw [hs]; rfl),
      hrn (fun _ => by rw [objectValues_of_falsy _ he]; rfl)]
    simp [tableMessage, h422, he, JSVal.or, hst, hs, hne, messageOr]
  · cases hown : ownProp props "errors" with
    | none => simp [hown, JSVal.truthy] at he
    | some errors =>
      simp only [hown, Option.getD_some] at he hj hall hrn ⊢
      have hnr := joinRaises_of_allStrings _ hall
      have hcall : (Web.apiCall env st endpoint options).2 =
          .error (Web.catchClause (newError (((JSVal.str
            (JSVal.join ", " (JSVal.flat (JSVal.objectValues errors)))).or
            ((ownProp props "message").getD .undefined)).or (.str "Validation error")))) := by
        simp only [Web.apiCall, hfetch, Web.tryBlock, hjson, hok, h422, getField, hown,
          Option.getD_some, he, Bool.not_false, if_true,
          if_neg (show (422 : Nat) ≠ 401 by decide), joinResult_of_not_raises _ _ hnr]
      have h1 : ((JSVal.str (JSVal.join ", " (JSVal.flat (JSVal.objectValues errors)))).or
          ((ownProp props "message").getD .undefined)).or (.str "Validation error") =
          .str (JSVal.join ", " (JSVal.flat (JSVal.objectValues errors))) := by
        simp [JSVal.or, JSVal.truthy, hj]
      rw [hcall, h1, newError_str, Web.catchClause_error, hrn (fun _ => hnr)]
      simp [tableMessage, h422, he]

/-- C11, amended, at five responses: a 500 with a message, a 429 with a message, a 500
with an empty object, a 422 with a message only, a 422 with one validation message. -/
theorem error_messages_compared_witness :
    ((Web.apiCall
        ⟨.undefined, fun _ => .responded ⟨500, "Internal Server Error",
          .ok (.obj [("message", .str "Server exploded")])⟩⟩
        [] "/tasks" Web.CallOptions.empty).2 = .error ⟨.error, "Server exploded"⟩ ∧
      RN.handleError ⟨some ⟨500, .obj [("message", .str "Server exploded")]⟩, true, .undefined⟩
        (.str "Failed to load tasks") = .ok (RN.Result.failure (.str "Server exploded"))) ∧
    (RN.handleError ⟨some ⟨429, .obj [("message", .str "Slow down")]⟩, true, .undefined⟩
        (.str "Failed to load tasks") =
          .ok (RN.Result.failure (.str "Too many requests. Please try again later.")) ∧
      (Web.apiCall
        ⟨.undefined, fun _ => .responded ⟨429, "Too Many Requests",
          .ok (.obj [("message", .str "Slow down")])⟩⟩
        [] "/tasks" Web.CallOptions.empty).2 =
          .error ⟨.error, messageOr (getFieldOpt (.obj [("message", .str "Slow down")]) "message")
            ("Error: " ++ "Too Many Requests")⟩) ∧
    ((Web.apiCall
        ⟨.undefined, fun _ => .responded ⟨500, "Internal Server Error", .ok (.obj [])⟩⟩
        [] "/tasks" Web.CallOptions.empty).2 = .error ⟨.error, "Error: " ++ "Internal Server Error"⟩ ∧
      RN.handleError ⟨some ⟨500, .obj []⟩, true, .undefined⟩
        (.str "Failed to load tasks") =
          .ok (RN.Result.failure (.str ("Error: " ++ Nat.repr 500)))) ∧
    ((Web.apiCall
        ⟨.undefined, fun _ => .responded ⟨422, "Unprocessable Content",
          .ok (.obj [("message", .str "Invalid")])⟩⟩
        [] "/tasks" Web.CallOptions.empty).2 = .error ⟨.error, "Invalid"⟩ ∧
      RN.handleError ⟨some ⟨422, .obj [("message", .str "Invalid")]⟩, true, .undefined⟩
        (.str "Failed to load tasks") = .ok (RN.Result.failure (.str "Invalid"))) ∧
    ((Web.apiCall
        ⟨.undefined, fun _ => .responded ⟨422, "Unprocessable Content",
          .ok (.obj [("errors", .obj [("email", .arr [.str "taken"])])])⟩⟩
        [] "/tasks" Web.CallOptions.empty).2 =
          .error ⟨.error, JSVal.join ", " (JSVal.flat (JSVal.objectValues
            (getFieldOpt (.obj [("errors", .obj [("email", .arr [.str "taken"])])]) "errors")))⟩ ∧
      RN.handleError ⟨some ⟨422, .obj [("errors", .obj [("email", .arr [.str "taken"])])]⟩,
          true, .undefined⟩
        (.str "Failed to load tasks") =
          .ok (RN.Result.failure (.str (JSVal.join ", " (JSVal.flat (JSVal.objectValues
            (getFieldOpt (.obj [("errors", .obj [("email", .arr [.str "taken"])])])
              "errors"))))))) :=
  ⟨(error_messages_compared
      ⟨.undefined, fun _ => .responded ⟨500, "Internal Server Error",
        .ok (.obj [("message", .str "Server exploded")])⟩⟩
      [] "/tasks" Web.CallOptions.empty
      ⟨500, "Internal Server Error", .ok (.obj [("message", .str "Server exploded")])⟩
      [("message", .str "Server exploded")] true .undefined (.str "Failed to load tasks")
      rfl rfl rfl (by decide) (by decide) (by decide)).1 (by decide) (by decide)
      "Server exploded" rfl (by decide),
    (error_messages_compared
      ⟨.undefined, fun _ => .responded ⟨429, "Too Many Requests",
        .ok (.obj [("message", .str "Slow down")])⟩⟩
      [] "/tasks" Web.CallOptions.empty
      ⟨429, "Too Many Requests", .ok (.obj [("message", .str "Slow down")])⟩
      [("message", .str "Slow down")] true .undefined (.str "Failed to load tasks")
      rfl rfl rfl (by decide) (by decide) (by decide)).2.1 rfl |>.imp_right (fun h => h rfl),
    (error_messages_compared
      ⟨.undefined, fun _ => .responded ⟨500, "Internal Server Error", .ok (.obj [])⟩⟩
      [] "/tasks" Web.CallOptions.empty
      ⟨500, "Internal Server Error", .ok (.obj [])⟩
      [] true .undefined (.str "Failed to load tasks")
      rfl rfl rfl (by decide) (by decide) (by decide)).2.2.1 (by decide) (by decide) rfl,
    (error_messages_compared
      ⟨.undefined, fun _ => .responded ⟨422, "Unprocessable Content",
        .ok (.obj [("message", .str "Invalid")])⟩⟩
      [] "/tasks" Web.CallOptions.empty
      ⟨422, "Unprocessable Content", .ok (.obj [("message", .str "Invalid")])⟩
      [("message", .str "Invalid")] true .undefined (.str "Failed to load tasks")
      rfl rfl rfl (by decide) (by decide) (by decide)).2.2.2.1 rfl rfl "Invalid" rfl (by decide),
    (error_messages_compared
      ⟨.undefined, fun _ => .responded ⟨422, "Unprocessable Content",
        .ok (.obj [("errors", .obj [("email", .arr [.str "taken"])])])⟩⟩
      [] "/tasks" Web.CallOptions.empty
      ⟨422, "Unprocessable Content", .ok (.obj [("errors", .obj [("email", .arr [.str "taken"])])])⟩
      [("errors", .obj [("email", .arr [.str "taken"])])] true .undefined
      (.str "Failed to load tasks")
      rfl rfl rfl (by decide) (by decide) (by decide)).2.2.2.2 rfl rfl rfl (by decide)⟩

/-! ## The requests of `register` and `login` -/

theorem RN.requestInterceptor_data (st : Storage) (config : RN.RequestConfig) :
    (RN.requestInterceptor st config).data = config.data := by
  unfold RN.requestInterceptor
  split
  · split <;> rfl
  · rfl

theorem RN.buildConfig_data (st : Storage) (method url : String) (data : JSVal) :
    (RN.buildConfig st method url data).data = data := by
  simp [RN.buildConfig, RN.requestInterceptor_data]

theorem or_undefined_left (v : JSVal) : JSVal.or .undefined v = v := rfl

theorem or_of_nonempty_str (c : String) (v : JSVal) (hc : c ≠ "") :
    JSVal.or (.str c) v = .str c := by
  simp [JSVal.or, JSVal.truthy, hc]

/-- C12: `register` called without a confirmation sends `password_confirmation` equal
to the password, and called with a non-empty confirmation `c` sends `c`. The browser
`register` issues the `POST /register` request whose body is the JSON text of the
object with that field: what it returns is decided by the answer to that request (the
session block applied to the body of an OK answer, the error of the `catch` clause for
a rejection). The mobile `register` hands the object with that field to
`POST /register` and returns `success: true` with the body of the answer. -/
theorem register_password_confirmation (st : Storage) (name email password : JSVal)
    (mobileName mobileEmail : String) :
    ((∀ (env : Web.Env) (r : Web.HttpResponse) (data : JSVal),
        env.fetch (Web.buildRequest env st "/register" ⟨some "POST",
          some (jsonStringify (.obj [("name", name), ("email", email), ("password", password),
            ("password_confirmation", password)])).toJSString, []⟩) = .responded r →
        r.ok = true → r.json = .ok data →
        Web.authAPI.register env st name email password .undefined =
          Web.storeSession st data) ∧
      (∀ (env : Web.Env) (e : JSError),
        env.fetch (Web.buildRequest env st "/register" ⟨some "POST",
          some (jsonStringify (.obj [("name", name), ("email", email), ("password", password),
            ("password_confirmation", password)])).toJSString, []⟩) = .rejected e →
        Web.authAPI.register env st name email password .undefined =
          (st, .error (Web.catchClause e))) ∧
      (∀ (env : RN.Env) (r : RN.AxiosResponse),
        env.adapter (RN.buildConfig st "post" "/register"
          (.obj [("name", .str (jsTrim mobileName)), ("email", .str (jsTrim mobileEmail)),
            ("password", password), ("password_confirmation", password)])) = .resolved r →
        RN.authAPI.register env st mobileName mobileEmail password .undefined =
          (RN.storeSession st r.data, .ok ⟨true, r.data, .undefined, .undefined⟩))) ∧
    (∀ c : String, c ≠ "" →
      (∀ (env : Web.Env) (r : Web.HttpResponse) (data : JSVal),
        env.fetch (Web.buildRequest env st "/register" ⟨some "POST",
          some (jsonStringify (.obj [("name", name), ("email", email), ("password", password),
            ("password_confirmation", .str c)])).toJSString, []⟩) = .responded r →
        r.ok = true → r.json = .ok data →
        Web.authAPI.register env st name email password (.str c) =
          Web.storeSession st data) ∧
      (∀ (env : Web.Env) (e : JSError),
        env.fetch (Web.buildRequest env st "/register" ⟨some "POST",
          some (jsonStringify (.obj [("name", name), ("email", email), ("password", password),
            ("password_confirmation", .str c)])).toJSString, []⟩) = .rejected e →
        Web.authAPI.register env st name email password (.str c) =
          (st, .error (Web.catchClause e))) ∧
      (∀ (env : RN.Env) (r : RN.AxiosResponse),
        env.adapter (RN.buildConfig st "post" "/register"
          (.obj [("name", .str (jsTrim mobileName)), ("email", .str (jsTrim mobileEmail)),
            ("password", password), ("password_confirmation", .str c)])) = .resolved r →
        RN.authAPI.register env st mobileName mobileEmail password (.str c) =
          (RN.storeSession st r.data, .ok ⟨true, r.data, .undefined, .undefined⟩))) := by
  have hweb : Web.authAPI.registerOptions name email password .undefined =
      ⟨some "POST",
        some (jsonStringify (.obj [("name", name), ("email", email), ("password", password),
          ("password_confirmation", password)])).toJSString, []⟩ := rfl
  have hrn : RN.authAPI.registerData mobileName mobileEmail password .undefined =
      .obj [("name", .str (jsTrim mobileName)), ("email", .str (jsTrim mobileEmail)),
        ("password", password), ("password_confirmation", password)] := rfl
  have hwebc : ∀ c : String, c ≠ "" →
      Web.authAPI.registerOptions name email password (.str c) =
      ⟨some "POST",
        some (jsonStringify (.obj [("name", name), ("email", email), ("password", password),
          ("password_confirmation", .str c)])).toJSString, []⟩ := by
    intro c hc
    simp only [Web.authAPI.registerOptions, Web.authAPI.registerPayload,
      or_of_nonempty_str c password hc]
  have hrnc : ∀ c : String, c ≠ "" →
      RN.authAPI.registerData mobileName mobileEmail password (.str c) =
      .obj [("name", .str (jsTrim mobileName)), ("email", .str (jsTrim mobileEmail)),
        ("password", password), ("password_confirmation", .str c)] := by
    intro c hc
    simp only [RN.authAPI.registerData, or_of_nonempty_str c password hc]
  refine ⟨⟨fun env r data hfetch hok hjson => ?_, fun env e hfetch => ?_,
      fun env r hpost => ?_⟩,
    fun c hc => ⟨fun env r data hfetch hok hjson => ?_, fun env e hfetch => ?_,
      fun env r hpost => ?_⟩⟩
  · simp only [Web.authAPI.register, hweb, Web.apiCall, hfetch, Web.tryBlock, hjson, hok,
      Bool.not_true]
    rfl
  · simp only [Web.authAPI.register, hweb, Web.apiCall, hfetch, Web.tryBlock]
  · simp only [RN.authAPI.register, hrn, RN.apiClientRequest, hpost]
  · simp only [Web.authAPI.register, hwebc c hc, Web.apiCall, hfetch, Web.tryBlock, hjson, hok,
      Bool.not_true]
    rfl
  · simp only [Web.authAPI.register, hwebc c hc, Web.apiCall, hfetch, Web.tryBlock]
  · simp only [RN.authAPI.register, hrnc c hc, RN.apiClientRequest, hpost]

/-- C12 at the password `hunter2`, against servers that answer with the body they
received: without a confirmation both clients send `hunter2` as the confirmation, with
the confirmation `hunter22` the browser client sends `hunter22`. -/
theorem register_password_confirmation_witness :
    Web.authAPI.register
        ⟨.undefined, fun req => .responded ⟨201, "Created",
          .ok (.obj [("received", .str (req.body.getD ""))])⟩⟩
        [] (.str "Ann") (.str "ann@example.com") (.str "hunter2") .undefined =
      ([], .ok (.obj [("received", .str
        "\x7b\"name\":\"Ann\",\"email\":\"ann@example.com\",\"password\":\"hunter2\",\"password_confirmation\":\"hunter2\"\x7d")])) ∧
    RN.authAPI.register ⟨fun cfg => .resolved ⟨201, .obj [("received", cfg.data)]⟩⟩
        [] " Ann " "ann@example.com" (.str "hunter2") .undefined =
      ([], .ok ⟨true, .obj [("received", .obj [("name", .str "Ann"),
          ("email", .str "ann@example.com"), ("password", .str "hunter2"),
          ("password_confirmation", .str "hunter2")])], .undefined, .undefined⟩) ∧
    Web.authAPI.register
        ⟨.undefined, fun req => .responded ⟨201, "Created",
          .ok (.obj [("received", .str (req.body.getD ""))])⟩⟩
        [] (.str "Ann") (.str "ann@example.com") (.str "hunter2") (.str "hunter22") =
      ([], .ok (.obj [("received", .str
        "\x7b\"name\":\"Ann\",\"email\":\"ann@example.com\",\"password\":\"hunter2\",\"password_confirmation\":\"hunter22\"\x7d")])) :=
  ⟨(register_password_confirmation [] (.str "Ann") (.str "ann@example.com") (.str "hunter2")
      " Ann " "ann@example.com").1.1
      ⟨.undefined, fun req => .responded ⟨201, "Created",
        .ok (.obj [("received", .str (req.body.getD ""))])⟩⟩
      ⟨201, "Created", .ok (.obj [("received", .str
        "\x7b\"name\":\"Ann\",\"email\":\"ann@example.com\",\"password\":\"hunter2\",\"password_confirmation\":\"hunter2\"\x7d")])⟩
      _ rfl rfl rfl,
    (register_password_confirmation [] (.str "Ann") (.str "ann@example.com") (.str "hunter2")
      " Ann " "ann@example.com").1.2.2
      ⟨fun cfg => .resolved ⟨201, .obj [("received", cfg.data)]⟩⟩
      ⟨201, .obj [("received", .obj [("name", .str "Ann"),
        ("email", .str "ann@example.com"), ("password", .str "hunter2"),
        ("password_confirmation", .str "hunter2")])]⟩ rfl,
    ((register_password_confirmation [] (.str "Ann") (.str "ann@example.com") (.str "hunter2")
      " Ann " "ann@example.com").2 "hunter22" (by decide)).1
      ⟨.undefined, fun req => .responded ⟨201, "Created",
        .ok (.obj [("received", .str (req.body.getD ""))])⟩⟩
      ⟨201, "Created", .ok (.obj [("received", .str
        "\x7b\"name\":\"Ann\",\"email\":\"ann@example.com\",\"password\":\"hunter2\",\"password_confirmation\":\"hunter22\"\x7d")])⟩
      _ rfl rfl rfl⟩

/-- The text `trim` returns is the argument without a leading and a trailing run of
white space: the argument is that run, the result, and that run; the result neither
starts nor ends with white space. -/
theorem jsTrim_spec (s : String) :
    ∃ leading trailing : List Char,
      s.data = leading ++ (jsTrim s).data ++ trailing ∧
      leading.all isJSWhiteSpace = true ∧ trailing.all isJSWhiteSpace = true ∧
      (∀ c, (jsTrim s).data.head? = some c → isJSWhiteSpace c = false) ∧
      (∀ c, (jsTrim s).data.getLast? = some c → isJSWhiteSpace c = false) := by
  refine ⟨s.data.takeWhile isJSWhiteSpace,
    (((s.data.dropWhile isJSWhiteSpace).reverse).takeWhile isJSWhiteSpace).reverse, ?_, ?_, ?_, ?_, ?_⟩
  · have h1 := List.takeWhile_append_dropWhile isJSWhiteSpace s.data
    have h2 := List.takeWhile_append_dropWhile isJSWhiteSpace
      (s.data.dropWhile isJSWhiteSpace).reverse
    have h3 := congrArg List.reverse h2
    rw [List.reverse_append, List.reverse_reverse] at h3
    simp only [jsTrim, List.append_assoc]
    rw [h3, h1]
  · exact List.all_takeWhile
  · rw [List.all_reverse]
    exact List.all_takeWhile
  · intro c hc
    simp only [jsTrim] at hc
    have hne : ((s.data.dropWhile isJSWhiteSpace).reverse.dropWhile isJSWhiteSpace).reverse ≠ [] := by
      intro h; rw [h] at hc; simp at hc
    have h2 := List.takeWhile_append_dropWhile isJSWhiteSpace
      (s.data.dropWhile isJSWhiteSpace).reverse
    have h3 := congrArg List.reverse h2
    rw [List.reverse_append, List.reverse_reverse] at h3
    have h4 := congrArg List.head? h3
    rw [List.head?_append_of_ne_nil _ hne, hc] at h4
    have h5 := List.head?_dropWhile_not isJSWhiteSpace s.data
    rw [← h4] at h5
    simpa using h5
  · intro c hc
    simp only [jsTrim, List.getLast?_reverse] at hc
    have h5 := List.head?_dropWhile_not isJSWhiteSpace (s.data.dropWhile isJSWhiteSpace).reverse
    rw [hc] at h5
    simpa using h5

/-- C13, counterexample: the browser `login` called with the email ` ann@example.com `,
against a server that answers with the body it received. The body holds the email with
its blanks, so the email was sent as given and not trimmed. -/
theorem Web.login_sends_email_untrimmed :
    (Web.authAPI.login
        ⟨.undefined, fun req => .responded ⟨200, "OK",
          .ok (.obj [("received", .str (req.body.getD ""))])⟩⟩
        [] (.str " ann@example.com ") (.str "secret")).2 =
      .ok (.obj [("received",
        .str "\x7b\"email\":\" ann@example.com \",\"password\":\"secret\"\x7d")]) ∧
    (Web.authAPI.login
        ⟨.undefined, fun req => .responded ⟨200, "OK",
          .ok (.obj [("received", .str (req.body.getD ""))])⟩⟩
        [] (.str " ann@example.com ") (.str "secret")).2 ≠
      .ok (.obj [("received",
        .str "\x7b\"email\":\"ann@example.com\",\"password\":\"secret\"\x7d")]) := by
  have h : (Web.authAPI.login
        ⟨.undefined, fun req => .responded ⟨200, "OK",
          .ok (.obj [("received", .str (req.body.getD ""))])⟩⟩
        [] (.str " ann@example.com ") (.str "secret")).2 =
      .ok (.obj [("received",
        .str "\x7b\"email\":\" ann@example.com \",\"password\":\"secret\"\x7d")]) := rfl
  refine ⟨h, ?_⟩
  rw [h]
  intro hcontra
  injection hcontra with hcontra
  injection hcontra with hcontra
  injection hcontra with hcontra _
  injection hcontra with _ hcontra
  injection hcontra with hcontra
  exact absurd hcontra (by decide)

/-- C13, amended: the mobile `login` hands to `POST /login` the payload whose `email` is
the argument with leading and trailing white space removed and whose `password` is the
argument, and what it returns is decided by the answer to that request; the browser
`login` issues the `POST /login` request whose body is the JSON text of
`{email, password}` with both arguments unchanged, and what it returns is decided by the
answer to that request. -/
theorem login_request_body (st : Storage) (e : String) (p : JSVal) :
    ((∀ (env : RN.Env) (r : RN.AxiosResponse),
        env.adapter (RN.buildConfig st "post" "/login"
          (.obj [("email", .str (jsTrim e)), ("password", p)])) = .resolved r →
        RN.authAPI.login env st e p =
          (RN.storeSession st r.data, .ok ⟨true, r.data, .undefined, .undefined⟩)) ∧
      (∀ (env : RN.Env) (err : RN.ErrorObject),
        env.adapter (RN.buildConfig st "post" "/login"
          (.obj [("email", .str (jsTrim e)), ("password", p)])) = .rejected err →
        RN.authAPI.login env st e p =
          (RN.responseErrorInterceptor st err, RN.handleError err (.str "Login failed"))) ∧
      ∃ leading trailing : List Char,
        e.data = leading ++ (jsTrim e).data ++ trailing ∧
        leading.all isJSWhiteSpace = true ∧ trailing.all isJSWhiteSpace = true ∧
        (∀ c, (jsTrim e).data.head? = some c → isJSWhiteSpace c = false) ∧
        (∀ c, (jsTrim e).data.getLast? = some c → isJSWhiteSpace c = false)) ∧
    ((∀ (env : Web.Env) (r : Web.HttpResponse) (data : JSVal),
        env.fetch (Web.buildRequest env st "/login" ⟨some "POST",
          some (jsonStringify (.obj [("email", .str e), ("password", p)])).toJSString, []⟩) =
          .responded r →
        r.ok = true → r.json = .ok data →
        Web.authAPI.login env st (.str e) p = Web.storeSession st data) ∧
      (∀ (env : Web.Env) (err : JSError),
        env.fetch (Web.buildRequest env st "/login" ⟨some "POST",
          some (jsonStringify (.obj [("email", .str e), ("password", p)])).toJSString, []⟩) =
          .rejected err →
        Web.authAPI.login env st (.str e) p = (st, .error (Web.catchClause err)))) := by
  have hweb : Web.authAPI.loginOptions (.str e) p =
      ⟨some "POST",
        some (jsonStringify (.obj [("email", .str e), ("password", p)])).toJSString, []⟩ := rfl
  have hrn : RN.authAPI.loginData e p = .obj [("email", .str (jsTrim e)), ("password", p)] := rfl
  refine ⟨⟨fun env r hpost => ?_, fun env err hpost => ?_, jsTrim_spec e⟩,
    ⟨fun env r data hfetch hok hjson => ?_, fun env err hfetch => ?_⟩⟩
  · simp only [RN.authAPI.login, hrn, RN.apiClientRequest, hpost]
  · simp only [RN.authAPI.login, hrn, RN.apiClientRequest, hpost]
  · simp only [Web.authAPI.login, hweb, Web.apiCall, hfetch, Web.tryBlock, hjson, hok,
      Bool.not_true]
    rfl
  · simp only [Web.authAPI.login, hweb, Web.apiCall, hfetch, Web.tryBlock]

/-- C13, amended, at the email ` ann@example.com `, against servers that answer with
the body they received: the mobile client sends `ann@example.com`, the browser client
the email as it was given. -/
theorem login_request_body_witness :
    RN.authAPI.login ⟨fun cfg => .resolved ⟨200, .obj [("received", cfg.data)]⟩⟩
        [] " ann@example.com " (.str "secret") =
      ([], .ok ⟨true, .obj [("received",
          .obj [("email", .str "ann@example.com"), ("password", .str "secret")])],
          .undefined, .undefined⟩) ∧
    Web.authAPI.login
        ⟨.undefined, fun req => .responded ⟨200, "OK",
          .ok (.obj [("received", .str (req.body.getD ""))])⟩⟩
        [] (.str " ann@example.com ") (.str "secret") =
      ([], .ok (.obj [("received",
        .str "\x7b\"email\":\" ann@example.com \",\"password\":\"secret\"\x7d")])) :=
  ⟨(login_request_body [] " ann@example.com " (.str "secret")).1.1
      ⟨fun cfg => .resolved ⟨200, .obj [("received", cfg.data)]⟩⟩
      ⟨200, .obj [("received",
        .obj [("email", .str "ann@example.com"), ("password", .str "secret")])]⟩ rfl,
    (login_request_body [] " ann@example.com " (.str "secret")).2.1
      ⟨.undefined, fun req => .responded ⟨200, "OK",
        .ok (.obj [("received", .str (req.body.getD ""))])⟩⟩
      ⟨200, "OK", .ok (.obj [("received",
        .str "\x7b\"email\":\" ann@example.com \",\"password\":\"secret\"\x7d")])⟩
      _ rfl rfl rfl⟩

/-! ## The session invariant and the session queries of the mobile client -/

theorem Storage.getItem_setItem_self (st : Storage) (key value : String) :
    (st.setItem key value).getItem key = some value := by
  simp [Storage.setItem, Storage.getItem_cons]

theorem Storage.getItem_setItem_of_ne (st : Storage) (key other value : String)
    (hne : key ≠ other) : (st.setItem other value).getItem key = st.getItem key := by
  simp only [Storage.setItem, Storage.getItem_cons, if_neg (Ne.symm hne)]
  exact Storage.getItem_removeItem_of_ne st key other hne

theorem sessionInvariant_cleared (st : Storage) :
    sessionInvariant (st.multiRemove ["auth_token", "user"]) := by
  have h := Storage.session_cleared st
  simp [sessionInvariant, Storage.multiRemove_session, h.1, h.2]

theorem RN.storeSession_cases (st : Storage) (data : JSVal) :
    RN.storeSession st data = st ∨
    ((RN.storeSession st data).getItem "auth_token" =
        some (getFieldOpt data "token").toJSString ∧
      (RN.storeSession st data).getItem "user" =
        some (jsonStringify (getFieldOpt data "user")).toJSString ∧
      (getFieldOpt data "token").truthy = true ∧ (getFieldOpt data "user").truthy = true) := by
  unfold RN.storeSession
  split
  · rename_i h
    right
    refine ⟨?_, Storage.getItem_setItem_self _ _ _, ?_, ?_⟩
    · rw [Storage.getItem_setItem_of_ne _ _ _ _ (by decide)]
      exact Storage.getItem_setItem_self _ _ _
    · by_cases ht : (getFieldOpt data "token").truthy = true
      · exact ht
      · simp [JSVal.and, ht] at h
    · by_cases ht : (getFieldOpt data "token").truthy = true
      · simpa [JSVal.and, ht] using h
      · simp [JSVal.and, ht] at h
  · left; rfl

theorem sessionInvariant_storeSession (st : Storage) (data : JSVal)
    (h : sessionInvariant st) : sessionInvariant (RN.storeSession st data) := by
  rcases RN.storeSession_cases st data with hsame | ⟨ht, hu, _, _⟩
  · rw [hsame]; exact h
  · simp [sessionInvariant, ht, hu]

theorem sessionInvariant_interceptor (st : Storage) (error : RN.ErrorObject)
    (h : sessionInvariant st) : sessionInvariant (RN.responseErrorInterceptor st error) := by
  unfold RN.responseErrorInterceptor
  split
  · split
    · exact sessionInvariant_cleared st
    · exact h
  · exact h

theorem sessionInvariant_apiClientRequest (env : RN.Env) (st : Storage) (method url : String)
    (data : JSVal) (h : sessionInvariant st) :
    sessionInvariant (RN.apiClientRequest env st method url data).1 := by
  unfold RN.apiClientRequest
  split
  · exact h
  · exact sessionInvariant_interceptor st _ h

/-- C14: the invariant "`auth_token` is stored if and only if `user` is stored" is kept
by `login`, `register`, `logout` and the 401 handler of the response interceptor of the
mobile client, for every environment, argument and error. -/
theorem session_invariant_preserved (env : RN.Env) (st : Storage) (name email : String)
    (password passwordConfirmation : JSVal) (error : RN.ErrorObject)
    (h : sessionInvariant st) :
    sessionInvariant (RN.authAPI.login env st email password).1 ∧
    sessionInvariant (RN.authAPI.register env st name email password passwordConfirmation).1 ∧
    sessionInvariant (RN.authAPI.logout env st).1 ∧
    sessionInvariant (RN.responseErrorInterceptor st error) := by
  refine ⟨?_, ?_, ?_, sessionInvariant_interceptor st error h⟩
  · have hreq := sessionInvariant_apiClientRequest env st "post" "/login"
      (RN.authAPI.loginData email password) h
    unfold RN.authAPI.login
    cases hres : RN.apiClientRequest env st "post" "/login"
        (RN.authAPI.loginData email password) with
    | mk st1 res =>
      rw [hres] at hreq
      cases res with
      | ok response => exact sessionInvariant_storeSession st1 _ hreq
      | error e => exact hreq
  · have hreq := sessionInvariant_apiClientRequest env st "post" "/register"
      (RN.authAPI.registerData name email password passwordConfirmation) h
    unfold RN.authAPI.register
    cases hres : RN.apiClientRequest env st "post" "/register"
        (RN.authAPI.registerData name email password passwordConfirmation) with
    | mk st1 res =>
      rw [hres] at hreq
      cases res with
      | ok response => exact sessionInvariant_storeSession st1 _ hreq
      | error e => exact hreq
  · unfold RN.authAPI.logout
    cases hres : RN.apiClientRequest env st "post" "/logout" .undefined with
    | mk st1 res =>
      cases res with
      | ok response => exact sessionInvariant_cleared st1
      | error e => exact sessionInvariant_cleared st1

/-- C14 at an empty store, a server that answers `/login` and `/register` with a token
and a user, and a 401 error. -/
theorem session_invariant_preserved_witness :
    sessionInvariant (RN.authAPI.login
      ⟨fun _ => .resolved ⟨200, .obj [("token", .str "abc"), ("user", .obj [("name", .str "Ann")])]⟩⟩
      [] "ann@example.com" (.str "secret")).1 ∧
    sessionInvariant (RN.authAPI.register
      ⟨fun _ => .resolved ⟨200, .obj [("token", .str "abc"), ("user", .obj [("name", .str "Ann")])]⟩⟩
      [] "Ann" "ann@example.com" (.str "secret") .undefined).1 ∧
    sessionInvariant (RN.authAPI.logout
      ⟨fun _ => .resolved ⟨200, .obj [("token", .str "abc"), ("user", .obj [("name", .str "Ann")])]⟩⟩
      []).1 ∧
    sessionInvariant (RN.responseErrorInterceptor [] ⟨some ⟨401, .obj []⟩, true, .undefined⟩) :=
  session_invariant_preserved
    ⟨fun _ => .resolved ⟨200, .obj [("token", .str "abc"), ("user", .obj [("name", .str "Ann")])]⟩⟩
    [] "Ann" "ann@example.com" (.str "secret") .undefined ⟨some ⟨401, .obj []⟩, true, .undefined⟩
    rfl

theorem RN.storeSession_of_truthy (st : Storage) (data : JSVal)
    (ht : (getFieldOpt data "token").truthy = true)
    (hu : (getFieldOpt data "user").truthy = true) :
    (RN.storeSession st data).getItem "auth_token" =
        some (getFieldOpt data "token").toJSString ∧
    (RN.storeSession st data).getItem "user" =
        some (jsonStringify (getFieldOpt data "user")).toJSString := by
  have hand : ((getFieldOpt data "token").and (getFieldOpt data "user")).truthy = true := by
    simp [JSVal.and, ht, hu]
  simp only [RN.storeSession, hand, if_true]
  refine ⟨?_, Storage.getItem_setItem_self _ _ _⟩
  rw [Storage.getItem_setItem_of_ne _ _ _ _ (by decide)]
  exact Storage.getItem_setItem_self _ _ _

theorem stringify_object_nonempty (props : List (String × JSVal)) :
    (jsonStringify (.obj props)).toJSString ≠ "" := by
  simp only [jsonStringify, stringifyVal, JSVal.toJSString]
  intro h
  have hlen := congrArg String.length h
  simp [String.length_append] at hlen
  have : ("\x7b" : String).length = 1 := by decide
  omega

/-- C15: after the mobile `login` has received a successful response whose body has
the non-empty token `t` and the profile object `u`, where `u` is JSON-serialisable in
the sense that the `JSON.parse` of the platform gives `u` back from the text
`JSON.stringify` writes for it, `login` returns `success: true` with the body,
`isAuthenticated()` returns `true` and `getCurrentUser()` returns `u`; and
`getCurrentUser()` returns `null` when no user is stored and when the stored text does
not parse. -/
theorem login_then_session_queries (jsonParse : String → Except JSError JSVal)
    (env : RN.Env) (st : Storage) (email : String) (password : JSVal) (t : String)
    (profile : List (String × JSVal)) (r : RN.AxiosResponse) :
    (t ≠ "" →
      jsonParse (jsonStringify (.obj profile)).toJSString = .ok (.obj profile) →
      env.adapter (RN.buildConfig st "post" "/login" (RN.authAPI.loginData email password)) =
        .resolved r →
      getFieldOpt r.data "token" = .str t → getFieldOpt r.data "user" = .obj profile →
      (RN.authAPI.login env st email password).2 = .ok ⟨true, r.data, .undefined, .undefined⟩ ∧
      RN.authAPI.isAuthenticated (RN.authAPI.login env st email password).1 = true ∧
      RN.authAPI.getCurrentUser jsonParse (RN.authAPI.login env st email password).1 =
        .obj profile) ∧
    (∀ st0 : Storage, st0.getItem "user" = none →
      RN.authAPI.getCurrentUser jsonParse st0 = .null) ∧
    (∀ (st0 : Storage) (text : String) (e : JSError), st0.getItem "user" = some text →
      jsonParse text = .error e → RN.authAPI.getCurrentUser jsonParse st0 = .null) := by
  refine ⟨fun ht hround hpost htoken huser => ?_, fun st0 h => ?_, fun st0 text e h hp => ?_⟩
  · have htt : (getFieldOpt r.data "token").truthy = true := by
      rw [htoken]; simp [JSVal.truthy, ht]
    have hut : (getFieldOpt r.data "user").truthy = true := by
      rw [huser]; rfl
    have hstore := RN.storeSession_of_truthy st r.data htt hut
    rw [htoken, huser] at hstore
    have hlogin : RN.authAPI.login env st email password =
        (RN.storeSession st r.data, .ok ⟨true, r.data, .undefined, .undefined⟩) := by
      simp only [RN.authAPI.login, RN.apiClientRequest, hpost]
    rw [hlogin]
    refine ⟨rfl, ?_, ?_⟩
    · simp [RN.authAPI.isAuthenticated, hstore.1, JSVal.toJSString, ht]
    · simp [RN.authAPI.getCurrentUser, hstore.2, stringify_object_nonempty profile, hround]
  · simp [RN.authAPI.getCurrentUser, h]
  · simp only [RN.authAPI.getCurrentUser, h]
    split
    · simp [hp]
    · rfl

/-- C15 at the response `{token: 'abc', user: {name: 'Ann'}}`, with a parser that reads
the text of that profile, and at a store whose user text does not parse. -/
theorem login_then_session_queries_witness :
    ((RN.authAPI.login
        ⟨fun _ => .resolved ⟨200, .obj [("token", .str "abc"), ("user", .obj [("name", .str "Ann")])]⟩⟩
        [] "ann@example.com" (.str "secret")).2 =
        .ok ⟨true, .obj [("token", .str "abc"), ("user", .obj [("name", .str "Ann")])],
          .undefined, .undefined⟩ ∧
      RN.authAPI.isAuthenticated (RN.authAPI.login
        ⟨fun _ => .resolved ⟨200, .obj [("token", .str "abc"), ("user", .obj [("name", .str "Ann")])]⟩⟩
        [] "ann@example.com" (.str "secret")).1 = true ∧
      RN.authAPI.getCurrentUser
        (fun text => if text = "\x7b\"name\":\"Ann\"\x7d" then .ok (.obj [("name", .str "Ann")])
          else .error ⟨.syntaxError, "Unexpected token"⟩)
        (RN.authAPI.login
          ⟨fun _ => .resolved ⟨200, .obj [("token", .str "abc"), ("user", .obj [("name", .str "Ann")])]⟩⟩
          [] "ann@example.com" (.str "secret")).1 = .obj [("name", .str "Ann")]) ∧
    RN.authAPI.getCurrentUser
      (fun text => if text = "\x7b\"name\":\"Ann\"\x7d" then .ok (.obj [("name", .str "Ann")])
        else .error ⟨.syntaxError, "Unexpected token"⟩) [("auth_token", "abc")] = .null ∧
    RN.authAPI.getCurrentUser
      (fun text => if text = "\x7b\"name\":\"Ann\"\x7d" then .ok (.obj [("name", .str "Ann")])
        else .error ⟨.syntaxError, "Unexpected token"⟩)
      [("auth_token", "abc"), ("user", "undefined")] = .null :=
  ⟨(login_then_session_queries
      (fun text => if text = "\x7b\"name\":\"Ann\"\x7d" then .ok (.obj [("name", .str "Ann")])
        else .error ⟨.syntaxError, "Unexpected token"⟩)
      ⟨fun _ => .resolved ⟨200, .obj [("token", .str "abc"), ("user", .obj [("name", .str "Ann")])]⟩⟩
      [] "ann@example.com" (.str "secret") "abc" [("name", .str "Ann")]
      ⟨200, .obj [("token", .str "abc"), ("user", .obj [("name", .str "Ann")])]⟩).1
      (by decide) rfl rfl rfl rfl,
    (login_then_session_queries
      (fun text => if text = "\x7b\"name\":\"Ann\"\x7d" then .ok (.obj [("name", .str "Ann")])
        else .error ⟨.syntaxError, "Unexpected token"⟩)
      ⟨fun _ => .resolved ⟨200, .obj []⟩⟩ [] "" .undefined "" [] ⟨200, .obj []⟩).2.1
      [("auth_token", "abc")] rfl,
    (login_then_session_queries
      (fun text => if text = "\x7b\"name\":\"Ann\"\x7d" then .ok (.obj [("name", .str "Ann")])
        else .error ⟨.syntaxError, "Unexpected token"⟩)
      ⟨fun _ => .resolved ⟨200, .obj []⟩⟩ [] "" .undefined "" [] ⟨200, .obj []⟩).2.2
      [("auth_token", "abc"), ("user", "undefined")] "undefined"
      ⟨.syntaxError, "Unexpected token"⟩ rfl rfl⟩

theorem RN.isAuthenticated_cleared (st : Storage) :
    RN.authAPI.isAuthenticated (st.multiRemove ["auth_token", "user"]) = false := by
  have h := (Storage.session_cleared st).1
  simp [RN.authAPI.isAuthenticated, Storage.multiRemove_session, h]

/-- C16, counterexample: a token is stored and `POST /login` is answered with status
500. The mobile `login` returns a failure result and the token is still stored, so a
following `isAuthenticated()` returns `true`. -/
theorem RN.login_failure_500_stays_authenticated :
    (RN.authAPI.login
        ⟨fun _ => .rejected ⟨some ⟨500, .obj []⟩, true, .str "Request failed with status code 500"⟩⟩
        [("auth_token", "t0k3n"), ("user", "\x7b\"name\":\"Ann\"\x7d")]
        "ann@example.com" (.str "secret")).2 =
      .ok ⟨false, .undefined, .undefined, .str "Error: 500"⟩ ∧
    RN.authAPI.isAuthenticated (RN.authAPI.login
        ⟨fun _ => .rejected ⟨some ⟨500, .obj []⟩, true, .str "Request failed with status code 500"⟩⟩
        [("auth_token", "t0k3n"), ("user", "\x7b\"name\":\"Ann\"\x7d")]
        "ann@example.com" (.str "secret")).1 = true := by
  constructor
  · rfl
  · decide

/-- C16, amended: when the mobile `login` returns a failure result, the request was
rejected; if the error is a 401 response both session entries have been removed and a
following `isAuthenticated()` returns `false`; for every other failure storage is as it
was before the call; and in every case `isAuthenticated()` returns `false` afterwards
whenever it did before. -/
theorem login_failure_session (env : RN.Env) (st : Storage) (email : String)
    (password : JSVal) (res : RN.Result)
    (hres : (RN.authAPI.login env st email password).2 = .ok res)
    (hfail : res.success = false) :
    (∃ e, env.adapter (RN.buildConfig st "post" "/login"
        (RN.authAPI.loginData email password)) = .rejected e) ∧
    (∀ e r, env.adapter (RN.buildConfig st "post" "/login"
        (RN.authAPI.loginData email password)) = .rejected e →
      e.response = some r → r.status = 401 →
      (RN.authAPI.login env st email password).1.getItem "auth_token" = none ∧
      (RN.authAPI.login env st email password).1.getItem "user" = none ∧
      RN.authAPI.isAuthenticated (RN.authAPI.login env st email password).1 = false) ∧
    (∀ e, env.adapter (RN.buildConfig st "post" "/login"
        (RN.authAPI.loginData email password)) = .rejected e →
      (∀ r, e.response = some r → r.status ≠ 401) →
      (RN.authAPI.login env st email password).1 = st) ∧
    (RN.authAPI.isAuthenticated st = false →
      RN.authAPI.isAuthenticated (RN.authAPI.login env st email password).1 = false) := by
  cases hout : env.adapter (RN.buildConfig st "post" "/login"
      (RN.authAPI.loginData email password)) with
  | resolved r =>
    simp only [RN.authAPI.login, RN.apiClientRequest, hout] at hres
    injection hres with hres
    rw [← hres] at hfail
    simp at hfail
  | rejected e =>
    have hst : (RN.authAPI.login env st email password).1 = RN.responseErrorInterceptor st e := by
      simp only [RN.authAPI.login, RN.apiClientRequest, hout]
    refine ⟨⟨e, rfl⟩, ?_, ?_, ?_⟩
    · intro e' r he' hr h401
      injection he' with he'
      subst he'
      rw [hst]
      simp only [RN.responseErrorInterceptor, hr, h401, if_true]
      have hs := Storage.session_cleared st
      rw [Storage.multiRemove_session]
      exact ⟨hs.1, hs.2, by
        have := RN.isAuthenticated_cleared st
        rwa [Storage.multiRemove_session] at this⟩
    · intro e' he' hne
      injection he' with he'
      subst he'
      rw [hst]
      unfold RN.responseErrorInterceptor
      cases hr : e.response with
      | none => rfl
      | some r => simp [hne r hr]
    · intro hbefore
      rw [hst]
      unfold RN.responseErrorInterceptor
      cases hr : e.response with
      | none => exact hbefore
      | some r =>
        by_cases h401 : r.status = 401
        · simp only [h401, if_true]
          exact RN.isAuthenticated_cleared st
        · simp only [h401, if_false]
          exact hbefore

/-- C16, amended, at a stored session and a 401 answer to `POST /login`, where both
entries are removed, and at an empty store and a 500 answer, where storage stays empty
and `isAuthenticated()` stays `false`. -/
theorem login_failure_session_witness :
    ((RN.authAPI.login ⟨fun _ => .rejected ⟨some ⟨401, .obj []⟩, true, .undefined⟩⟩
        [("auth_token", "t0k3n"), ("user", "\x7b\"name\":\"Ann\"\x7d")]
        "ann@example.com" (.str "secret")).1.getItem "auth_token" = none ∧
      (RN.authAPI.login ⟨fun _ => .rejected ⟨some ⟨401, .obj []⟩, true, .undefined⟩⟩
        [("auth_token", "t0k3n"), ("user", "\x7b\"name\":\"Ann\"\x7d")]
        "ann@example.com" (.str "secret")).1.getItem "user" = none ∧
      RN.authAPI.isAuthenticated
        (RN.authAPI.login ⟨fun _ => .rejected ⟨some ⟨401, .obj []⟩, true, .undefined⟩⟩
          [("auth_token", "t0k3n"), ("user", "\x7b\"name\":\"Ann\"\x7d")]
          "ann@example.com" (.str "secret")).1 = false) ∧
    (RN.authAPI.login ⟨fun _ => .rejected ⟨some ⟨500, .obj []⟩, true, .undefined⟩⟩ []
        "ann@example.com" (.str "secret")).1 = [] ∧
    RN.authAPI.isAuthenticated
      (RN.authAPI.login ⟨fun _ => .rejected ⟨some ⟨500, .obj []⟩, true, .undefined⟩⟩ []
        "ann@example.com" (.str "secret")).1 = false :=
  ⟨(login_failure_session
      ⟨fun _ => .rejected ⟨some ⟨401, .obj []⟩, true, .undefined⟩⟩
      [("auth_token", "t0k3n"), ("user", "\x7b\"name\":\"Ann\"\x7d")]
      "ann@example.com" (.str "secret")
      ⟨false, .undefined, .undefined, .str "Unauthorized. Please login again."⟩ rfl rfl).2.1
      ⟨some ⟨401, .obj []⟩, true, .undefined⟩ ⟨401, .obj []⟩ rfl rfl rfl,
    (login_failure_session
      ⟨fun _ => .rejected ⟨some ⟨500, .obj []⟩, true, .undefined⟩⟩ []
      "ann@example.com" (.str "secret")
      ⟨false, .undefined, .undefined, .str "Error: 500"⟩ rfl rfl).2.2.1
      ⟨some ⟨500, .obj []⟩, true, .undefined⟩ rfl
      (fun r h => by cases h; decide),
    (login_failure_session
      ⟨fun _ => .rejected ⟨some ⟨500, .obj []⟩, true, .undefined⟩⟩ []
      "ann@example.com" (.str "secret")
      ⟨false, .undefined, .undefined, .str "Error: 500"⟩ rfl rfl).2.2.2 rfl⟩

/-! ## The task operations -/

/-- C17, counterexample: `createTask` called with the title of three blanks, against a
server that answers `POST /tasks` with 201 and the created task. Neither client fails
on its own: both return the answer of the server. -/
theorem createTask_blank_title_is_posted :
    RN.tasksAPI.createTask
        ⟨fun _ => .resolved ⟨201, .obj [("data", .obj [("id", .num 7), ("title", .str "   ")])]⟩⟩
        [] (.obj [("title", .str "   ")]) =
      ([], .ok ⟨true, .obj [("id", .num 7), ("title", .str "   ")], .undefined, .undefined⟩) ∧
    (Web.tasksAPI.createTask
        ⟨.undefined, fun _ => .responded ⟨201, "Created",
          .ok (.obj [("data", .obj [("id", .num 7), ("title", .str "   ")])])⟩⟩
        [] (.obj [("title", .str "   ")])).2 =
      .ok (.obj [("data", .obj [("id", .num 7), ("title", .str "   ")])]) := by
  constructor <;> rfl

/-- C17, amended: `createTask` checks nothing about the title. For every task data the
mobile client hands that data unchanged to `POST /tasks` and, on a response whose body
is neither `null` nor `undefined`, returns `success: true` with the `data` of the body;
the browser client sends the JSON text of the task data and, on an OK response with a
JSON body, returns that body. -/
theorem createTask_posts_every_task (taskData : JSVal) (st : Storage) :
    (∀ (env : RN.Env) (r : RN.AxiosResponse),
      env.adapter (RN.buildConfig st "post" "/tasks" taskData) = .resolved r →
      r.data ≠ .null ∧ r.data ≠ .undefined →
      (RN.buildConfig st "post" "/tasks" taskData).data = taskData ∧
      RN.tasksAPI.createTask env st taskData =
        (st, .ok ⟨true, getFieldOpt r.data "data", .undefined, .undefined⟩)) ∧
    (∀ (env : Web.Env) (r : Web.HttpResponse) (data : JSVal),
      env.fetch (Web.buildRequest env st "/tasks" (Web.tasksAPI.createTaskOptions taskData)) =
        .responded r →
      r.ok = true → r.json = .ok data →
      (Web.buildRequest env st "/tasks" (Web.tasksAPI.createTaskOptions taskData)).body =
        stringifyVal taskData ∧
      (Web.buildRequest env st "/tasks" (Web.tasksAPI.createTaskOptions taskData)).method =
        some "POST" ∧
      Web.tasksAPI.createTask env st taskData = (st, .ok data)) := by
  constructor
  · intro env r hpost hbody
    refine ⟨RN.buildConfig_data _ _ _ _, ?_⟩
    simp only [RN.tasksAPI.createTask, RN.apiClientRequest, hpost,
      getField_of_present r.data "data" hbody]
  · intro env r data hfetch hok hjson
    refine ⟨rfl, rfl, ?_⟩
    simp only [Web.tasksAPI.createTask, Web.apiCall, hfetch, Web.tryBlock, hjson, hok,
      Bool.not_true]
    rfl

/-- C17, amended, at the title of three blanks. -/
theorem createTask_posts_every_task_witness :
    ((RN.buildConfig [] "post" "/tasks" (.obj [("title", .str "   ")])).data =
        .obj [("title", .str "   ")] ∧
      RN.tasksAPI.createTask
        ⟨fun _ => .resolved ⟨201, .obj [("data", .obj [("id", .num 7), ("title", .str "   ")])]⟩⟩
        [] (.obj [("title", .str "   ")]) =
      ([], .ok ⟨true, getFieldOpt (.obj [("data", .obj [("id", .num 7), ("title", .str "   ")])])
        "data", .undefined, .undefined⟩)) ∧
    ((Web.buildRequest
        ⟨.undefined, fun _ => .responded ⟨201, "Created",
          .ok (.obj [("data", .obj [("id", .num 7), ("title", .str "   ")])])⟩⟩
        [] "/tasks" (Web.tasksAPI.createTaskOptions (.obj [("title", .str "   ")]))).body =
        stringifyVal (.obj [("title", .str "   ")]) ∧
      (Web.buildRequest
        ⟨.undefined, fun _ => .responded ⟨201, "Created",
          .ok (.obj [("data", .obj [("id", .num 7), ("title", .str "   ")])])⟩⟩
        [] "/tasks" (Web.tasksAPI.createTaskOptions (.obj [("title", .str "   ")]))).method =
        some "POST" ∧
      Web.tasksAPI.createTask
        ⟨.undefined, fun _ => .responded ⟨201, "Created",
          .ok (.obj [("data", .obj [("id", .num 7), ("title", .str "   ")])])⟩⟩
        [] (.obj [("title", .str "   ")]) =
      ([], .ok (.obj [("data", .obj [("id", .num 7), ("title", .str "   ")])]))) :=
  ⟨(createTask_posts_every_task (.obj [("title", .str "   ")]) []).1
      ⟨fun _ => .resolved ⟨201, .obj [("data", .obj [("id", .num 7), ("title", .str "   ")])]⟩⟩
      ⟨201, .obj [("data", .obj [("id", .num 7), ("title", .str "   ")])]⟩ rfl
      ⟨(fun h => nomatch h), (fun h => nomatch h)⟩,
    (createTask_posts_every_task (.obj [("title", .str "   ")]) []).2
      ⟨.undefined, fun _ => .responded ⟨201, "Created",
        .ok (.obj [("data", .obj [("id", .num 7), ("title", .str "   ")])])⟩⟩
      ⟨201, "Created", .ok (.obj [("data", .obj [("id", .num 7), ("title", .str "   ")])])⟩
      (.obj [("data", .obj [("id", .num 7), ("title", .str "   ")])]) rfl rfl rfl⟩

theorem RN.handleError_ofJSError (e : JSError) (defaultMessage : JSVal) :
    RN.handleError (RN.ErrorObject.ofJSError e) defaultMessage =
      .ok (RN.Result.failure ((JSVal.str e.message).or defaultMessage)) := rfl

/-- The four task operations of the mobile client return a result object, without
raising, in every environment whose error responses have a body that is neither `null`
nor `undefined` and, at status 422, validation messages whose `join` does not raise. -/
theorem RN.tasksAPI_returns_result (env : RN.Env) (st : Storage) (filters : TaskFilters)
    (taskData id : JSVal)
    (hbody : ∀ cfg e r, env.adapter cfg = .rejected e → e.response = some r →
      r.data ≠ .null ∧ r.data ≠ .undefined)
    (hjoin : ∀ cfg e r, env.adapter cfg = .rejected e → e.response = some r → r.status = 422 →
      JSVal.joinRaises (JSVal.flat (JSVal.objectValues (getFieldOpt r.data "errors"))) = false) :
    (∃ res, (RN.tasksAPI.getTasks env st filters).2 = .ok res) ∧
    (∃ res, (RN.tasksAPI.createTask env st taskData).2 = .ok res) ∧
    (∃ res, (RN.tasksAPI.updateTask env st id taskData).2 = .ok res) ∧
    (∃ res, (RN.tasksAPI.deleteTask env st id).2 = .ok res) := by
  refine ⟨?_, ?_, ?_, ?_⟩
  · cases hout : env.adapter (RN.buildConfig st "get" (RN.tasksAPI.getTasksPath filters)
        .undefined) with
    | resolved r =>
      cases hd : getField r.data "data" with
      | error e =>
        simp only [RN.tasksAPI.getTasks, RN.apiClientRequest, hout, hd]
        exact ⟨_, RN.handleError_ofJSError e _⟩
      | ok d =>
        cases hm : getField r.data "meta" with
        | error e =>
          simp only [RN.tasksAPI.getTasks, RN.apiClientRequest, hout, hd, hm]
          exact ⟨_, RN.handleError_ofJSError e _⟩
        | ok m =>
          simp only [RN.tasksAPI.getTasks, RN.apiClientRequest, hout, hd, hm]
          exact ⟨_, rfl⟩
    | rejected e =>
      simp only [RN.tasksAPI.getTasks, RN.apiClientRequest, hout]
      exact ⟨_, RN.handleError_decision_table e _ (fun r hr => hbody _ e r hout hr)
        (fun r hr => hjoin _ e r hout hr)⟩
  · cases hout : env.adapter (RN.buildConfig st "post" "/tasks" taskData) with
    | resolved r =>
      cases hd : getField r.data "data" with
      | error e =>
        simp only [RN.tasksAPI.createTask, RN.apiClientRequest, hout, hd]
        exact ⟨_, RN.handleError_ofJSError e _⟩
      | ok d =>
        simp only [RN.tasksAPI.createTask, RN.apiClientRequest, hout, hd]
        exact ⟨_, rfl⟩
    | rejected e =>
      simp only [RN.tasksAPI.createTask, RN.apiClientRequest, hout]
      exact ⟨_, RN.handleError_decision_table e _ (fun r hr => hbody _ e r hout hr)
        (fun r hr => hjoin _ e r hout hr)⟩
  · cases hout : env.adapter (RN.buildConfig st "put" ("/tasks/" ++ id.toJSString) taskData) with
    | resolved r =>
      cases hd : getField r.data "data" with
      | error e =>
        simp only [RN.tasksAPI.updateTask, RN.apiClientRequest, hout, hd]
        exact ⟨_, RN.handleError_ofJSError e _⟩
      | ok d =>
        simp only [RN.tasksAPI.updateTask, RN.apiClientRequest, hout, hd]
        exact ⟨_, rfl⟩
    | rejected e =>
      simp only [RN.tasksAPI.updateTask, RN.apiClientRequest, hout]
      exact ⟨_, RN.handleError_decision_table e _ (fun r hr => hbody _ e r hout hr)
        (fun r hr => hjoin _ e r hout hr)⟩
  · cases hout : env.adapter (RN.buildConfig st "delete" ("/tasks/" ++ id.toJSString)
        .undefined) with
    | resolved r =>
      simp only [RN.tasksAPI.deleteTask, RN.apiClientRequest, hout]
      exact ⟨_, rfl⟩
    | rejected e =>
      simp only [RN.tasksAPI.deleteTask, RN.apiClientRequest, hout]
      exact ⟨_, RN.handleError_decision_table e _ (fun r hr => hbody _ e r hout hr)
        (fun r hr => hjoin _ e r hout hr)⟩

/-- C18, at the failing input: the transport reports an error response with status 500
whose body is `null`. In each of the four task operations of the mobile client the
`catch` clause calls `handleError`, which reads `data.message` on `null`; the
`TypeError` leaves the operation instead of a result object. -/
theorem RN.tasksAPI_raise_on_null_error_body :
    (RN.tasksAPI.getTasks
      ⟨fun _ => .rejected ⟨some ⟨500, .null⟩, true, .str "Request failed with status code 500"⟩⟩
      [] TaskFilters.empty).2 =
      .error (RN.ErrorObject.ofJSError
        ⟨.typeError, "Cannot read properties of null (reading 'message')"⟩) ∧
    (RN.tasksAPI.createTask
      ⟨fun _ => .rejected ⟨some ⟨500, .null⟩, true, .str "Request failed with status code 500"⟩⟩
      [] (.obj [("title", .str "Buy milk")])).2 =
      .error (RN.ErrorObject.ofJSError
        ⟨.typeError, "Cannot read properties of null (reading 'message')"⟩) ∧
    (RN.tasksAPI.updateTask
      ⟨fun _ => .rejected ⟨some ⟨500, .null⟩, true, .str "Request failed with status code 500"⟩⟩
      [] (.num 7) (.obj [("status", .str "done")])).2 =
      .error (RN.ErrorObject.ofJSError
        ⟨.typeError, "Cannot read properties of null (reading 'message')"⟩) ∧
    (RN.tasksAPI.deleteTask
      ⟨fun _ => .rejected ⟨some ⟨500, .null⟩, true, .str "Request failed with status code 500"⟩⟩
      [] (.num 7)).2 =
      .error (RN.ErrorObject.ofJSError
        ⟨.typeError, "Cannot read properties of null (reading 'message')"⟩) := by
  refine ⟨rfl, rfl, rfl, rfl⟩

theorem or_truthy_of_right (a b : JSVal) (hb : b.truthy = true) : (a.or b).truthy = true := by
  unfold JSVal.or
  split
  · assumption
  · exact hb

theorem str_truthy_of_append (s t : String) (hs : s ≠ "") : (JSVal.str (s ++ t)).truthy = true := by
  have hne : s ++ t ≠ "" := by
    intro h
    have hlen := congrArg String.length h
    have hpos : s.length ≠ 0 := by
      intro h0
      apply hs
      cases s with
      | mk data =>
        have : data = [] := List.length_eq_zero.mp h0
        subst this
        rfl
    simp [String.length_append] at hlen
    omega
  simp [JSVal.truthy, hne]

/-- The message `handleError` returns is truthy (for a string: not empty) when the
default message is, the body of an error response is neither `null` nor `undefined`,
and a 422 body has validation messages whose `join` does not raise and, when `errors`
is truthy, gives a text that is not empty. -/
theorem RN.handleError_message_truthy (error : RN.ErrorObject) (defaultMessage : JSVal)
    (hdefault : defaultMessage.truthy = true)
    (hbody : ∀ r, error.response = some r → r.data ≠ .null ∧ r.data ≠ .undefined)
    (hjoin : ∀ r, error.response = some r → r.status = 422 →
      JSVal.joinRaises (JSVal.flat (JSVal.objectValues (getFieldOpt r.data "errors"))) = false)
    (hjoined : ∀ r, error.response = some r → r.status = 422 →
      (getFieldOpt r.data "errors").truthy = true →
      JSVal.join ", " (JSVal.flat (JSVal.objectValues (getFieldOpt r.data "errors"))) ≠ "") :
    ∃ m, RN.handleError error defaultMessage = .ok (RN.Result.failure m) ∧ m.truthy = true := by
  refine ⟨_, RN.handleError_decision_table error defaultMessage hbody hjoin, ?_⟩
  obtain ⟨response, request, message⟩ := error
  cases response with
  | none =>
    cases request
    · exact or_truthy_of_right _ _ hdefault
    · rfl
  | some r =>
    simp only [normalizedMessage, tableMessage]
    by_cases h401 : r.status = 401
    · simp only [h401, if_true]; exact or_truthy_of_right _ _ rfl
    · by_cases h403 : r.status = 403
      · simp only [h403, if_true]; exact or_truthy_of_right _ _ rfl
      · by_cases h404 : r.status = 404
        · simp only [h404, if_true]; exact or_truthy_of_right _ _ rfl
        · by_cases h422 : r.status = 422
          · by_cases he : (getFieldOpt r.data "errors").truthy = true
            · have hj := hjoined r rfl h422 he
              simp only [h422, he, if_true]
              simp [JSVal.truthy, hj]
            · simp only [h422, he]
              exact or_truthy_of_right _ _ rfl
          · by_cases h429 : r.status = 429
            · simp only [h429]; rfl
            · simp only [if_neg h401, if_neg h403, if_neg h404, if_neg h422, if_neg h429]
              exact or_truthy_of_right _ _ (str_truthy_of_append "Error: " _ (by decide))

/-- C19, at the failing input: a 422 response whose body is `{errors: {}}`, with the
default message `Registration failed`. The `errors` object is truthy, the joined text
of its values is empty, and `handleError` returns it: `{success: false, error: ''}`. -/
theorem RN.handleError_empty_errors_empty_message :
    RN.handleError ⟨some ⟨422, .obj [("errors", .obj [])]⟩, true,
        .str "Request failed with status code 422"⟩ (.str "Registration failed") =
      .ok (RN.Result.failure (.str "")) := by
  rfl

/-! ## The bearer header -/

/-- C20: for a request made through `apiCall` with no headers from the caller, a stored
non-empty token `t` gives the header `Authorization: Bearer t` and no stored token gives
no `Authorization` header; the request interceptor of the mobile client does the same
to its request configuration. -/
theorem authorization_header (env : Web.Env) (st : Storage) (endpoint : String)
    (method body : Option String) (mobileMethod url : String) (data : JSVal) :
    (∀ t : String, st.getItem "auth_token" = some t → t ≠ "" →
      headerValue (Web.buildRequest env st endpoint ⟨method, body, []⟩).headers "Authorization" =
        some ("Bearer " ++ t) ∧
      headerValue (RN.buildConfig st mobileMethod url data).headers "Authorization" =
        some ("Bearer " ++ t)) ∧
    (st.getItem "auth_token" = none →
      headerValue (Web.buildRequest env st endpoint ⟨method, body, []⟩).headers "Authorization" =
        none ∧
      headerValue (RN.buildConfig st mobileMethod url data).headers "Authorization" = none) := by
  constructor
  · intro t hget ht
    constructor
    · simp [Web.buildRequest, Web.buildHeaders, hget, ht, Web.assignHeader, headerValue]
    · simp [RN.buildConfig, RN.requestInterceptor, hget, ht, Web.assignHeader, headerValue]
  · intro hget
    constructor
    · simp [Web.buildRequest, Web.buildHeaders, hget, headerValue]
    · simp [RN.buildConfig, RN.requestInterceptor, hget, headerValue]

/-- C20 at the stored token `t0k3n` and at an empty store. -/
theorem authorization_header_witness :
    (headerValue (Web.buildRequest ⟨.undefined, fun _ => .rejected ⟨.typeError, "Failed to fetch"⟩⟩
        [("auth_token", "t0k3n")] "/tasks" ⟨none, none, []⟩).headers "Authorization" =
        some ("Bearer " ++ "t0k3n") ∧
      headerValue (RN.buildConfig [("auth_token", "t0k3n")] "get" "/tasks" .undefined).headers
        "Authorization" = some ("Bearer " ++ "t0k3n")) ∧
    (headerValue (Web.buildRequest ⟨.undefined, fun _ => .rejected ⟨.typeError, "Failed to fetch"⟩⟩
        [] "/tasks" ⟨none, none, []⟩).headers "Authorization" = none ∧
      headerValue (RN.buildConfig [] "get" "/tasks" .undefined).headers "Authorization" = none) :=
  ⟨(authorization_header ⟨.undefined, fun _ => .rejected ⟨.typeError, "Failed to fetch"⟩⟩
      [("auth_token", "t0k3n")] "/tasks" none none "get" "/tasks" .undefined).1
      "t0k3n" rfl (by decide),
    (authorization_header ⟨.undefined, fun _ => .rejected ⟨.typeError, "Failed to fetch"⟩⟩
      [] "/tasks" none none "get" "/tasks" .undefined).2 rfl⟩

/-! ## Network failures and empty bodies in the browser client -/

theorem error_text_ne_network (t : String) :
    "Error: " ++ t ≠ "Network error. Please check if the API server is running." := by
  intro h
  have hd := congrArg (fun s : String => s.data.head?) h
  simp [String.data_append] at hd

theorem Web.apiCall_401_raises (env : Web.Env) (st : Storage) (endpoint : String)
    (options : Web.CallOptions) (r : Web.HttpResponse) (data : JSVal)
    (hfetch : env.fetch (Web.buildRequest env st endpoint options) = .responded r)
    (hstatus : r.status = 401) (hjson : r.json = .ok data) :
    (Web.apiCall env st endpoint options).2 =
      .error ⟨.error, "Unauthorized. Please login again."⟩ := by
  have hok : r.ok = false := by simp [Web.HttpResponse.ok, hstatus]
  simp only [Web.apiCall, hfetch, Web.tryBlock, hjson, hok, hstatus]
  rfl

/-- What `apiCall` raises when `fetch` rejects: the fixed network message for a
`TypeError` whose message is `Failed to fetch`, and the rejection itself for every
other error. -/
theorem Web.apiCall_rejected (env : Web.Env) (st : Storage) (endpoint : String)
    (options : Web.CallOptions) (e : JSError)
    (hfetch : env.fetch (Web.buildRequest env st endpoint options) = .rejected e) :
    (e = ⟨.typeError, "Failed to fetch"⟩ →
      (Web.apiCall env st endpoint options).2 =
        .error ⟨.error, "Network error. Please check if the API server is running."⟩) ∧
    (e ≠ ⟨.typeError, "Failed to fetch"⟩ → (Web.apiCall env st endpoint options).2 = .error e) := by
  constructor
  · intro he
    subst he
    simp only [Web.apiCall, hfetch, Web.tryBlock]
    rfl
  · intro hne
    have hguard : ¬(e.kind = .typeError ∧ e.message = "Failed to fetch") := by
      intro h
      apply hne
      cases e
      simp_all
    simp only [Web.apiCall, hfetch, Web.tryBlock, Web.catchClause, if_neg hguard]

/-- C21, at the failing input: `fetch` rejects with the `TypeError` that Safari raises
when no response is obtained, whose message is `Load failed`. The guard of the `catch`
clause compares the message with `Failed to fetch` only, so `apiCall` raises the
`TypeError` again and not the fixed network message, which it does raise for the
rejection worded `Failed to fetch`. -/
theorem Web.apiCall_load_failed_rethrown :
    (Web.apiCall ⟨.undefined, fun _ => .rejected ⟨.typeError, "Load failed"⟩⟩ []
        "/tasks" Web.CallOptions.empty).2 = .error ⟨.typeError, "Load failed"⟩ ∧
    (Web.apiCall ⟨.undefined, fun _ => .rejected ⟨.typeError, "Failed to fetch"⟩⟩ []
        "/tasks" Web.CallOptions.empty).2 =
      .error ⟨.error, "Network error. Please check if the API server is running."⟩ := by
  refine ⟨rfl, rfl⟩

/-- For a response with an OK status whose body is JSON, `deleteTask` returns the
parsed body and leaves storage alone. -/
theorem Web.deleteTask_json_body (env : Web.Env) (st : Storage) (id : JSVal)
    (r : Web.HttpResponse) (data : JSVal)
    (hfetch : env.fetch (Web.buildRequest env st ("/tasks/" ++ id.toJSString)
      ⟨some "DELETE", none, []⟩) = .responded r)
    (hok : r.ok = true) (hjson : r.json = .ok data) :
    Web.tasksAPI.deleteTask env st id = (st, .ok data) := by
  simp only [Web.tasksAPI.deleteTask, Web.apiCall, hfetch, Web.tryBlock, hjson, hok,
    Bool.not_true]
  rfl

/-- C22, at the failing input: `DELETE /tasks/7` answered with status 204 and an empty
body. `apiCall` awaits `response.json()` for every response, the parse of the empty
body rejects, and `deleteTask` raises the `SyntaxError` although the status is a
success. -/
theorem Web.deleteTask_empty_body_raises :
    (Web.tasksAPI.deleteTask
      ⟨.undefined, fun _ => .responded ⟨204, "No Content",
        .error ⟨.syntaxError, "Unexpected end of JSON input"⟩⟩⟩
      [("auth_token", "t0k3n")] (.num 7)).2 =
        .error ⟨.syntaxError, "Unexpected end of JSON input"⟩ := by
  rfl

/-! ## The three logins of the mobile client compared -/

theorem RNExample.example_catchClause_ok (error : RN.ErrorObject)
    (hbody : ∀ r, error.response = some r → r.data ≠ .null ∧ r.data ≠ .undefined)
    (hjoin : ∀ r, error.response = some r → r.status = 422 →
      JSVal.joinRaises (JSVal.flat (JSVal.objectValues (getFieldOpt r.data "errors"))) = false) :
    ∃ m, RNExample.catchClause error = .ok (RN.Result.failure m) := by
  obtain ⟨response, request, message⟩ := error
  cases response with
  | none => cases request <;> exact ⟨_, rfl⟩
  | some r =>
    have hm := getField_of_present r.data "message" (hbody r rfl)
    have he := getField_of_present r.data "errors" (hbody r rfl)
    simp only [RNExample.catchClause, RNExample.errorMessageOf, hm, he, Except.map]
    by_cases h422 : r.status = 422
    · simp only [joinResult_of_not_raises _ _ (hjoin r rfl h422)]
      split_ifs <;> exact ⟨_, rfl⟩
    · simp only [if_neg h422]
      split_ifs <;> exact ⟨_, rfl⟩

theorem RNSimple.simple_catchClause_ok (error : RN.ErrorObject)
    (hbody : ∀ r, error.response = some r → r.data ≠ .null ∧ r.data ≠ .undefined)
    (hjoin : ∀ r, error.response = some r → r.status = 422 →
      JSVal.joinRaises (JSVal.flat (JSVal.objectValues (getFieldOpt r.data "errors"))) = false) :
    ∃ m, RNSimple.catchClause error = .ok (RN.Result.failure m) := by
  obtain ⟨response, request, message⟩ := error
  cases response with
  | none => cases request <;> exact ⟨_, rfl⟩
  | some r =>
    have hm := getField_of_present r.data "message" (hbody r rfl)
    have he := getField_of_present r.data "errors" (hbody r rfl)
    simp only [RNSimple.catchClause, RNSimple.errorMessageOf, hm, he, Except.map]
    by_cases h422 : r.status = 422
    · simp only [joinResult_of_not_raises _ _ (hjoin r rfl h422)]
      split_ifs <;> exact ⟨_, rfl⟩
    · simp only [if_neg h422]
      split_ifs <;> exact ⟨_, rfl⟩

theorem hasExpectedStructure_of_truthy (data : JSVal)
    (ht : (getFieldOpt data "token").truthy = true)
    (hu : (getFieldOpt data "user").truthy = true) :
    RNExample.hasExpectedStructure data = true := by
  cases data <;> simp_all [RNExample.hasExpectedStructure, getFieldOpt, JSVal.and, JSVal.truthy]

theorem RN.storeSession_eq_of_truthy (st : Storage) (data : JSVal)
    (ht : (getFieldOpt data "token").truthy = true)
    (hu : (getFieldOpt data "user").truthy = true) :
    RN.storeSession st data =
      (st.setItem "auth_token" (getFieldOpt data "token").toJSString).setItem "user"
        (jsonStringify (getFieldOpt data "user")).toJSString := by
  have hand : ((getFieldOpt data "token").and (getFieldOpt data "user")).truthy = true := by
    simp [JSVal.and, ht, hu]
  simp only [RN.storeSession, hand, if_true]

/-- C23, counterexample: for a 200 response with the body `{token: 'abc'}` the login of
the service file returns `success: true` while the two others return `success: false`;
and for a 401 response with a stored token the login of the service file removes the
token while the login of `react-native-simple-login.js`, which has no interceptor,
leaves it in storage. -/
theorem login_variants_differ :
    ((RN.authAPI.login ⟨fun _ => .resolved ⟨200, .obj [("token", .str "abc")]⟩⟩ []
        "ann@example.com" (.str "secret")).2 =
        .ok ⟨true, .obj [("token", .str "abc")], .undefined, .undefined⟩ ∧
      (RNExample.loginUser ⟨fun _ => .resolved ⟨200, .obj [("token", .str "abc")]⟩⟩ []
        "ann@example.com" (.str "secret")).2 =
        .ok ⟨false, .undefined, .undefined, .str "Invalid response format from server"⟩ ∧
      (RNSimple.login ⟨fun _ => .resolved ⟨200, .obj [("token", .str "abc")]⟩⟩ []
        "ann@example.com" (.str "secret")).2 =
        .ok ⟨false, .undefined, .undefined, .str "Invalid response from server"⟩) ∧
    ((RN.authAPI.login ⟨fun _ => .rejected ⟨some ⟨401, .obj []⟩, true, .undefined⟩⟩
        [("auth_token", "t0k3n")] "ann@example.com" (.str "secret")).1 = [] ∧
      (RNSimple.login ⟨fun _ => .rejected ⟨some ⟨401, .obj []⟩, true, .undefined⟩⟩
        [("auth_token", "t0k3n")] "ann@example.com" (.str "secret")).1 =
        [("auth_token", "t0k3n")]) := by
  refine ⟨⟨rfl, rfl, rfl⟩, ⟨by decide, by decide⟩⟩

/-- C23, amended: let the transport give the three logins the same outcome. If it is a
successful response whose body has a truthy token and a truthy user, the three return
the same result, `success: true` with the body, and leave storage in the same state.
If it is an error whose response body, when there is a response, is neither `null` nor
`undefined` and, at status 422, has validation messages that can be joined to a text,
the three return `success: false`; the logins of the service file and of the example
file leave storage as the 401 handler of the interceptor leaves it, the login of the
simple file leaves storage as it was, and the three agree on storage whenever the error
is not a 401 response. -/
theorem login_variants_agree (env : RN.Env) (st : Storage) (email : String) (password : JSVal)
    (hsame : env.adapter (RNSimple.loginConfig email password) =
      env.adapter (RN.buildConfig st "post" "/login" (RN.authAPI.loginData email password))) :
    (∀ r, env.adapter (RN.buildConfig st "post" "/login"
        (RN.authAPI.loginData email password)) = .resolved r →
      (getFieldOpt r.data "token").truthy = true → (getFieldOpt r.data "user").truthy = true →
      RNExample.loginUser env st email password = RN.authAPI.login env st email password ∧
      RNSimple.login env st email password = RN.authAPI.login env st email password ∧
      (RN.authAPI.login env st email password).2 =
        .ok ⟨true, r.data, .undefined, .undefined⟩) ∧
    (∀ e, env.adapter (RN.buildConfig st "post" "/login"
        (RN.authAPI.loginData email password)) = .rejected e →
      (∀ r, e.response = some r → r.data ≠ .null ∧ r.data ≠ .undefined) →
      (∀ r, e.response = some r → r.status = 422 →
        JSVal.joinRaises (JSVal.flat (JSVal.objectValues (getFieldOpt r.data "errors"))) =
          false) →
      (∃ m1 m2 m3,
        (RN.authAPI.login env st email password).2 = .ok (RN.Result.failure m1) ∧
        (RNExample.loginUser env st email password).2 = .ok (RN.Result.failure m2) ∧
        (RNSimple.login env st email password).2 = .ok (RN.Result.failure m3)) ∧
      (RN.authAPI.login env st email password).1 = RN.responseErrorInterceptor st e ∧
      (RNExample.loginUser env st email password).1 = RN.responseErrorInterceptor st e ∧
      (RNSimple.login env st email password).1 = st ∧
      ((∀ r, e.response = some r → r.status ≠ 401) →
        (RN.authAPI.login env st email password).1 = st ∧
        (RNExample.loginUser env st email password).1 = st)) := by
  constructor
  · intro r hout ht hu
    have hstruct := hasExpectedStructure_of_truthy r.data ht hu
    have hstore := RN.storeSession_eq_of_truthy st r.data ht hu
    have h1 : RN.authAPI.login env st email password =
        ((st.setItem "auth_token" (getFieldOpt r.data "token").toJSString).setItem "user"
          (jsonStringify (getFieldOpt r.data "user")).toJSString,
          .ok ⟨true, r.data, .undefined, .undefined⟩) := by
      simp only [RN.authAPI.login, RN.apiClientRequest, hout, hstore]
    refine ⟨?_, ?_, ?_⟩
    · rw [h1]
      simp only [RNExample.loginUser, RN.apiClientRequest, hout, hstruct, if_true]
    · rw [h1]
      simp only [RNSimple.login, hsame, hout, hstruct, if_true]
    · rw [h1]
  · intro e hout hbody hjoin
    obtain ⟨m2, hm2⟩ := RNExample.example_catchClause_ok e hbody hjoin
    obtain ⟨m3, hm3⟩ := RNSimple.simple_catchClause_ok e hbody hjoin
    have h1 : RN.authAPI.login env st email password =
        (RN.responseErrorInterceptor st e, RN.handleError e (.str "Login failed")) := by
      simp only [RN.authAPI.login, RN.apiClientRequest, hout]
    have h2 : RNExample.loginUser env st email password =
        (RN.responseErrorInterceptor st e, RNExample.catchClause e) := by
      simp only [RNExample.loginUser, RN.apiClientRequest, hout]
    have h3 : RNSimple.login env st email password = (st, RNSimple.catchClause e) := by
      simp only [RNSimple.login, hsame, hout]
    rw [h1, h2, h3]
    refine ⟨⟨_, m2, m3, RN.handleError_decision_table e _ hbody hjoin, hm2, hm3⟩,
      rfl, rfl, rfl, ?_⟩
    intro hne
    have hst : RN.responseErrorInterceptor st e = st := by
      unfold RN.responseErrorInterceptor
      cases hr : e.response with
      | none => rfl
      | some r => simp [hne r hr]
    exact ⟨hst, hst⟩

/-- C23, amended, at a 200 response with a token and a user and at a 500 response with
the body `{}`. -/
theorem login_variants_agree_witness :
    (RNExample.loginUser
        ⟨fun _ => .resolved ⟨200, .obj [("token", .str "abc"), ("user", .obj [("name", .str "Ann")])]⟩⟩
        [] "ann@example.com" (.str "secret") =
      RN.authAPI.login
        ⟨fun _ => .resolved ⟨200, .obj [("token", .str "abc"), ("user", .obj [("name", .str "Ann")])]⟩⟩
        [] "ann@example.com" (.str "secret") ∧
      RNSimple.login
        ⟨fun _ => .resolved ⟨200, .obj [("token", .str "abc"), ("user", .obj [("name", .str "Ann")])]⟩⟩
        [] "ann@example.com" (.str "secret") =
      RN.authAPI.login
        ⟨fun _ => .resolved ⟨200, .obj [("token", .str "abc"), ("user", .obj [("name", .str "Ann")])]⟩⟩
        [] "ann@example.com" (.str "secret") ∧
      (RN.authAPI.login
        ⟨fun _ => .resolved ⟨200, .obj [("token", .str "abc"), ("user", .obj [("name", .str "Ann")])]⟩⟩
        [] "ann@example.com" (.str "secret")).2 =
        .ok ⟨true, .obj [("token", .str "abc"), ("user", .obj [("name", .str "Ann")])],
          .undefined, .undefined⟩) ∧
    ((RN.authAPI.login ⟨fun _ => .rejected ⟨some ⟨500, .obj []⟩, true, .undefined⟩⟩
        [("auth_token", "t0k3n")] "ann@example.com" (.str "secret")).1 =
        [("auth_token", "t0k3n")] ∧
      (RNExample.loginUser ⟨fun _ => .rejected ⟨some ⟨500, .obj []⟩, true, .undefined⟩⟩
        [("auth_token", "t0k3n")] "ann@example.com" (.str "secret")).1 =
        [("auth_token", "t0k3n")]) :=
  ⟨(login_variants_agree
      ⟨fun _ => .resolved ⟨200, .obj [("token", .str "abc"), ("user", .obj [("name", .str "Ann")])]⟩⟩
      [] "ann@example.com" (.str "secret") rfl).1
      ⟨200, .obj [("token", .str "abc"), ("user", .obj [("name", .str "Ann")])]⟩ rfl rfl rfl,
    ((login_variants_agree ⟨fun _ => .rejected ⟨some ⟨500, .obj []⟩, true, .undefined⟩⟩
      [("auth_token", "t0k3n")] "ann@example.com" (.str "secret") rfl).2
      ⟨some ⟨500, .obj []⟩, true, .undefined⟩ rfl
      (fun r h => by cases h; exact ⟨(fun h => nomatch h), (fun h => nomatch h)⟩)
      (fun r h h422 => by cases h; exact absurd h422 (by decide))).2.2.2.2
      (fun r h => by cases h; decide)⟩

/-! ## The mount effect of the session provider -/

/-- C24, counterexample: `AuthProvider` mounts with the token `t0k3n` and the empty
text stored under `user`. Both entries are present and the empty text does not parse as
JSON, yet the test `token && storedUser` fails on it, the parse is never tried and both
entries stay in storage. -/
theorem authProvider_mount_empty_user_kept :
    AuthProvider.useEffect
        (fun text => if text = "\x7b\"name\":\"Ann\"\x7d" then .ok (.obj [("name", .str "Ann")])
          else .error ⟨.syntaxError, "Unexpected end of JSON input"⟩)
        [("auth_token", "t0k3n"), ("user", "")] =
      ([("auth_token", "t0k3n"), ("user", "")], .null) ∧
    Storage.getItem [("auth_token", "t0k3n"), ("user", "")] "auth_token" = some "t0k3n" ∧
    Storage.getItem [("auth_token", "t0k3n"), ("user", "")] "user" = some "" := by
  refine ⟨rfl, by decide, by decide⟩

/-- C24, amended: when `AuthProvider` mounts with `auth_token` and `user` both stored
and both not empty, and the user text does not parse, both entries are removed and the
user state is `null`; when the text parses, the user state is the parsed value and
storage is unchanged; and when both are stored and one of them is the empty text,
nothing is parsed or removed: storage is unchanged and the user state is `null`. -/
theorem authProvider_mount (jsonParse : String → Except JSError JSVal) (st : Storage)
    (token storedUser : String)
    (htoken : st.getItem "auth_token" = some token) (huser : st.getItem "user" = some storedUser) :
    (token ≠ "" → storedUser ≠ "" → ∀ e, jsonParse storedUser = .error e →
      (AuthProvider.useEffect jsonParse st).2 = .null ∧
      (AuthProvider.useEffect jsonParse st).1.getItem "auth_token" = none ∧
      (AuthProvider.useEffect jsonParse st).1.getItem "user" = none) ∧
    (token ≠ "" → storedUser ≠ "" → ∀ user, jsonParse storedUser = .ok user →
      AuthProvider.useEffect jsonParse st = (st, user)) ∧
    (token = "" ∨ storedUser = "" → AuthProvider.useEffect jsonParse st = (st, .null)) := by
  refine ⟨fun hnt hnu e he => ?_, fun hnt hnu user hu => ?_, fun hempty => ?_⟩
  · have hs := Storage.session_cleared st
    simp only [AuthProvider.useEffect, htoken, huser, he]
    simp [hnt, hnu, hs.1, hs.2]
  · simp only [AuthProvider.useEffect, htoken, huser, hu]
    simp [hnt, hnu]
  · simp only [AuthProvider.useEffect, htoken, huser]
    rcases hempty with h | h <;> simp [h]

/-- C24, amended, at a stored token with the user text `undefined`, which does not
parse, with the user text of a profile, which does, and with the empty user text. -/
theorem authProvider_mount_witness :
    ((AuthProvider.useEffect
        (fun text => if text = "\x7b\"name\":\"Ann\"\x7d" then .ok (.obj [("name", .str "Ann")])
          else .error ⟨.syntaxError, "Unexpected token"⟩)
        [("auth_token", "abc"), ("user", "undefined")]).2 = .null ∧
      (AuthProvider.useEffect
        (fun text => if text = "\x7b\"name\":\"Ann\"\x7d" then .ok (.obj [("name", .str "Ann")])
          else .error ⟨.syntaxError, "Unexpected token"⟩)
        [("auth_token", "abc"), ("user", "undefined")]).1.getItem "auth_token" = none ∧
      (AuthProvider.useEffect
        (fun text => if text = "\x7b\"name\":\"Ann\"\x7d" then .ok (.obj [("name", .str "Ann")])
          else .error ⟨.syntaxError, "Unexpected token"⟩)
        [("auth_token", "abc"), ("user", "undefined")]).1.getItem "user" = none) ∧
    AuthProvider.useEffect
        (fun text => if text = "\x7b\"name\":\"Ann\"\x7d" then .ok (.obj [("name", .str "Ann")])
          else .error ⟨.syntaxError, "Unexpected token"⟩)
        [("auth_token", "abc"), ("user", "\x7b\"name\":\"Ann\"\x7d")] =
      ([("auth_token", "abc"), ("user", "\x7b\"name\":\"Ann\"\x7d")],
        .obj [("name", .str "Ann")]) ∧
    AuthProvider.useEffect
        (fun text => if text = "\x7b\"name\":\"Ann\"\x7d" then .ok (.obj [("name", .str "Ann")])
          else .error ⟨.syntaxError, "Unexpected token"⟩)
        [("auth_token", "abc"), ("user", "")] =
      ([("auth_token", "abc"), ("user", "")], .null) :=
  ⟨(authProvider_mount
      (fun text => if text = "\x7b\"name\":\"Ann\"\x7d" then .ok (.obj [("name", .str "Ann")])
        else .error ⟨.syntaxError, "Unexpected token"⟩)
      [("auth_token", "abc"), ("user", "undefined")] "abc" "undefined" rfl rfl).1
      (by decide) (by decide) ⟨.syntaxError, "Unexpected token"⟩ rfl,
    (authProvider_mount
      (fun text => if text = "\x7b\"name\":\"Ann\"\x7d" then .ok (.obj [("name", .str "Ann")])
        else .error ⟨.syntaxError, "Unexpected token"⟩)
      [("auth_token", "abc"), ("user", "\x7b\"name\":\"Ann\"\x7d")] "abc"
      "\x7b\"name\":\"Ann\"\x7d" rfl rfl).2.1
      (by decide) (by decide) (.obj [("name", .str "Ann")]) rfl,
    (authProvider_mount
      (fun text => if text = "\x7b\"name\":\"Ann\"\x7d" then .ok (.obj [("name", .str "Ann")])
        else .error ⟨.syntaxError, "Unexpected token"⟩)
      [("auth_token", "abc"), ("user", "")] "abc" "" rfl rfl).2.2 (Or.inr rfl)⟩

/-! ## The task handlers of the application -/

theorem strictEq_eq_true_iff_done (s : JSVal) :
    strictEq s (.str "done") = true ↔ s = .str "done" := by
  cases s <;> simp [strictEq]

/-- C25: `toggleStatus` passes to `tasksAPI.updateTask` the patch with the single field
`status`, whose value is `open` when the status of the task is `done` and `done` for
every other status. It issues the `PUT /tasks/{id}` request whose body is the JSON
text of that one-field object, and what it does next is decided by the answer to that
request: on an OK answer the task list is merged with the `data` of the answer (or,
without one, with the task carrying the new status), on a rejection the list is kept
and the message of the error is recorded. Toggling a status twice gives it back exactly
when it is `open` or `done`. -/
theorem toggleStatus_patch (env : Web.Env) (st : Storage) (tasks : List Task) (task : Task) :
    (∀ (r : Web.HttpResponse) (response : JSVal),
      env.fetch (Web.buildRequest env st ("/tasks/" ++ (taskId task).toJSString)
        ⟨some "PUT", stringifyVal (.obj [("status", App.newStatus (taskStatus task))]), []⟩) =
        .responded r →
      r.ok = true → r.json = .ok response → response ≠ .null ∧ response ≠ .undefined →
      App.toggleStatus env st tasks task =
        (st, App.mergeUpdated (taskId task) ((getFieldOpt response "data").or
          (.obj (assignProp task ("status", App.newStatus (taskStatus task))))) tasks, none)) ∧
    (∀ e : JSError,
      env.fetch (Web.buildRequest env st ("/tasks/" ++ (taskId task).toJSString)
        ⟨some "PUT", stringifyVal (.obj [("status", App.newStatus (taskStatus task))]), []⟩) =
        .rejected e →
      App.toggleStatus env st tasks task = (st, tasks, some (Web.catchClause e).message)) ∧
    (taskStatus task = .str "done" →
      App.newStatus (taskStatus task) = .str "open" ∧
      stringifyVal (.obj [("status", App.newStatus (taskStatus task))]) =
        some "\x7b\"status\":\"open\"\x7d") ∧
    (taskStatus task ≠ .str "done" →
      App.newStatus (taskStatus task) = .str "done" ∧
      stringifyVal (.obj [("status", App.newStatus (taskStatus task))]) =
        some "\x7b\"status\":\"done\"\x7d") ∧
    (∀ s : JSVal, App.newStatus (App.newStatus s) = s ↔ s = .str "open" ∨ s = .str "done") := by
  have hopts : Web.tasksAPI.updateTaskOptions (App.toggleStatusPatch task) =
      ⟨some "PUT", stringifyVal (.obj [("status", App.newStatus (taskStatus task))]), []⟩ := rfl
  refine ⟨fun r response hfetch hok hjson hpresent => ?_, fun e hfetch => ?_, fun h => ?_,
    fun h => ?_, fun s => ?_⟩
  · have hcall : Web.tasksAPI.updateTask env st (taskId task) (App.toggleStatusPatch task) =
        (st, .ok response) := by
      simp only [Web.tasksAPI.updateTask, hopts, Web.apiCall, hfetch, Web.tryBlock, hjson, hok,
        Bool.not_true]
      rfl
    simp only [App.toggleStatus, hcall, getField_of_present response "data" hpresent]
  · have hcall : Web.tasksAPI.updateTask env st (taskId task) (App.toggleStatusPatch task) =
        (st, .error (Web.catchClause e)) := by
      simp only [Web.tasksAPI.updateTask, hopts, Web.apiCall, hfetch, Web.tryBlock]
    simp only [App.toggleStatus, hcall]
  · rw [h]
    exact ⟨rfl, by decide⟩
  · have hne : strictEq (taskStatus task) (.str "done") = false := by
      cases hs : strictEq (taskStatus task) (.str "done") with
      | false => rfl
      | true => exact absurd ((strictEq_eq_true_iff_done _).mp hs) h
    have hnew : App.newStatus (taskStatus task) = .str "done" := by simp [App.newStatus, hne]
    rw [hnew]
    exact ⟨rfl, by decide⟩
  · by_cases hd : s = .str "done"
    · subst hd
      constructor
      · intro _; exact Or.inr rfl
      · intro _; rfl
    · have hne : strictEq s (.str "done") = false := by
        cases hs : strictEq s (.str "done") with
        | false => rfl
        | true => exact absurd ((strictEq_eq_true_iff_done _).mp hs) hd
      have h1 : App.newStatus s = .str "done" := by simp [App.newStatus, hne]
      have h2 : App.newStatus (.str "done") = .str "open" := rfl
      rw [h1, h2]
      constructor
      · intro h; exact Or.inl h.symm
      · intro h
        rcases h with h | h
        · exact h.symm
        · exact absurd h hd

/-- C25 at a task whose status is `in_progress`, against a server that answers with the
body it received and no `data`: the body is `{"status":"done"}`, and the task of
the list takes the status `done`. -/
theorem toggleStatus_patch_witness :
    App.toggleStatus
        ⟨.undefined, fun req => .responded ⟨200, "OK",
          .ok (.obj [("received", .str (req.body.getD ""))])⟩⟩
        [] [[("id", .num 7), ("status", .str "in_progress")]]
        [("id", .num 7), ("status", .str "in_progress")] =
      ([], [[("id", .num 7), ("status", .str "done")]], none) ∧
    (App.newStatus (taskStatus [("id", .num 7), ("status", .str "in_progress")]) = .str "done" ∧
      stringifyVal (.obj [("status",
        App.newStatus (taskStatus [("id", .num 7), ("status", .str "in_progress")]))]) =
        some "\x7b\"status\":\"done\"\x7d") ∧
    (App.newStatus (taskStatus [("id", .num 7), ("status", .str "done")]) = .str "open" ∧
      stringifyVal (.obj [("status",
        App.newStatus (taskStatus [("id", .num 7), ("status", .str "done")]))]) =
        some "\x7b\"status\":\"open\"\x7d") :=
  ⟨(toggleStatus_patch
      ⟨.undefined, fun req => .responded ⟨200, "OK",
        .ok (.obj [("received", .str (req.body.getD ""))])⟩⟩
      [] [[("id", .num 7), ("status", .str "in_progress")]]
      [("id", .num 7), ("status", .str "in_progress")]).1
      ⟨200, "OK", .ok (.obj [("received", .str "\x7b\"status\":\"done\"\x7d")])⟩
      (.obj [("received", .str "\x7b\"status\":\"done\"\x7d")]) rfl rfl rfl
      ⟨(fun h => nomatch h), (fun h => nomatch h)⟩,
    (toggleStatus_patch ⟨.undefined, fun _ => .rejected ⟨.typeError, "Failed to fetch"⟩⟩ [] []
      [("id", .num 7), ("status", .str "in_progress")]).2.2.2.1
      (fun h => by
        simp only [taskStatus, ownProp] at h
        injection h with h
        exact absurd h (by decide)),
    (toggleStatus_patch ⟨.undefined, fun _ => .rejected ⟨.typeError, "Failed to fetch"⟩⟩ [] []
      [("id", .num 7), ("status", .str "done")]).2.2.1 rfl⟩

theorem eraseIdx_append_cons_length (l r : List JSVal) (x : JSVal) :
    (l ++ x :: r).eraseIdx l.length = l ++ r := by
  induction l with
  | nil => rfl
  | cons a l ih => simp [List.eraseIdx, ih]

theorem spliceOut_eq (tasks : List JSVal) (source : Nat) (hs : source < tasks.length) :
    (App.spliceOut tasks source).1.head? = some (tasks.get ⟨source, hs⟩) ∧
    (App.spliceOut tasks source).2 = tasks.eraseIdx source ∧
    tasks = tasks.take source ++ tasks.get ⟨source, hs⟩ :: tasks.drop (source + 1) := by
  have hdrop : tasks.drop source = tasks.get ⟨source, hs⟩ :: tasks.drop (source + 1) := by
    rw [List.get_eq_getElem]
    exact List.drop_eq_getElem_cons hs
  refine ⟨?_, ?_, ?_⟩
  · simp only [App.spliceOut]
    rw [hdrop]
    rfl
  · simp [App.spliceOut, List.eraseIdx_eq_take_drop_succ]
  · rw [← hdrop, List.take_append_drop]

/-- C28: for a drag whose source and destination are positions of the list,
`handleDragEnd` gives a permutation of the list, of the same length, with the task of
the source position at the destination position and the other tasks in their former
order; a drag without a destination leaves the list as it is. -/
theorem handleDragEnd_reorders (tasks : List JSVal) (source destination : Nat) :
    (∀ (hs : source < tasks.length), destination < tasks.length →
      (App.handleDragEnd tasks ⟨some destination, source⟩).Perm tasks ∧
      (App.handleDragEnd tasks ⟨some destination, source⟩).length = tasks.length ∧
      (App.handleDragEnd tasks ⟨some destination, source⟩)[destination]? =
        some (tasks.get ⟨source, hs⟩) ∧
      (App.handleDragEnd tasks ⟨some destination, source⟩).eraseIdx destination =
        tasks.eraseIdx source) ∧
    App.handleDragEnd tasks ⟨none, source⟩ = tasks := by
  refine ⟨fun hs hd => ?_, rfl⟩
  obtain ⟨hhead, hrest, hsplit⟩ := spliceOut_eq tasks source hs
  have hlen : (tasks.eraseIdx source).length = tasks.length - 1 := by
    rw [List.length_eraseIdx, if_pos hs]
  have hdle : destination ≤ (tasks.eraseIdx source).length := by omega
  have hres : App.handleDragEnd tasks ⟨some destination, source⟩ =
      (tasks.eraseIdx source).take destination ++
        tasks.get ⟨source, hs⟩ :: (tasks.eraseIdx source).drop destination := by
    simp only [App.handleDragEnd, App.spliceIn, hhead, hrest, Option.getD_some]
  have htake : ((tasks.eraseIdx source).take destination).length = destination := by
    simp [List.length_take, hdle]
  have hperm : (App.handleDragEnd tasks ⟨some destination, source⟩).Perm tasks := by
    rw [hres]
    refine List.perm_middle.trans ?_
    rw [List.take_append_drop]
    have h2 : (tasks.get ⟨source, hs⟩ :: tasks.eraseIdx source).Perm tasks := by
      rw [List.eraseIdx_eq_take_drop_succ]
      conv_rhs => rw [hsplit]
      exact List.perm_middle.symm
    exact h2
  refine ⟨hperm, hperm.length_eq, ?_, ?_⟩
  · rw [hres, List.getElem?_append_right (by omega), htake]
    simp
  · rw [hres]
    have h := eraseIdx_append_cons_length ((tasks.eraseIdx source).take destination)
      ((tasks.eraseIdx source).drop destination) (tasks.get ⟨source, hs⟩)
    rw [htake] at h
    rw [h, List.take_append_drop]

/-- C28 at the list of three tasks with the first one dragged to the last place. -/
theorem handleDragEnd_reorders_witness :
    (App.handleDragEnd [.str "a", .str "b", .str "c"] ⟨some 2, 0⟩).Perm
        [.str "a", .str "b", .str "c"] ∧
    (App.handleDragEnd [.str "a", .str "b", .str "c"] ⟨some 2, 0⟩).length = 3 ∧
    (App.handleDragEnd [.str "a", .str "b", .str "c"] ⟨some 2, 0⟩)[2]? = some (.str "a") ∧
    (App.handleDragEnd [.str "a", .str "b", .str "c"] ⟨some 2, 0⟩).eraseIdx 2 =
      [.str "b", .str "c"] :=
  (handleDragEnd_reorders [.str "a", .str "b", .str "c"] 0 2).1 (by decide) (by decide)

theorem ownProp_cons (e : String × JSVal) (rest : List (String × JSVal)) (key : String) :
    ownProp (e :: rest) key = if e.1 = key then some e.2 else ownProp rest key := by
  cases e; rfl

theorem ownProp_map_assign (props : List (String × JSVal)) (k0 key : String) (v : JSVal) :
    ownProp (props.map (fun p => if p.1 == k0 then (p.1, v) else p)) key =
      if k0 = key then (ownProp props key).map (fun _ => v) else ownProp props key := by
  induction props with
  | nil => simp [ownProp]
  | cons e rest ih =>
    simp only [List.map_cons, ownProp_cons, ih]
    by_cases h0 : e.1 = k0
    · by_cases hk : k0 = key
      · subst h0; subst hk; simp
      · have : ¬ e.1 = key := fun h => hk (h0.symm.trans h)
        simp [h0, hk]
    · by_cases hk : k0 = key
      · have : ¬ e.1 = key := fun h => h0 (h.trans hk.symm)
        simp [h0, hk, this]
      · simp [h0, hk]

theorem ownProp_append_single (props : List (String × JSVal)) (k0 key : String) (v : JSVal) :
    ownProp (props ++ [(k0, v)]) key =
      match ownProp props key with
      | some w => some w
      | none => if k0 = key then some v else none := by
  induction props with
  | nil => simp [ownProp]
  | cons e rest ih =>
    simp only [List.cons_append, ownProp_cons, ih]
    by_cases h : e.1 = key <;> simp [h]

theorem any_key_iff (props : List (String × JSVal)) (k0 : String) :
    props.any (fun p => p.1 == k0) = (ownProp props k0).isSome := by
  induction props with
  | nil => rfl
  | cons e rest ih =>
    simp only [List.any_cons, ownProp_cons, ih]
    by_cases h : e.1 = k0 <;> simp [h]

/-- One property assignment: the assigned key has the new value, every other key the
value it had. -/
theorem ownProp_assignProp (props : List (String × JSVal)) (kv : String × JSVal) (key : String) :
    ownProp (assignProp props kv) key = if kv.1 = key then some kv.2 else ownProp props key := by
  unfold assignProp
  by_cases hany : props.any (fun p => p.1 == kv.1) = true
  · rw [if_pos hany, ownProp_map_assign]
    by_cases hk : kv.1 = key
    · rw [any_key_iff, hk] at hany
      rw [if_pos hk, if_pos hk]
      cases hp : ownProp props key with
      | none => simp [hp] at hany
      | some w => rfl
    · rw [if_neg hk, if_neg hk]
  · rw [if_neg hany, ownProp_append_single]
    by_cases hk : kv.1 = key
    · have hnone : ownProp props key = none := by
        rw [any_key_iff, hk] at hany
        cases hp : ownProp props key with
        | none => rfl
        | some w => simp [hp] at hany
      simp [hnone, hk]
    · cases hp : ownProp props key <;> simp [hk]

theorem ownProp_eq_none_of_not_mem (props : List (String × JSVal)) (key : String)
    (h : key ∉ props.map Prod.fst) : ownProp props key = none := by
  induction props with
  | nil => rfl
  | cons e rest ih =>
    simp only [List.map_cons, List.mem_cons, not_or] at h
    rw [ownProp_cons, if_neg (fun heq => h.1 heq.symm)]
    exact ih h.2

/-- The fields of `{...target, ...source}` when the keys of the source are distinct:
each one is taken from the source where it supplies one and from the target otherwise. -/
theorem ownProp_foldl_assignProp (source target : List (String × JSVal)) (key : String)
    (hkeys : (source.map Prod.fst).Nodup) :
    ownProp (source.foldl assignProp target) key =
      match ownProp source key with
      | some v => some v
      | none => ownProp target key := by
  induction source generalizing target with
  | nil => rfl
  | cons e rest ih =>
    simp only [List.map_cons, List.nodup_cons] at hkeys
    rw [List.foldl_cons, ih _ hkeys.2, ownProp_cons, ownProp_assignProp]
    by_cases hk : e.1 = key
    · have hnone := ownProp_eq_none_of_not_mem rest key (hk ▸ hkeys.1)
      simp [hk, hnone]
    · simp [hk]

theorem strictEq_eq (a b : JSVal) (h : strictEq a b = true) : a = b := by
  cases a <;> cases b <;> simp_all [strictEq]

/-- C26, counterexample: the list holds the task with id 7 and the server answers the
update of task 7 with a task whose id is 99. The merged task takes the id of the
answer, so the ids of the local list are no longer the ids it had. -/
theorem updateTask_changes_id :
    (App.updateTask
        ⟨.undefined, fun _ => .responded ⟨200, "OK",
          .ok (.obj [("data", .obj [("id", .num 99), ("title", .str "b")])])⟩⟩
        [] [[("id", .num 7), ("title", .str "a")]] (.num 7) (.obj [("title", .str "b")])).2 =
      .ok [[("id", .num 99), ("title", .str "b")]] ∧
    List.map taskId [[("id", .num 99), ("title", .str "b")]] ≠
      List.map taskId [[("id", .num 7), ("title", .str "a")]] := by
  constructor
  · rfl
  · intro h
    simp only [List.map, taskId, ownProp, if_true, Option.getD_some] at h
    injection h with h
    injection h with h
    exact absurd h (by decide)

/-- C26, amended: after a successful update whose answer is neither `null` nor
`undefined`, with `updated` the `data` of the answer if truthy and the answer itself
otherwise (its keys distinct), the local list has the same length, every task whose id
is not the updated id is unchanged, every task with the updated id has each field taken
from `updated` where it supplies one and from the old task otherwise, and the ids of
the list are the same in the same order provided `updated` supplies no `id` or the
updated id. -/
theorem updateTask_local_list (env : Web.Env) (st : Storage) (tasks : List Task)
    (id updatedTask : JSVal) (r : Web.HttpResponse) (response updated : JSVal)
    (hfetch : env.fetch (Web.buildRequest env st ("/tasks/" ++ id.toJSString)
      (Web.tasksAPI.updateTaskOptions updatedTask)) = .responded r)
    (hok : r.ok = true) (hjson : r.json = .ok response)
    (hpresent : response ≠ .null ∧ response ≠ .undefined)
    (hupdated : updated = (getFieldOpt response "data").or response)
    (hkeys : ((ownEnumerable updated).map Prod.fst).Nodup) :
    (App.updateTask env st tasks id updatedTask).2 = .ok (App.mergeUpdated id updated tasks) ∧
    (App.mergeUpdated id updated tasks).length = tasks.length ∧
    (∀ (i : Nat) (task : Task), tasks[i]? = some task → strictEq (taskId task) id = false →
      (App.mergeUpdated id updated tasks)[i]? = some task) ∧
    (∀ (i : Nat) (task : Task), tasks[i]? = some task → strictEq (taskId task) id = true →
      ∃ merged, (App.mergeUpdated id updated tasks)[i]? = some merged ∧
        ∀ key, ownProp merged key =
          match ownProp (ownEnumerable updated) key with
          | some v => some v
          | none => ownProp task key) ∧
    ((ownProp (ownEnumerable updated) "id" = none ∨
        ownProp (ownEnumerable updated) "id" = some id) →
      (App.mergeUpdated id updated tasks).map taskId = tasks.map taskId) := by
  refine ⟨?_, ?_, ?_, ?_, ?_⟩
  · have hcall : Web.tasksAPI.updateTask env st id updatedTask = (st, .ok response) := by
      simp only [Web.tasksAPI.updateTask, Web.apiCall, hfetch, Web.tryBlock, hjson, hok,
        Bool.not_true]
      rfl
    simp only [App.updateTask, hcall, getField_of_present response "data" hpresent, hupdated]
  · simp [App.mergeUpdated]
  · intro i task hi hne
    simp [App.mergeUpdated, List.getElem?_map, hi, hne]
  · intro i task hi heq
    refine ⟨spread task updated, ?_, ?_⟩
    · simp [App.mergeUpdated, List.getElem?_map, hi, heq]
    · intro key
      exact ownProp_foldl_assignProp (ownEnumerable updated) task key hkeys
  · intro hid
    simp only [App.mergeUpdated, List.map_map]
    apply List.map_congr_left
    intro task _
    simp only [Function.comp]
    by_cases heq : strictEq (taskId task) id = true
    · rw [if_pos heq]
      have hmerged := ownProp_foldl_assignProp (ownEnumerable updated) task "id" hkeys
      have hid' : taskId task = id := strictEq_eq _ _ heq
      rcases hid with hnone | hsome
      · rw [hnone] at hmerged
        simp only [taskId, spread, hmerged]
      · rw [hsome] at hmerged
        have hleft : taskId (spread task updated) = id := by
          simp only [taskId, spread, hmerged, Option.getD_some]
        rw [hleft, hid']
    · rw [if_neg heq]

/-- C26, amended, at a list of two tasks and an answer for the second one. -/
theorem updateTask_local_list_witness :
    (App.updateTask
        ⟨.undefined, fun _ => .responded ⟨200, "OK",
          .ok (.obj [("data", .obj [("id", .num 8), ("title", .str "b2")])])⟩⟩
        [] [[("id", .num 7), ("title", .str "a")], [("id", .num 8), ("title", .str "b")]]
        (.num 8) (.obj [("title", .str "b2")])).2 =
      .ok (App.mergeUpdated (.num 8) (.obj [("id", .num 8), ("title", .str "b2")])
        [[("id", .num 7), ("title", .str "a")], [("id", .num 8), ("title", .str "b")]]) ∧
    (App.mergeUpdated (.num 8) (.obj [("id", .num 8), ("title", .str "b2")])
        [[("id", .num 7), ("title", .str "a")], [("id", .num 8), ("title", .str "b")]]).map
        taskId =
      List.map taskId
        [[("id", .num 7), ("title", .str "a")], [("id", .num 8), ("title", .str "b")]] :=
  ⟨(updateTask_local_list
      ⟨.undefined, fun _ => .responded ⟨200, "OK",
        .ok (.obj [("data", .obj [("id", .num 8), ("title", .str "b2")])])⟩⟩
      [] [[("id", .num 7), ("title", .str "a")], [("id", .num 8), ("title", .str "b")]]
      (.num 8) (.obj [("title", .str "b2")])
      ⟨200, "OK", .ok (.obj [("data", .obj [("id", .num 8), ("title", .str "b2")])])⟩
      (.obj [("data", .obj [("id", .num 8), ("title", .str "b2")])])
      (.obj [("id", .num 8), ("title", .str "b2")]) rfl rfl rfl
      ⟨(fun h => nomatch h), (fun h => nomatch h)⟩ rfl (by decide)).1,
    (updateTask_local_list
      ⟨.undefined, fun _ => .responded ⟨200, "OK",
        .ok (.obj [("data", .obj [("id", .num 8), ("title", .str "b2")])])⟩⟩
      [] [[("id", .num 7), ("title", .str "a")], [("id", .num 8), ("title", .str "b")]]
      (.num 8) (.obj [("title", .str "b2")])
      ⟨200, "OK", .ok (.obj [("data", .obj [("id", .num 8), ("title", .str "b2")])])⟩
      (.obj [("data", .obj [("id", .num 8), ("title", .str "b2")])])
      (.obj [("id", .num 8), ("title", .str "b2")]) rfl rfl rfl
      ⟨(fun h => nomatch h), (fun h => nomatch h)⟩ rfl (by decide)).2.2.2.2 (Or.inr rfl)⟩

/-! ## The task form and the registration form -/

/-- C27: `handleSubmit` of the task form calls `onSubmit` exactly when the title is not
empty after trimming, once, with a payload whose `title` and `description` are the
trimmed inputs and whose `priority` is the chosen one; the payload has a `due_date`
field, the input, exactly when the due date input is not empty, and a `status` field,
the chosen status, exactly when a task is being edited. -/
theorem taskForm_handleSubmit (onSubmit : JSVal → Except JSError Unit)
    (f : TaskForm.FormState) :
    ((TaskForm.handleSubmit onSubmit f).1 ≠ [] ↔ jsTrim f.title ≠ "") ∧
    (jsTrim f.title ≠ "" → (TaskForm.handleSubmit onSubmit f).1 = [TaskForm.taskData f]) ∧
    ownProp (ownEnumerable (TaskForm.taskData f)) "title" = some (.str (jsTrim f.title)) ∧
    ownProp (ownEnumerable (TaskForm.taskData f)) "description" =
      some (.str (jsTrim f.description)) ∧
    ownProp (ownEnumerable (TaskForm.taskData f)) "priority" = some (.str f.priority) ∧
    (f.dueDate ≠ "" →
      ownProp (ownEnumerable (TaskForm.taskData f)) "due_date" = some (.str f.dueDate)) ∧
    (f.dueDate = "" → ownProp (ownEnumerable (TaskForm.taskData f)) "due_date" = none) ∧
    (f.editingTask.truthy = true →
      ownProp (ownEnumerable (TaskForm.taskData f)) "status" = some (.str f.status)) ∧
    (f.editingTask.truthy = false →
      ownProp (ownEnumerable (TaskForm.taskData f)) "status" = none) := by
  have hcalls : jsTrim f.title ≠ "" →
      (TaskForm.handleSubmit onSubmit f).1 = [TaskForm.taskData f] := by
    intro ht
    simp only [TaskForm.handleSubmit, bne_iff_ne, ne_eq, ht, not_false_eq_true, if_true]
    cases onSubmit (TaskForm.taskData f) with
    | error e => rfl
    | ok u =>
      by_cases he : f.editingTask.truthy = true <;> simp [he]
  refine ⟨⟨fun h => ?_, fun h => ?_⟩, hcalls, ?_, ?_, ?_, ?_, ?_, ?_, ?_⟩
  · intro ht
    apply h
    simp [TaskForm.handleSubmit, ht]
  · rw [hcalls h]
    simp
  · by_cases hd : f.dueDate = "" <;> by_cases he : f.editingTask.truthy = true <;>
      simp [TaskForm.taskData, ownEnumerable, ownProp, hd, he]
  · by_cases hd : f.dueDate = "" <;> by_cases he : f.editingTask.truthy = true <;>
      simp [TaskForm.taskData, ownEnumerable, ownProp, hd, he]
  · by_cases hd : f.dueDate = "" <;> by_cases he : f.editingTask.truthy = true <;>
      simp [TaskForm.taskData, ownEnumerable, ownProp, hd, he]
  · intro hd
    by_cases he : f.editingTask.truthy = true <;>
      simp [TaskForm.taskData, ownEnumerable, ownProp, hd, he]
  · intro hd
    by_cases he : f.editingTask.truthy = true <;>
      simp [TaskForm.taskData, ownEnumerable, ownProp, hd, he]
  · intro he
    by_cases hd : f.dueDate = "" <;>
      simp [TaskForm.taskData, ownEnumerable, ownProp, hd, he]
  · intro he
    by_cases hd : f.dueDate = "" <;>
      simp [TaskForm.taskData, ownEnumerable, ownProp, hd, he]

/-- C27 at a new task with the title ` Buy milk ` and a due date. -/
theorem taskForm_handleSubmit_witness :
    (TaskForm.handleSubmit (fun _ => .ok ())
        ⟨" Buy milk ", "", "high", "2026-01-31", "open", .null⟩).1 =
      [TaskForm.taskData ⟨" Buy milk ", "", "high", "2026-01-31", "open", .null⟩] ∧
    ownProp (ownEnumerable (TaskForm.taskData
        ⟨" Buy milk ", "", "high", "2026-01-31", "open", .null⟩)) "due_date" =
      some (.str "2026-01-31") ∧
    ownProp (ownEnumerable (TaskForm.taskData
        ⟨" Buy milk ", "", "high", "2026-01-31", "open", .null⟩)) "status" = none :=
  ⟨(taskForm_handleSubmit (fun _ => .ok ())
      ⟨" Buy milk ", "", "high", "2026-01-31", "open", .null⟩).2.1 (by decide),
    (taskForm_handleSubmit (fun _ => .ok ())
      ⟨" Buy milk ", "", "high", "2026-01-31", "open", .null⟩).2.2.2.2.2.1 (by decide),
    (taskForm_handleSubmit (fun _ => .ok ())
      ⟨" Buy milk ", "", "high", "2026-01-31", "open", .null⟩).2.2.2.2.2.2.2.2 rfl⟩

/-- C30: `handleSubmit` of the registration form calls `register`, once and with the
four inputs, exactly when the password equals the confirmation and has at least 8
characters (counted as `length` counts them, in UTF-16 code units); when the two
differ no call is made and the error is `Passwords do not match`; when they are equal
and the password is shorter, no call is made and the error is
`Password must be at least 8 characters long`. -/
theorem register_handleSubmit (register : Register.RegisterCall → Except JSError Unit)
    (name email password passwordConfirmation : String) :
    ((Register.handleSubmit register name email password passwordConfirmation).1 =
        [⟨name, email, password, passwordConfirmation⟩] ↔
      password = passwordConfirmation ∧ 8 ≤ jsLength password) ∧
    ((Register.handleSubmit register name email password passwordConfirmation).1 = [] ↔
      ¬(password = passwordConfirmation ∧ 8 ≤ jsLength password)) ∧
    (password ≠ passwordConfirmation →
      Register.handleSubmit register name email password passwordConfirmation =
        ([], "Passwords do not match")) ∧
    (password = passwordConfirmation → jsLength password < 8 →
      Register.handleSubmit register name email password passwordConfirmation =
        ([], "Password must be at least 8 characters long")) := by
  by_cases hp : password = passwordConfirmation
  · by_cases hl : jsLength password < 8
    · have hres : Register.handleSubmit register name email password passwordConfirmation =
          ([], "Password must be at least 8 characters long") := by
        simp [Register.handleSubmit, hp, hl]
        intro h
        rw [hp] at hl
        omega
      refine ⟨?_, ?_, fun h => absurd hp h, fun _ _ => hres⟩
      · rw [hres]
        constructor
        · intro h; simp at h
        · intro h; omega
      · rw [hres]
        constructor
        · intro _ h; omega
        · intro _; rfl
    · have hcalls : (Register.handleSubmit register name email password
          passwordConfirmation).1 = [⟨name, email, password, passwordConfirmation⟩] := by
        have hl' : ¬ jsLength passwordConfirmation < 8 := by rw [← hp]; exact hl
        simp only [Register.handleSubmit, hp, bne_self_eq_false, Bool.false_eq_true, if_false,
          hl']
        cases register ⟨name, email, passwordConfirmation, passwordConfirmation⟩ <;> rfl
      refine ⟨?_, ?_, fun h => absurd hp h, fun _ h => absurd h hl⟩
      · rw [hcalls]
        constructor
        · intro _; exact ⟨hp, by omega⟩
        · intro _; rfl
      · rw [hcalls]
        constructor
        · intro h; simp at h
        · intro h; exact absurd ⟨hp, by omega⟩ h
  · have hres : Register.handleSubmit register name email password passwordConfirmation =
        ([], "Passwords do not match") := by
      simp [Register.handleSubmit, hp]
    refine ⟨?_, ?_, fun _ => hres, fun h => absurd h hp⟩
    · rw [hres]
      constructor
      · intro h; simp at h
      · intro h; exact absurd h.1 hp
    · rw [hres]
      constructor
      · intro _ h; exact hp h.1
      · intro _; rfl

/-- C30 at a password of seven characters, at two different inputs and at a password
of eight characters. -/
theorem register_handleSubmit_witness :
    Register.handleSubmit (fun _ => .ok ()) "Ann" "ann@example.com" "hunter2" "hunter2" =
      ([], "Password must be at least 8 characters long") ∧
    Register.handleSubmit (fun _ => .ok ()) "Ann" "ann@example.com" "hunter22" "hunter23" =
      ([], "Passwords do not match") ∧
    (Register.handleSubmit (fun _ => .ok ()) "Ann" "ann@example.com" "hunter22" "hunter22").1 =
      [⟨"Ann", "ann@example.com", "hunter22", "hunter22"⟩] :=
  ⟨(register_handleSubmit (fun _ => .ok ()) "Ann" "ann@example.com" "hunter2" "hunter2").2.2.2
      rfl (by decide),
    (register_handleSubmit (fun _ => .ok ()) "Ann" "ann@example.com" "hunter22" "hunter23").2.2.1
      (by decide),
    (register_handleSubmit (fun _ => .ok ()) "Ann" "ann@example.com" "hunter22" "hunter22").1.mpr
      ⟨rfl, by decide⟩⟩

/-! ## The percentage of the dashboard -/

theorem abs_roundHalfEven_sub_le (x : ℚ) : |(roundHalfEven x : ℚ) - x| ≤ 1 / 2 := by
  have h1 := Int.floor_le x
  have h2 := Int.lt_floor_add_one x
  unfold roundHalfEven
  split_ifs <;> rw [abs_le] <;> constructor <;> push_cast <;> linarith

/-- The relative error of one rounding to double is at most `2 ^ (-53)`. -/
theorem nearestDouble_error (q : ℚ) (hq : 0 < q) :
    |nearestDouble q - q| ≤ q / 2 ^ 53 := by
  have hu : (0 : ℚ) < 2 ^ (Int.log 2 q - 52) := zpow_pos (by norm_num) _
  have hlog : (2 : ℚ) ^ (Int.log 2 q) ≤ q := by
    have := Int.zpow_log_le_self (b := 2) (r := q) (by norm_num) hq
    simpa using this
  have hsplit : (2 : ℚ) ^ (Int.log 2 q - 52) = 2 ^ (Int.log 2 q) / 2 ^ 52 := by
    rw [zpow_sub₀ (by norm_num)]
    norm_num
  have hr := abs_roundHalfEven_sub_le (q / 2 ^ (Int.log 2 q - 52))
  have heq : nearestDouble q - q =
      ((roundHalfEven (q / 2 ^ (Int.log 2 q - 52)) : ℚ) - q / 2 ^ (Int.log 2 q - 52)) *
        2 ^ (Int.log 2 q - 52) := by
    simp only [nearestDouble, if_pos hq]
    field_simp
  rw [heq, abs_mul, abs_of_pos hu]
  calc |(roundHalfEven (q / 2 ^ (Int.log 2 q - 52)) : ℚ) - q / 2 ^ (Int.log 2 q - 52)| *
        2 ^ (Int.log 2 q - 52)
      ≤ 1 / 2 * 2 ^ (Int.log 2 q - 52) := by
        exact mul_le_mul_of_nonneg_right hr hu.le
    _ = 2 ^ (Int.log 2 q) / 2 ^ 53 := by rw [hsplit]; ring
    _ ≤ q / 2 ^ 53 := by
        apply div_le_div_of_nonneg_right hlog
        positivity

theorem nearestDouble_zero : nearestDouble 0 = 0 := by
  simp [nearestDouble]

/-- The value `(q * 100)` computed in doubles is within `2 ^ (-45)` of the exact one,
for a quotient `q` between 0 and 1. -/
theorem computed_close (q : ℚ) (hq0 : 0 < q) (hq1 : q ≤ 1) :
    |nearestDouble (nearestDouble q * 100) - 100 * q| < 1 / 2 ^ 45 := by
  have h1 := abs_le.mp (nearestDouble_error q hq0)
  have hy : 0 < nearestDouble q := by
    have : q / 2 ^ 53 < q := by
      rw [div_lt_iff₀ (by positivity)]
      nlinarith
    linarith [h1.1]
  have hz : 0 < nearestDouble q * 100 := by positivity
  have h2 := abs_le.mp (nearestDouble_error _ hz)
  have e1 : q / 2 ^ 53 = q * (1 / 2 ^ 53) := by ring
  have e2 : nearestDouble q * 100 / 2 ^ 53 = nearestDouble q * 100 * (1 / 2 ^ 53) := by ring
  rw [e1] at h1
  rw [e2] at h2
  norm_num at h1 h2 ⊢
  rw [abs_lt]
  constructor <;> linarith [h1.1, h1.2, h2.1, h2.2]

theorem percentage_of_pos (count total : ℤ) (ht : 0 < total) :
    PriorityBar.percentage count total =
      ⌊nearestDouble (nearestDouble ((count : ℚ) / total) * 100) + 1 / 2⌋ := by
  simp [PriorityBar.percentage, ht, mathRound]

/-- The computed percentage is an integer nearest to the exact one, and the rounding
half up of the exact one unless that lies halfway between two integers, for
`0 ≤ count ≤ total` and `0 < total ≤ 2 ^ 44`. -/
theorem percentage_nearest (count total : ℤ) (hc : 0 ≤ count) (hct : count ≤ total)
    (ht : 0 < total) (hbig : total ≤ 2 ^ 44) :
    |(PriorityBar.percentage count total : ℚ) - 100 * count / total| ≤ 1 / 2 ∧
    ((200 * count + total) % (2 * total) ≠ 0 →
      PriorityBar.percentage count total = ⌊(100 * count / total : ℚ) + 1 / 2⌋) := by
  have htq : (0 : ℚ) < total := by exact_mod_cast ht
  have hp := percentage_of_pos count total ht
  rcases hc.eq_or_lt with h0 | hpos
  · subst h0
    have : PriorityBar.percentage 0 total = 0 := by
      rw [hp]
      simp [nearestDouble_zero]
      norm_num
    rw [this]
    constructor
    · norm_num
    · intro _
      norm_num
  · have hcq : (0 : ℚ) < count := by exact_mod_cast hpos
    have hq0 : (0 : ℚ) < (count : ℚ) / total := div_pos hcq htq
    have hq1 : (count : ℚ) / total ≤ 1 := by
      rw [div_le_one htq]
      exact_mod_cast hct
    have hclose := abs_lt.mp (computed_close _ hq0 hq1)
    set x := nearestDouble (nearestDouble ((count : ℚ) / total) * 100) with hx
    have hX : (100 : ℚ) * ((count : ℚ) / total) = 100 * count / total := by ring
    rw [hX] at hclose
    have hD : (0 : ℤ) < 2 * total := by omega
    have hDq : (0 : ℚ) < 2 * total := by positivity
    have hND : (100 * count / total : ℚ) + 1 / 2 =
        ((200 * count + total : ℤ) : ℚ) / ((2 * total : ℤ) : ℚ) := by
      push_cast
      field_simp
      ring
    have hdiv := Int.emod_add_ediv (200 * count + total) (2 * total)
    have hrem0 := Int.emod_nonneg (200 * count + total) (ne_of_gt hD)
    have hrem1 := Int.emod_lt_of_pos (200 * count + total) hD
    set m := (200 * count + total) / (2 * total) with hm
    set rem := (200 * count + total) % (2 * total) with hrem
    have hNDq : (100 * count / total : ℚ) + 1 / 2 = m + (rem : ℚ) / (2 * total) := by
      rw [hND, ← hdiv]
      push_cast
      field_simp
      ring
    have hinvD : (1 : ℚ) / 2 ^ 45 ≤ 1 / (2 * total) := by
      apply one_div_le_one_div_of_le hDq
      have : (total : ℚ) ≤ 2 ^ 44 := by exact_mod_cast hbig
      linarith
    have hrem0q : (0 : ℚ) ≤ rem := by exact_mod_cast hrem0
    by_cases htie : rem = 0
    · have hXm : (100 * count / total : ℚ) + 1 / 2 = m := by
        rw [hNDq, htie]; simp
      have hle1 : (1 : ℚ) / (2 * total) ≤ 1 / 2 := by
        apply one_div_le_one_div_of_le (by norm_num)
        have : (1 : ℚ) ≤ total := by exact_mod_cast ht
        linarith
      have hfl : ⌊x + 1 / 2⌋ = m - 1 ∨ ⌊x + 1 / 2⌋ = m := by
        by_cases hlow : (m : ℚ) ≤ x + 1 / 2
        · right
          rw [Int.floor_eq_iff]
          constructor
          · exact hlow
          · linarith [hclose.2]
        · left
          rw [Int.floor_eq_iff]
          push_cast
          constructor
          · linarith [hclose.1]
          · linarith
      constructor
      · rw [hp]
        rcases hfl with h | h <;> rw [h] <;> rw [abs_le] <;> push_cast <;>
          constructor <;> linarith
      · intro hne
        exact absurd htie hne
    · have hrem1' : (1 : ℚ) ≤ rem := by
        have : 1 ≤ rem := by omega
        exact_mod_cast this
      have hremq : (rem : ℚ) ≤ 2 * total - 1 := by
        have : rem ≤ 2 * total - 1 := by omega
        exact_mod_cast this
      have hfrac_lo : (1 : ℚ) / (2 * total) ≤ (rem : ℚ) / (2 * total) := by
        apply div_le_div_of_nonneg_right hrem1' hDq.le
      have hfrac_hi : (rem : ℚ) / (2 * total) ≤ 1 - 1 / (2 * total) := by
        rw [div_le_iff₀ hDq]
        field_simp
        linarith
      have hfl : ⌊x + 1 / 2⌋ = m := by
        rw [Int.floor_eq_iff]
        constructor <;> linarith [hclose.1, hclose.2]
      have hflX : ⌊(100 * count / total : ℚ) + 1 / 2⌋ = m := by
        rw [Int.floor_eq_iff, hNDq]
        have : (0 : ℚ) < 1 / (2 * total) := by positivity
        constructor <;> linarith
      constructor
      · rw [hp, hfl, abs_le]
        have : (0 : ℚ) < 1 / (2 * total) := by positivity
        constructor <;> linarith
      · intro _
        rw [hp, hfl, hflX]

theorem binade_eq (q : ℚ) (e : ℤ) (hq : 0 < q) (h1 : (2 : ℚ) ^ e ≤ q) (h2 : q < 2 ^ (e + 1)) :
    Int.log 2 q = e := by
  have ha : e ≤ Int.log 2 q := by
    rw [← Int.zpow_le_iff_le_log (by norm_num) hq]
    simpa using h1
  have hb : Int.log 2 q < e + 1 := by
    rw [← Int.lt_zpow_iff_log_lt (by norm_num) hq]
    simpa using h2
  omega

theorem roundHalfEven_down (x : ℚ) (m : ℤ) (h1 : (m : ℚ) ≤ x) (h2 : x - m < 1 / 2) :
    roundHalfEven x = m := by
  have hf : ⌊x⌋ = m := by
    rw [Int.floor_eq_iff]
    constructor <;> linarith
  simp only [roundHalfEven, hf, if_pos h2]

theorem roundHalfEven_up (x : ℚ) (m : ℤ) (h1 : x < (m : ℚ)) (h2 : 1 / 2 < x - (m - 1)) :
    roundHalfEven x = m := by
  have hf : ⌊x⌋ = m - 1 := by
    rw [Int.floor_eq_iff]
    push_cast
    constructor <;> linarith
  have h3 : ¬ (x - ((m - 1 : ℤ) : ℚ) < 1 / 2) := by push_cast; linarith
  have h4 : 1 / 2 < x - ((m - 1 : ℤ) : ℚ) := by push_cast; linarith
  simp only [roundHalfEven, hf, if_neg h3, if_pos h4]
  omega

theorem nearestDouble_eq (q : ℚ) (e m : ℤ) (hq : 0 < q) (h1 : (2 : ℚ) ^ e ≤ q)
    (h2 : q < 2 ^ (e + 1)) (hm : roundHalfEven (q / 2 ^ (e - 52)) = m) :
    nearestDouble q = m * 2 ^ (e - 52) := by
  simp only [nearestDouble, if_pos hq, binade_eq q e hq h1 h2, hm]

theorem quotient_23_40 :
    nearestDouble ((23 : ℚ) / 40) = 5179139571476070 * 2 ^ (-53 : ℤ) := by
  have h := nearestDouble_eq ((23 : ℚ) / 40) (-1) 5179139571476070 (by norm_num) (by norm_num)
    (by norm_num) (roundHalfEven_down _ _ (by norm_num) (by norm_num))
  simpa using h

theorem product_23_40 :
    nearestDouble (5179139571476070 * 2 ^ (-53 : ℤ) * 100) =
      8092405580431359 * 2 ^ (-47 : ℤ) := by
  have h := nearestDouble_eq (5179139571476070 * 2 ^ (-53 : ℤ) * 100) 5 8092405580431359
    (by norm_num) (by norm_num) (by norm_num)
    (roundHalfEven_down _ _ (by norm_num) (by norm_num))
  simpa using h

theorem quotient_large :
    nearestDouble ((44953261568032 : ℚ) / 63763491585861) =
      6350075474592399 * 2 ^ (-53 : ℤ) := by
  have h := nearestDouble_eq ((44953261568032 : ℚ) / 63763491585861) (-1) 6350075474592399
    (by norm_num) (by norm_num) (by norm_num)
    (roundHalfEven_up _ _ (by norm_num) (by norm_num))
  simpa using h

theorem product_large :
    nearestDouble (6350075474592399 * 2 ^ (-53 : ℤ) * 100) =
      4960996464525312 * 2 ^ (-46 : ℤ) := by
  have h := nearestDouble_eq (6350075474592399 * 2 ^ (-53 : ℤ) * 100) 6 4960996464525312
    (by norm_num) (by norm_num) (by norm_num)
    (roundHalfEven_up _ _ (by norm_num) (by norm_num))
  simpa using h

/-- C29, counterexample: for 23 of 40 the exact percentage is 57.5, which rounds to
58, but the doubles give `(23 / 40) * 100 = 57.49999999999999` and `PriorityBar` shows
57; and for `count = 44953261568032`, `total = 63763491585861` the exact percentage is
just below 70.5, whose nearest integer is 70, but the doubles give 70.5 and
`PriorityBar` shows 71, which is not a nearest integer. -/
theorem percentage_not_rounded :
    PriorityBar.percentage 23 40 = 57 ∧
    ⌊(100 * ((23 : ℤ) : ℚ) / ((40 : ℤ) : ℚ)) + 1 / 2⌋ = 58 ∧
    PriorityBar.percentage 44953261568032 63763491585861 = 71 ∧
    (1 : ℚ) / 2 < |((71 : ℤ) : ℚ) -
      100 * ((44953261568032 : ℤ) : ℚ) / ((63763491585861 : ℤ) : ℚ)| := by
  refine ⟨?_, ?_, ?_, ?_⟩
  · rw [percentage_of_pos 23 40 (by norm_num)]
    have hq : (((23 : ℤ) : ℚ) / ((40 : ℤ) : ℚ)) = (23 : ℚ) / 40 := by norm_num
    rw [hq, quotient_23_40, product_23_40, Int.floor_eq_iff]
    constructor <;> norm_num
  · rw [Int.floor_eq_iff]
    constructor <;> norm_num
  · rw [percentage_of_pos _ _ (by norm_num)]
    have hq : (((44953261568032 : ℤ) : ℚ) / ((63763491585861 : ℤ) : ℚ)) =
        (44953261568032 : ℚ) / 63763491585861 := by norm_num
    rw [hq, quotient_large, product_large, Int.floor_eq_iff]
    constructor <;> norm_num
  · rw [lt_abs]
    left
    norm_num

/-- C29, amended: the percentage of `PriorityBar` is 0 when the total is not positive;
for `0 ≤ count ≤ total` and `0 < total ≤ 2 ^ 44` it is between 0 and 100, at distance
at most one half from `100 * count / total`, and equal to that value rounded half up
unless the value lies exactly halfway between two integers. -/
theorem percentage_spec (count total : ℤ) :
    (total ≤ 0 → PriorityBar.percentage count total = 0) ∧
    (0 ≤ count → count ≤ total → 0 < total → total ≤ 2 ^ 44 →
      0 ≤ PriorityBar.percentage count total ∧ PriorityBar.percentage count total ≤ 100 ∧
      |(PriorityBar.percentage count total : ℚ) - 100 * count / total| ≤ 1 / 2 ∧
      ((200 * count + total) % (2 * total) ≠ 0 →
        PriorityBar.percentage count total = ⌊(100 * count / total : ℚ) + 1 / 2⌋)) := by
  constructor
  · intro ht
    simp [PriorityBar.percentage, not_lt.mpr ht]
  · intro hc hct ht hbig
    obtain ⟨hnear, hround⟩ := percentage_nearest count total hc hct ht hbig
    have htq : (0 : ℚ) < total := by exact_mod_cast ht
    have hX0 : (0 : ℚ) ≤ 100 * count / total := by
      have : (0 : ℚ) ≤ count := by exact_mod_cast hc
      positivity
    have hX1 : (100 * count / total : ℚ) ≤ 100 := by
      rw [div_le_iff₀ htq]
      have : (count : ℚ) ≤ total := by exact_mod_cast hct
      linarith
    have habs := abs_le.mp hnear
    refine ⟨?_, ?_, hnear, hround⟩
    · have h : (-1 : ℚ) < (PriorityBar.percentage count total : ℚ) := by linarith [habs.1]
      have h' : (-1 : ℤ) < PriorityBar.percentage count total := by exact_mod_cast h
      omega
    · have h : (PriorityBar.percentage count total : ℚ) < 101 := by linarith [habs.2]
      have h' : PriorityBar.percentage count total < (101 : ℤ) := by exact_mod_cast h
      omega

/-- C29, amended, at a total of 0 and at 1 of 3. -/
theorem percentage_spec_witness :
    PriorityBar.percentage 5 0 = 0 ∧
    (0 ≤ PriorityBar.percentage 1 3 ∧ PriorityBar.percentage 1 3 ≤ 100 ∧
      |(PriorityBar.percentage 1 3 : ℚ) - 100 * ((1 : ℤ) : ℚ) / ((3 : ℤ) : ℚ)| ≤ 1 / 2 ∧
      (((200 : ℤ) * 1 + 3) % (2 * 3) ≠ 0 →
        PriorityBar.percentage 1 3 = ⌊(100 * ((1 : ℤ) : ℚ) / ((3 : ℤ) : ℚ)) + 1 / 2⌋)) :=
  ⟨(percentage_spec 5 0).1 (by decide),
    (percentage_spec 1 3).2 (by decide) (by decide) (by decide) (by norm_num)⟩

/-! ## Evaluations of the model on concrete values -/

theorem toJSString_nested_array :
    JSVal.toJSString (.arr [.num 1, .null, .str "a", .arr [.num (-2), .bool true]]) =
      "1,,a,-2,true" := by decide

theorem serialize_encodes_values :
    URLSearchParams.serialize [("search", "a b&c"), ("page", "2")] =
      "search=a+b%26c&page=2" := by decide

theorem getTasksPath_all_fields :
    Web.tasksAPI.getTasksPath ⟨.str "pending", .str "high", .str "a b", .undefined,
        .undefined, .num 2, .undefined⟩ =
      "/tasks?status=open&priority=high&search=a+b&page=2" := by decide

theorem getTasksParams_completed :
    RN.tasksAPI.getTasksParams ⟨.str "completed", .str "all", .str "", .undefined,
        .undefined, .undefined, .num 20⟩ =
      [("status", "done"), ("per_page", "20")] := by decide

/-- A validation message that is an object with an own `toString` property cannot be
converted to a text: the `join` of `handleError` raises a `TypeError`, which leaves
`handleError`, and the browser `apiCall` raises the same `TypeError` instead of an
`Error` with the joined text. -/
theorem unconvertible_validation_message_raises :
    RN.handleError
        ⟨some ⟨422, .obj [("errors", .obj [("a", .arr [.obj [("toString", .num 1)]])])]⟩, true,
          .str "Request failed with status code 422"⟩ (.str "Login failed") =
      .error (RN.ErrorObject.ofJSError
        ⟨.typeError, "Cannot convert object to primitive value"⟩) ∧
    (Web.apiCall
      ⟨.undefined, fun _ => .responded ⟨422, "Unprocessable Content",
        .ok (.obj [("errors", .obj [("a", .arr [.obj [("toString", .num 1)]])])])⟩⟩
      [] "/register" Web.CallOptions.empty).2 =
        .error ⟨.typeError, "Cannot convert object to primitive value"⟩ := by
  refine ⟨rfl, rfl⟩

/-- A `message` that is an object with an own `toString` property cannot be converted
either: `new Error(message)` raises a `TypeError` in the browser client, while
`handleError`, which converts nothing, returns the object as the error. -/
theorem unconvertible_message_raises :
    (Web.apiCall
      ⟨.undefined, fun _ => .responded ⟨500, "Internal Server Error",
        .ok (.obj [("message", .obj [("toString", .num 1)])])⟩⟩
      [] "/tasks" Web.CallOptions.empty).2 =
        .error ⟨.typeError, "Cannot convert object to primitive value"⟩ ∧
    RN.handleError ⟨some ⟨500, .obj [("message", .obj [("toString", .num 1)])]⟩, true,
        .str "Request failed with status code 500"⟩ (.str "Failed to load tasks") =
      .ok (RN.Result.failure (.obj [("toString", .num 1)])) := by
  refine ⟨rfl, rfl⟩

/-- An object without an own `toString` property is converted by
`Object.prototype.toString`. -/
theorem plain_object_message_converted :
    (Web.apiCall
      ⟨.undefined, fun _ => .responded ⟨500, "Internal Server Error",
        .ok (.obj [("message", .obj [("code", .num 7)])])⟩⟩
      [] "/tasks" Web.CallOptions.empty).2 = .error ⟨.error, "[object Object]"⟩ := by
  rfl

end TaskTracker
